import Mathlib

/-!
# OCCT: transform persistence, text labels and dimension validity

A shallow embedding of these pieces of the OpenGl and AIS packages:

* `OpenGl_View::BeginTransformPersistence` / `EndTransformPersistence`
  (`src/OpenGl/OpenGl_View.cxx`), over an explicit model of the fixed-function
  matrix stacks of the GL context;
* the measuring loop of `OpenGl_Text::StringSize` (`src/OpenGl/OpenGl_Text.cxx`);
* the label `OpenGl_Text`: its constructors, `Init`, `SetFontSize`, `Release`, `FontKey`,
  `FindFont`, `render`, `setupMatrix`, `drawText` and the font names of the vector export;
* the validity tests of `AIS_AngleDimension` and `AIS_DiameterDimension`, of which the
  sources hold the declarations only.

Conventions of the embedding.

* `GLdouble`, `GLfloat` and `Standard_ShortReal` values are exact rationals: rounding,
  infinities and NaN are not modelled, and division by zero yields `0`.
* A 4x4 matrix is indexed exactly like the C arrays of the source, `m i j` being
  `aMatrix[i][j]`; with the column-major layout of OpenGL this is column `i`, row `j`.
* The desktop-GL build is modelled (`GL_ES_VERSION_2_0` not defined).
* A matrix stack is a non-empty list without an upper bound on its depth; popping a stack
  that holds a single matrix leaves it unchanged, as `glPopMatrix` does (`GL_STACK_UNDERFLOW`).
* `gluProject`, `gluUnProject`, the `TPF_*` flag values and the camera are not part of the
  sources at hand and are parameters of the model.
* The shader manager is observed through the list of calls made to it.
-/

namespace OCCT

/-! ## Matrices and the GL matrix stacks -/

/-- A point or vector of three coordinates. -/
structure Vec3 where
  x : ℚ
  y : ℚ
  z : ℚ
deriving DecidableEq

/-- A 4x4 matrix, indexed like `GLdouble aMatrix[4][4]` in the source. -/
abbrev Mat4 := Fin 4 → Fin 4 → ℚ

/-- The constant `THE_IDENTITY_MATRIX`. -/
def THE_IDENTITY_MATRIX : Mat4 := fun i j => if i = j then 1 else 0

/-- The assignment `aMatrix[i][j] = v`. -/
def Mat4.set (m : Mat4) (i j : Fin 4) (v : ℚ) : Mat4 :=
  fun a b => if a = i ∧ b = j then v else m a b

/-- The product `c * m` of two column-major matrices, as computed by `glMultMatrixd`
when `c` is the current matrix: entry `[i][j]` is the sum over `k` of
`c[k][j] * m[i][k]`. -/
def Mat4.mul (c m : Mat4) : Mat4 :=
  fun i j => c 0 j * m i 0 + c 1 j * m i 1 + c 2 j * m i 2 + c 3 j * m i 3

/-- The matrix that `glTranslated (x, y, z)` multiplies the current matrix by. -/
def translationMatrix (x y z : ℚ) : Mat4 :=
  ((THE_IDENTITY_MATRIX.set 3 0 x).set 3 1 y).set 3 2 z

/-- A GL matrix stack: the current matrix `top` and the saved matrices under it. -/
structure MatrixStack where
  top : Mat4
  below : List Mat4

/-- Number of matrices on the stack (`GL_*_STACK_DEPTH`). -/
def MatrixStack.depth (s : MatrixStack) : Nat := s.below.length + 1

/-- The operation `glPushMatrix` on one stack: the current matrix is duplicated. -/
def MatrixStack.push (s : MatrixStack) : MatrixStack :=
  { top := s.top, below := s.top :: s.below }

/-- The operation `glPopMatrix` on one stack; a stack of depth one is left unchanged. -/
def MatrixStack.pop (s : MatrixStack) : MatrixStack :=
  match s.below with
  | [] => s
  | m :: rest => { top := m, below := rest }

/-- Replace the current matrix of a stack. -/
def MatrixStack.load (s : MatrixStack) (m : Mat4) : MatrixStack :=
  { top := m, below := s.below }

/-- The values of `glMatrixMode`. -/
inductive MatrixMode where
  | GL_MODELVIEW
  | GL_PROJECTION
  | GL_TEXTURE
deriving DecidableEq

/-- The viewport rectangle `GLint aViewport[4]`. -/
structure Viewport where
  x : Int
  y : Int
  width : Int
  height : Int
deriving DecidableEq

/-- A call received by the shader manager of the context, with the matrix handed over. -/
inductive ShaderCall where
  | UpdateWorldViewStateTo (m : Mat4)
  | UpdateProjectionStateTo (m : Mat4)
  | RevertWorldViewStateTo (m : Mat4)
  | RevertProjectionStateTo (m : Mat4)

/-- The part of `OpenGl_Context` the view works on: the three matrix stacks, the matrix
mode, the viewport, and the calls made so far to `ShaderManager()` (oldest first). -/
structure OpenGl_Context where
  modelView : MatrixStack
  projection : MatrixStack
  texture : MatrixStack
  matrixMode : MatrixMode
  viewport : Viewport
  shaderCalls : List ShaderCall

/-- The operation `glMatrixMode`. -/
def glMatrixMode (mode : MatrixMode) (c : OpenGl_Context) : OpenGl_Context :=
  { c with matrixMode := mode }

/-- Apply a stack operation to the stack selected by the matrix mode. -/
def onCurrentStack (f : MatrixStack → MatrixStack) (c : OpenGl_Context) : OpenGl_Context :=
  match c.matrixMode with
  | .GL_MODELVIEW => { c with modelView := f c.modelView }
  | .GL_PROJECTION => { c with projection := f c.projection }
  | .GL_TEXTURE => { c with texture := f c.texture }

/-- The operation `glPushMatrix`. -/
def glPushMatrix (c : OpenGl_Context) : OpenGl_Context := onCurrentStack MatrixStack.push c

/-- The operation `glPopMatrix`. -/
def glPopMatrix (c : OpenGl_Context) : OpenGl_Context := onCurrentStack MatrixStack.pop c

/-- The operation `glLoadIdentity`. -/
def glLoadIdentity (c : OpenGl_Context) : OpenGl_Context :=
  onCurrentStack (fun s => s.load THE_IDENTITY_MATRIX) c

/-- The operation `glMultMatrixd`. -/
def glMultMatrixd (m : Mat4) (c : OpenGl_Context) : OpenGl_Context :=
  onCurrentStack (fun s => s.load (s.top.mul m)) c

/-- The operation `glTranslated`. -/
def glTranslated (x y z : ℚ) (c : OpenGl_Context) : OpenGl_Context :=
  glMultMatrixd (translationMatrix x y z) c

/-- Record a call to the shader manager. -/
def shaderCall (k : ShaderCall) (c : OpenGl_Context) : OpenGl_Context :=
  { c with shaderCalls := c.shaderCalls ++ [k] }

/-! ## Transform persistence -/

/-- The descriptor `TEL_TRANSFORM_PERSISTENCE`: a mode bitmask and an anchor point. -/
structure TEL_TRANSFORM_PERSISTENCE where
  mode : Nat
  pointX : ℚ
  pointY : ℚ
  pointZ : ℚ
deriving DecidableEq

/-- The constant `myDefaultTransPers = { 0, 0.F, 0.F, 0.F }`. -/
def myDefaultTransPers : TEL_TRANSFORM_PERSISTENCE :=
  { mode := 0, pointX := 0, pointY := 0, pointZ := 0 }

/-- The values of the flags `TPF_PAN`, `TPF_ZOOM`, `TPF_ROTATE` and `TPF_TRIEDRON`; their
header is not among the sources, so they are a parameter. -/
structure TP_FLAGS where
  TPF_PAN : Nat
  TPF_ZOOM : Nat
  TPF_ROTATE : Nat
  TPF_TRIEDRON : Nat

/-- The GLU library as seen by the view. Both functions return `none` when GLU reports
failure and leaves its output variables untouched; `uninit` is what is then found in output
variables that the caller did not initialise. -/
structure Glu where
  gluProject : Vec3 → Mat4 → Mat4 → Viewport → Option Vec3
  gluUnProject : Vec3 → Mat4 → Mat4 → Viewport → Option Vec3
  uninit : Vec3

/-- The fields of `OpenGl_View` used by transform persistence; `axialScale` is the value
of `myCamera->AxialScale()`. -/
structure OpenGl_View where
  myTransPers : TEL_TRANSFORM_PERSISTENCE
  myIsTransPers : Bool
  axialScale : Vec3

/-- The constructor of `OpenGl_View`, for the fields above:
`myTransPers (&myDefaultTransPers)`, `myIsTransPers (Standard_False)`. -/
def OpenGl_View.new (axialScale : Vec3) : OpenGl_View :=
  { myTransPers := myDefaultTransPers, myIsTransPers := false, axialScale := axialScale }

/-- A view together with the GL context it draws into. -/
abbrev ViewState := OpenGl_View × OpenGl_Context

/-- The method `OpenGl_View::EndTransformPersistence`. -/
def EndTransformPersistence (s : ViewState) : ViewState :=
  if s.1.myIsTransPers then
    -- restore matrix
    let c := glMatrixMode .GL_PROJECTION s.2
    let c := glPopMatrix c
    let c := glMatrixMode .GL_MODELVIEW c
    let c := glPopMatrix c
    let v := { s.1 with myIsTransPers := false }
    let aResultWorldView := c.modelView.top
    let aResultProjection := c.projection.top
    -- set OCCT state uniform variables
    let c := shaderCall (.RevertWorldViewStateTo aResultWorldView) c
    let c := shaderCall (.RevertProjectionStateTo aResultProjection) c
    (v, c)
  else s

/-- Lines 295-315 of `BeginTransformPersistence`: drop the level pushed by a previous
call if there is one, then push both stacks and reset their current matrices. -/
def pushAndReset (s : ViewState) : ViewState :=
  let c := s.2
  let c := if s.1.myIsTransPers then
      -- pop matrix stack - it will be overridden later
      glPopMatrix (glMatrixMode .GL_MODELVIEW (glPopMatrix (glMatrixMode .GL_PROJECTION c)))
    else c
  let v := if s.1.myIsTransPers then s.1 else { s.1 with myIsTransPers := true }
  -- push matrices into stack and reset them
  let c := glMatrixMode .GL_MODELVIEW c
  let c := glLoadIdentity (glPushMatrix c)
  let c := glMatrixMode .GL_PROJECTION c
  let c := glLoadIdentity (glPushMatrix c)
  (v, c)

/-- Lines 326-336: the fixed-zoom multiplier applied to the projection diagonal. -/
def preventZooming (fl : TP_FLAGS) (mode : Nat) (aViewportW aViewportH : ℚ)
    (aProjMatrix : Mat4) : Mat4 :=
  if mode &&& fl.TPF_ZOOM ≠ 0 ∨ mode = fl.TPF_TRIEDRON then
    let aDet2 : ℚ := 0.002 / (if aViewportW > aViewportH then aProjMatrix 1 1 else aProjMatrix 0 0)
    let p := aProjMatrix.set 0 0 (aProjMatrix 0 0 * aDet2)
    let p := p.set 1 1 (p 1 1 * aDet2)
    p.set 2 2 (p 2 2 * aDet2)
  else aProjMatrix

/-- Lines 338-348: the translation entries `[3][0]`, `[3][1]`, `[3][2]` are zeroed. -/
def preventTranslation (fl : TP_FLAGS) (mode : Nat) (m : Mat4) : Mat4 :=
  if mode &&& fl.TPF_PAN ≠ 0 ∨ mode = fl.TPF_TRIEDRON then
    ((m.set 3 0 0).set 3 1 0).set 3 2 0
  else m

/-- Lines 350-363: the loop dividing the model-view matrix by the camera axial scale. -/
def preventAxialScaling (fl : TP_FLAGS) (mode : Nat) (anAxialScale : Vec3)
    (aModelMatrix : Mat4) : Mat4 :=
  if mode &&& fl.TPF_ZOOM ≠ 0 then
    ([0, 1, 2] : List (Fin 4)).foldl
      (fun m i =>
        let m := m.set 0 i (m 0 i / anAxialScale.x)
        let m := m.set 1 i (m 1 i / anAxialScale.y)
        m.set 2 i (m 2 i / anAxialScale.z))
      aModelMatrix
  else aModelMatrix

/-- Lines 365-378: the upper 3x3 block of the model-view matrix is forced to identity. -/
def preventRotating (fl : TP_FLAGS) (mode : Nat) (aModelMatrix : Mat4) : Mat4 :=
  if mode &&& fl.TPF_ROTATE ≠ 0 then
    let m := ((aModelMatrix.set 0 0 1).set 1 1 1).set 2 2 1
    let m := (m.set 1 0 0).set 2 0 0
    let m := (m.set 0 1 0).set 2 1 0
    (m.set 0 2 0).set 1 2 0
  else aModelMatrix

/-- Lines 387-421: the final translation, into the window corner for the trihedron mode,
to the anchor point when panning is not cancelled. -/
def moveToAnchor (fl : TP_FLAGS) (glu : Glu) (theTransPers : TEL_TRANSFORM_PERSISTENCE)
    (aViewport : Viewport) (aWin : Vec3) (aProjMatrix : Mat4) (c : OpenGl_Context) :
    OpenGl_Context :=
  let aViewportW : ℚ := aViewport.width
  let aViewportH : ℚ := aViewport.height
  if theTransPers.mode = fl.TPF_TRIEDRON then
    -- move to the window corner
    if theTransPers.pointX ≠ 0 ∧ theTransPers.pointY ≠ 0 then
      let c := glMatrixMode .GL_PROJECTION c
      let r1 := (glu.gluUnProject ⟨0.5 * aViewportW, 0.5 * aViewportH, 0⟩
        THE_IDENTITY_MATRIX aProjMatrix aViewport).getD glu.uninit
      let r2 := (glu.gluUnProject ⟨-0.5 * aViewportW, -0.5 * aViewportH, 0⟩
        THE_IDENTITY_MATRIX aProjMatrix aViewport).getD glu.uninit
      let aMoveX : ℚ := 0.5 * (r1.x - r2.x - theTransPers.pointZ)
      let aMoveY : ℚ := 0.5 * (r1.y - r2.y - theTransPers.pointZ)
      let aMoveX := if theTransPers.pointX > 0 then aMoveX else -aMoveX
      let aMoveY := if theTransPers.pointY > 0 then aMoveY else -aMoveY
      glTranslated aMoveX aMoveY 0 c
    else c
  else if theTransPers.mode &&& fl.TPF_PAN ≠ fl.TPF_PAN then
    -- move to thePoint using saved win-coordinates
    let aMove := (glu.gluUnProject aWin c.modelView.top c.projection.top aViewport).getD
      glu.uninit
    let c := glMatrixMode .GL_MODELVIEW c
    glTranslated aMove.x aMove.y aMove.z c
  else c

/-- The method `OpenGl_View::BeginTransformPersistence`; the first component of the result
is the returned descriptor `aTransPersPrev`. -/
def BeginTransformPersistence (fl : TP_FLAGS) (glu : Glu) (s : ViewState)
    (theTransPers : TEL_TRANSFORM_PERSISTENCE) : TEL_TRANSFORM_PERSISTENCE × ViewState :=
  let aTransPersPrev := s.1.myTransPers
  let s : ViewState := ({ s.1 with myTransPers := theTransPers }, s.2)
  if theTransPers.mode = 0 then
    (aTransPersPrev, EndTransformPersistence s)
  else
    let aViewport := s.2.viewport
    let aModelMatrix := s.2.modelView.top
    let aProjMatrix := s.2.projection.top
    let aViewportW : ℚ := aViewport.width
    let aViewportH : ℚ := aViewport.height
    let s := pushAndReset s
    -- the window coordinates of the anchor point before the matrices are modified
    let aWin : Vec3 :=
      if theTransPers.mode &&& fl.TPF_PAN ≠ fl.TPF_PAN then
        (glu.gluProject ⟨theTransPers.pointX, theTransPers.pointY, theTransPers.pointZ⟩
          aModelMatrix aProjMatrix aViewport).getD ⟨0, 0, 0⟩
      else ⟨0, 0, 0⟩
    let aProjMatrix := preventZooming fl theTransPers.mode aViewportW aViewportH aProjMatrix
    let aModelMatrix := preventTranslation fl theTransPers.mode aModelMatrix
    let aProjMatrix := preventTranslation fl theTransPers.mode aProjMatrix
    let aModelMatrix := preventAxialScaling fl theTransPers.mode s.1.axialScale aModelMatrix
    let aModelMatrix := preventRotating fl theTransPers.mode aModelMatrix
    -- load computed matrices
    let c := glMatrixMode .GL_MODELVIEW s.2
    let c := glMultMatrixd aModelMatrix c
    let c := glMatrixMode .GL_PROJECTION c
    let c := glMultMatrixd aProjMatrix c
    let c := moveToAnchor fl glu theTransPers aViewport aWin aProjMatrix c
    -- set OCCT state uniform variables
    let c := shaderCall (.UpdateWorldViewStateTo c.modelView.top) c
    let c := shaderCall (.UpdateProjectionStateTo c.projection.top) c
    (aTransPersPrev, (s.1, c))

/-- A call of the transform-persistence interface. -/
inductive Call where
  | Begin (d : TEL_TRANSFORM_PERSISTENCE)
  | End

/-- Perform one call on a view state. -/
def Call.perform (fl : TP_FLAGS) (glu : Glu) (s : ViewState) : Call → ViewState
  | .Begin d => (BeginTransformPersistence fl glu s d).2
  | .End => EndTransformPersistence s

/-- Perform a sequence of calls, first to last. -/
def performCalls (fl : TP_FLAGS) (glu : Glu) (s : ViewState) (cs : List Call) : ViewState :=
  cs.foldl (Call.perform fl glu) s

/-- The descriptor passed to the most recent `Begin` of a call sequence, the default
descriptor when there is none: what the specification says the next `Begin` returns. -/
def lastBeginDescriptor (cs : List Call) : TEL_TRANSFORM_PERSISTENCE :=
  cs.foldl (fun d c => match c with | .Begin e => e | .End => d) myDefaultTransPers

/-! ## Text measurement -/

/-- The interface of `OpenGl_Font` used by `OpenGl_Text`; `AdvanceX c n` is the advance of
the code point `c` when followed by the code point `n`, `ResourceKey` the key the font was
created with, and `PointSize` the value of `FTFont()->PointSize()`. -/
structure OpenGl_Font where
  IsValid : Bool
  Ascender : ℚ
  Descender : ℚ
  AdvanceX : Nat → Nat → ℚ
  ResourceKey : String
  PointSize : Nat

/-- The test of lines 341-345 of `OpenGl_Text.cxx`: one of the carriage control codes
CR, BEL, FF, BS, VT. -/
def isCarriageControl (aCharThis : Nat) : Bool :=
  aCharThis == 0x0D || aCharThis == 0x07 || aCharThis == 0x0C || aCharThis == 0x08
    || aCharThis == 0x0B

/-- The `for` loop of `StringSize` over the code points of the text, on the pair
`(theWidth, aWidth)`. The iterator yields `0` at the terminator of the string, here at the
end of the list; a code point `0` inside the list also ends the loop. -/
def StringSize_loop (aFont : OpenGl_Font) : List Nat → ℚ × ℚ → ℚ × ℚ
  | [], st => st
  | aCharThis :: rest, (theWidth, aWidth) =>
    if aCharThis = 0 then (theWidth, aWidth)
    else
      let aCharNext := rest.headD 0
      if isCarriageControl aCharThis then
        -- skip unsupported carriage control codes
        StringSize_loop aFont rest (theWidth, aWidth)
      else if aCharThis = 0x0A then
        StringSize_loop aFont rest (max theWidth aWidth, 0)
      else if aCharThis = 0x20 then
        StringSize_loop aFont rest (theWidth, aWidth + aFont.AdvanceX aCharThis aCharNext)
      else if aCharThis = 0x09 then
        StringSize_loop aFont rest (theWidth, aWidth + aFont.AdvanceX 0x20 aCharNext * 8)
      else
        StringSize_loop aFont rest (theWidth, aWidth + aFont.AdvanceX aCharThis aCharNext)

/-- The three output parameters of `StringSize`. -/
structure StringSizeResult where
  theWidth : ℚ
  theAscent : ℚ
  theDescent : ℚ
deriving DecidableEq

/-- The method `OpenGl_Text::StringSize`, from line 322 on; `aFont` is the handle that
`FindFont` returned (`none` for a null handle) and `theText` the code points of the text. -/
def StringSize (aFont : Option OpenGl_Font) (theText : List Nat) : StringSizeResult :=
  match aFont with
  | none => ⟨0, 0, 0⟩
  | some f =>
    if !f.IsValid then ⟨0, 0, 0⟩
    else
      let st := StringSize_loop f theText (0, 0)
      ⟨max st.1 st.2, f.Ascender, f.Descender⟩

/-- The sum of the advances of the characters of a text, each taken without successor:
the width the specification gives to a single line when the font has no kerning. -/
def advanceSum (aFont : OpenGl_Font) (theText : List Nat) : ℚ :=
  (theText.map (fun c => aFont.AdvanceX c 0)).sum

/-- A code point that is neither the terminator, a line feed, a carriage control code
nor a tab. -/
def isPlainChar (c : Nat) : Bool :=
  c != 0 && c != 0x0A && !isCarriageControl c && c != 0x09

/-! ## The label, the GL server state and the context of `OpenGl_Text`

Further conventions.

* The build modelled is the desktop-GL one outside Windows (`GL_ES_VERSION_2_0` and `_WIN32`
  not defined); `IsFeedback` tells whether the context is in the vector-feedback mode of a
  build with `HAVE_GL2PS`.
* GL enumerants that are stored in the server state are natural numbers (`GLenum`).
* The attribute stack has no upper bound on its depth; popping an empty attribute stack
  changes nothing (`GL_STACK_UNDERFLOW`).
* Texture enable flags, texture bindings and the texture-environment mode exist once per
  texture unit, the others once.
* The font manager, the FreeType rasterizer, `OpenGl_Font::Init`, the text formatter, the
  sampler and the rotation matrix of `glRotate` are parameters; they are seen through their
  results and through the calls recorded in the context.
* An access `Value (i)` or `ChangeValue (i)` beyond the length of a vector is a failure:
  the operations that index vectors return `none` there.
-/

/-- A GL enumerant. -/
abbrev GLenum := Nat

/-- The enumerant `GL_GEQUAL`. -/
def GL_GEQUAL : GLenum := 0x0206
/-- The enumerant `GL_ALWAYS`. -/
def GL_ALWAYS : GLenum := 0x0207
/-- The enumerant `GL_SRC_ALPHA`. -/
def GL_SRC_ALPHA : GLenum := 0x0302
/-- The enumerant `GL_ONE_MINUS_SRC_ALPHA`. -/
def GL_ONE_MINUS_SRC_ALPHA : GLenum := 0x0303
/-- The enumerant `GL_XOR`. -/
def GL_XOR : GLenum := 0x1506
/-- The enumerant `GL_KEEP`. -/
def GL_KEEP : GLenum := 0x1E00
/-- The enumerant `GL_REPLACE`. -/
def GL_REPLACE : GLenum := 0x1E01

/-- The capabilities that `OpenGl_Text` enables or disables. -/
inductive Capability where
  | GL_LIGHTING
  | GL_DEPTH_TEST
  | GL_ALPHA_TEST
  | GL_BLEND
  | GL_COLOR_LOGIC_OP
  | GL_STENCIL_TEST
  | GL_TEXTURE_1D
  | GL_TEXTURE_2D
deriving DecidableEq

/-- The capabilities kept once per texture unit. -/
def Capability.isTexture : Capability → Bool
  | .GL_TEXTURE_1D => true
  | .GL_TEXTURE_2D => true
  | _ => false

/-- A group of state saved by `glPushAttrib`: the enable flags for `GL_ENABLE_BIT`; the
texture enable flags, the active texture unit, the texture-environment modes and the
texture bindings for `GL_TEXTURE_BIT`. -/
inductive AttribFrame where
  | GL_ENABLE_BIT (enabled : Capability → Nat → Bool)
  | GL_TEXTURE_BIT (enabled : Capability → Nat → Bool) (activeTexture : Nat)
      (texEnvMode : Nat → GLenum) (boundTexture2D : Nat → Nat)

/-- The GL server state read or written by `OpenGl_Text`. `enabled cap u` is the flag of
`cap` in texture unit `u` for the texture capabilities and the flag of `cap` at `u = 0`
for the others. -/
structure GlState where
  matrices : OpenGl_Context
  attribStack : List AttribFrame
  enabled : Capability → Nat → Bool
  activeTexture : Nat
  texEnvMode : Nat → GLenum
  boundTexture2D : Nat → Nat
  alphaFunc : GLenum × ℚ
  blendFunc : GLenum × GLenum
  logicOp : GLenum
  colorMask : Bool × Bool × Bool × Bool
  stencilFunc : GLenum × Int × Nat
  stencilOp : GLenum × GLenum × GLenum
  currentColor : Vec3

/-- The texture unit in which the flag of a capability lives. -/
def GlState.unitOf (g : GlState) (cap : Capability) : Nat :=
  if cap.isTexture then g.activeTexture else 0

/-- Set the flag of a capability. -/
def GlState.setEnabled (g : GlState) (cap : Capability) (v : Bool) : GlState :=
  { g with enabled := fun c u => if c = cap ∧ u = g.unitOf cap then v else g.enabled c u }

/-- The operation `glEnable`. -/
def GlState.glEnable (cap : Capability) (g : GlState) : GlState := g.setEnabled cap true

/-- The operation `glDisable`. -/
def GlState.glDisable (cap : Capability) (g : GlState) : GlState := g.setEnabled cap false

/-- The operation `glPushAttrib (GL_ENABLE_BIT)`. -/
def GlState.glPushAttrib_ENABLE_BIT (g : GlState) : GlState :=
  { g with attribStack := .GL_ENABLE_BIT g.enabled :: g.attribStack }

/-- The operation `glPushAttrib (GL_TEXTURE_BIT)`. -/
def GlState.glPushAttrib_TEXTURE_BIT (g : GlState) : GlState :=
  { g with attribStack :=
      .GL_TEXTURE_BIT g.enabled g.activeTexture g.texEnvMode g.boundTexture2D :: g.attribStack }

/-- The operation `glPopAttrib`. -/
def GlState.glPopAttrib (g : GlState) : GlState :=
  match g.attribStack with
  | [] => g
  | .GL_ENABLE_BIT e :: rest => { g with enabled := e, attribStack := rest }
  | .GL_TEXTURE_BIT e a m b :: rest =>
    { g with
      enabled := fun c u => if c.isTexture then e c u else g.enabled c u
      activeTexture := a, texEnvMode := m, boundTexture2D := b, attribStack := rest }

/-- The operation `glGetTexEnviv (GL_TEXTURE_ENV, GL_TEXTURE_ENV_MODE, ...)`. -/
def GlState.glGetTexEnviv (g : GlState) : GLenum := g.texEnvMode g.activeTexture

/-- The operation `glTexEnvi (GL_TEXTURE_ENV, GL_TEXTURE_ENV_MODE, mode)`. -/
def GlState.glTexEnvi (mode : GLenum) (g : GlState) : GlState :=
  { g with texEnvMode := fun u => if u = g.activeTexture then mode else g.texEnvMode u }

/-- The operation `glBindTexture (GL_TEXTURE_2D, id)`. -/
def GlState.glBindTexture (aTexId : Nat) (g : GlState) : GlState :=
  { g with boundTexture2D := fun u => if u = g.activeTexture then aTexId else g.boundTexture2D u }

/-- The operation `glActiveTexture (GL_TEXTURE0 + unit)`. -/
def GlState.glActiveTexture (unit : Nat) (g : GlState) : GlState :=
  { g with activeTexture := unit }

/-- The operation `glAlphaFunc`. -/
def GlState.glAlphaFunc (func : GLenum) (ref : ℚ) (g : GlState) : GlState :=
  { g with alphaFunc := (func, ref) }

/-- The operation `glBlendFunc`. -/
def GlState.glBlendFunc (sfactor dfactor : GLenum) (g : GlState) : GlState :=
  { g with blendFunc := (sfactor, dfactor) }

/-- The operation `glLogicOp`. -/
def GlState.glLogicOp (opcode : GLenum) (g : GlState) : GlState :=
  { g with logicOp := opcode }

/-- The operation `glColorMask`. -/
def GlState.glColorMask (r gr b a : Bool) (g : GlState) : GlState :=
  { g with colorMask := (r, gr, b, a) }

/-- The operation `glStencilFunc`. -/
def GlState.glStencilFunc (func : GLenum) (ref : Int) (mask : Nat) (g : GlState) : GlState :=
  { g with stencilFunc := (func, ref, mask) }

/-- The operation `glStencilOp`. -/
def GlState.glStencilOp (fail zfail zpass : GLenum) (g : GlState) : GlState :=
  { g with stencilOp := (fail, zfail, zpass) }

/-- The operation `glColor3fv`. -/
def GlState.glColor3fv (rgb : Vec3) (g : GlState) : GlState :=
  { g with currentColor := rgb }

/-- Apply an operation on the matrix stacks to the server state. -/
def GlState.onMatrices (f : OpenGl_Context → OpenGl_Context) (g : GlState) : GlState :=
  { g with matrices := f g.matrices }

/-- A vertex buffer object, `OpenGl_VertexBuffer`. -/
structure OpenGl_VertexBuffer where
  id : Nat
  GetElemsNb : Nat
deriving DecidableEq

/-- A resource handed to the context for release. -/
inductive OpenGl_Resource where
  | VertexBuffer (b : OpenGl_VertexBuffer)
  | Texture (id : Nat)
deriving DecidableEq

/-- A call received by the context from `OpenGl_Text`, apart from the GL operations. -/
inductive ContextCall where
  | DelayedRelease (r : OpenGl_Resource)
  | ReleaseResource (theKey : String) (theToDelay : Bool)
  | SamplerUnbind
  | SamplerBind
deriving DecidableEq

/-- What reaches the frame buffer or the vector export. -/
inductive DrawCall where
  | glDrawArrays (aTexId : Nat) (aVerts aTCrds : OpenGl_VertexBuffer)
  | quad (Left Top Right Bottom : ℚ)
  | glClear_STENCIL_BUFFER_BIT
  | exportText (theText : List Nat) (theIs2d : Bool) (theFontName : String)
      (theHeight : Int) (theAngle : ℚ)
deriving DecidableEq

/-- The context as seen by `OpenGl_Text`: the GL server state, the draw calls issued so
far, the registry of shared resources, the other calls received so far (oldest first),
the texture sampler (`none` for a null handle, else whether it is valid), whether the
context is in feedback mode and whether `core15fwd` is available. -/
structure TextContext where
  gpu : GlState
  drawCalls : List DrawCall
  sharedResources : List (String × OpenGl_Font)
  calls : List ContextCall
  TextureSampler : Option Bool
  IsFeedback : Bool
  core15fwd : Bool

/-- Apply a GL operation to the server state of a context. -/
def TextContext.gl (f : GlState → GlState) (c : TextContext) : TextContext :=
  { c with gpu := f c.gpu }

/-- Record a draw call. -/
def TextContext.draw (d : DrawCall) (c : TextContext) : TextContext :=
  { c with drawCalls := c.drawCalls ++ [d] }

/-- Record a call received by the context. -/
def TextContext.call (k : ContextCall) (c : TextContext) : TextContext :=
  { c with calls := c.calls ++ [k] }

/-- Modelled from the spec: `OpenGl_Context::GetResource`, which is not among the sources;
the registry is looked up by the string key. -/
def TextContext.GetResource (c : TextContext) (theKey : String) : Option OpenGl_Font :=
  c.sharedResources.lookup theKey

/-- Modelled from the spec: `OpenGl_Context::ShareResource`, which is not among the
sources; the resource is inserted into the registry under the string key. -/
def TextContext.ShareResource (theKey : String) (theFont : OpenGl_Font) (c : TextContext) :
    TextContext :=
  { c with sharedResources := (theKey, theFont) :: c.sharedResources }

/-- Modelled from the spec: `OpenGl_Context::ReleaseResource`, which is not among the
sources; releasing drops a reference, the registry entry itself goes only when the context
purges unreferenced resources, so the call is recorded and the registry is left as is. -/
def TextContext.ReleaseResource (theKey : String) (theToDelay : Bool) (c : TextContext) :
    TextContext :=
  c.call (.ReleaseResource theKey theToDelay)

/-- Modelled from the spec: `OpenGl_Context::DelayedRelease`, which is not among the
sources; the resource is queued, here recorded, and not destroyed. -/
def TextContext.DelayedRelease (r : OpenGl_Resource) (c : TextContext) : TextContext :=
  c.call (.DelayedRelease r)

/-- The structure `OpenGl_TextParam`; the alignments are the integer values of their
enumerators. -/
structure OpenGl_TextParam where
  Height : Int
  HAlign : Int
  VAlign : Int
deriving DecidableEq

/-- The values of `Aspect_TypeOfStyleText`. -/
inductive Aspect_TypeOfStyleText where
  | Aspect_TOST_NORMAL
  | Aspect_TOST_ANNOTATION
deriving DecidableEq

/-- The values of `Aspect_TypeOfDisplayText`. -/
inductive Aspect_TypeOfDisplayText where
  | Aspect_TODT_NORMAL
  | Aspect_TODT_SUBTITLE
  | Aspect_TODT_DEKALE
  | Aspect_TODT_BLEND
  | Aspect_TODT_DIMENSION
deriving DecidableEq

/-- The part of `OpenGl_AspectText` read by `OpenGl_Text`; `FontAspect` is the integer
value of the `Font_FontAspect` enumerator. -/
structure OpenGl_AspectText where
  FontName : String
  FontAspect : Int
  Angle : ℚ
  IsZoomable : Bool
  StyleType : Aspect_TypeOfStyleText
  DisplayType : Aspect_TypeOfDisplayText
  Color : Vec3
  SubtitleColor : Vec3

/-- The bounding box `myBndBox` of the formatted text. -/
structure BndBox where
  Left : ℚ
  Right : ℚ
  Top : ℚ
  Bottom : ℚ
deriving DecidableEq

/-- The fields of a label, `OpenGl_Text`. -/
structure OpenGl_Text where
  myFont : Option OpenGl_Font
  myTextures : List Nat
  myVertsVbo : List OpenGl_VertexBuffer
  myTCrdsVbo : List OpenGl_VertexBuffer
  myBndBox : BndBox
  myProjMatrix : Mat4
  myModelMatrix : Mat4
  myViewport : Viewport
  myWinX : ℚ
  myWinY : ℚ
  myWinZ : ℚ
  myScaleHeight : ℚ
  myExportHeight : ℚ
  myParams : OpenGl_TextParam
  myString : List Nat
  myPoint : Vec3
  myIs2d : Bool

/-- The rasterizer handle `Font_FTFont` after a successful `Init`. -/
structure Font_FTFont where
  PointSize : Nat
  Ascender : ℚ
  Descender : ℚ
  AdvanceX : Nat → Nat → ℚ

/-- What `OpenGl_TextFormatter::Result` and `BndBox` deliver. -/
structure FormatterResult where
  theTextures : List Nat
  theVertsPerTexture : List OpenGl_VertexBuffer
  theTCrdsPerTexture : List OpenGl_VertexBuffer
  theBndBox : BndBox

/-- The collaborators of `OpenGl_Text` that are not among the sources.

* `Font_FA_Undefined`, `Font_FA_Regular`: the values of these enumerators.
* `FontMgr_FindFont name aspect height`: the path of the system font found by
  `Font_FontMgr::FindFont`, `none` for a null handle.
* `Font_FTFont_Init path height`: the rasterizer after `Font_FTFont::Init`, `none` when
  `Init` returns false.
* `OpenGl_Font_Init`: whether `OpenGl_Font::Init` succeeds for that rasterizer.
* `formatter label font`: the result of formatting the text of the label with the font.
* `glu`: the GLU library.
* `rotationZ angle`: the matrix of `glRotated (angle, 0, 0, 1)`. -/
structure TextEnv where
  Font_FA_Undefined : Int
  Font_FA_Regular : Int
  FontMgr_FindFont : String → Int → Int → Option String
  Font_FTFont_Init : String → Int → Option Font_FTFont
  OpenGl_Font_Init : Font_FTFont → Bool
  formatter : OpenGl_Text → OpenGl_Font → FormatterResult
  glu : Glu
  rotationZ : ℚ → Mat4

/-- Modelled from the spec: the constructor `OpenGl_Font (aFontFt, theKey)` followed by
`Init`, which are not among the sources; the cache entry owns the rasterizer with its
metrics and is keyed by the string it was created with. -/
def OpenGl_Font.create (aFontFt : Font_FTFont) (theKey : String) (isInit : Bool) :
    OpenGl_Font :=
  { IsValid := isInit, Ascender := aFontFt.Ascender, Descender := aFontFt.Descender
    AdvanceX := aFontFt.AdvanceX, ResourceKey := theKey, PointSize := aFontFt.PointSize }

/-- Modelled from the spec: the conversion of a `Standard_Integer` to a
`TCollection_AsciiString`, which is not among the sources: its decimal rendering. -/
def AsciiString_ofInteger (theValue : Int) : String := toString theValue

/-- The method `OpenGl_Text::FontKey`. -/
def FontKey (env : TextEnv) (theAspect : OpenGl_AspectText) (theHeight : Int) : String :=
  let anAspect : Int :=
    if theAspect.FontAspect ≠ env.Font_FA_Undefined then theAspect.FontAspect
    else env.Font_FA_Regular
  (((theAspect.FontName ++ ":") ++ AsciiString_ofInteger anAspect) ++ ":")
    ++ AsciiString_ofInteger theHeight

/-- The method `OpenGl_Text::FindFont`; the result is the returned handle (`none` for a
null handle) and the context after the call. -/
def FindFont (env : TextEnv) (theCtx : TextContext) (theAspect : OpenGl_AspectText)
    (theHeight : Int) (theKey : String) : Option OpenGl_Font × TextContext :=
  if theHeight < 2 then
    (none, theCtx) -- invalid parameters
  else
    match theCtx.GetResource theKey with
    | some aFont => (some aFont, theCtx)
    | none =>
      let anAspect : Int :=
        if theAspect.FontAspect ≠ env.Font_FA_Undefined then theAspect.FontAspect
        else env.Font_FA_Regular
      match env.FontMgr_FindFont theAspect.FontName anAspect theHeight with
      | none => (none, theCtx)
      | some aFontPath =>
        match env.Font_FTFont_Init aFontPath theHeight with
        | none => (none, theCtx)
        | some aFontFt =>
          let c := theCtx.gl GlState.glPushAttrib_TEXTURE_BIT
          let aFont := OpenGl_Font.create aFontFt theKey (env.OpenGl_Font_Init aFontFt)
          let c := c.gl GlState.glPopAttrib -- texture bit
          (some aFont, c.ShareResource theKey aFont)

/-- The method `OpenGl_Text::StringSize` with its context: the three output parameters and
the context after the call. The measuring part is `OCCT.StringSize`. -/
def OpenGl_Text.StringSize (env : TextEnv) (theCtx : TextContext) (theText : List Nat)
    (theTextAspect : OpenGl_AspectText) (theParams : OpenGl_TextParam) :
    StringSizeResult × TextContext :=
  let aFontKey := FontKey env theTextAspect theParams.Height
  let r := FindFont env theCtx theTextAspect theParams.Height aFontKey
  match r.1 with
  | none => (⟨0, 0, 0⟩, r.2)
  | some aFont =>
    if !aFont.IsValid then (⟨0, 0, 0⟩, r.2)
    else (OCCT.StringSize (some aFont) theText, r.2.ReleaseResource aFontKey true)

/-- The loop of `releaseVbos`: for every index of `myVertsVbo` the vertex buffer and the
UV buffer at that index are handed to `DelayedRelease` when there is a context. -/
def releaseVbos_loop : List OpenGl_VertexBuffer → List OpenGl_VertexBuffer →
    Option TextContext → Option (Option TextContext)
  | [], _, c => some c
  | _ :: _, [], _ => none
  | aVerts :: vs, aTCrds :: ts, c =>
    releaseVbos_loop vs ts
      (c.map fun c => (c.DelayedRelease (.VertexBuffer aVerts)).DelayedRelease
        (.VertexBuffer aTCrds))

/-- The method `OpenGl_Text::releaseVbos`; `theCtx` is `none` for a null pointer. -/
def OpenGl_Text.releaseVbos (theCtx : Option TextContext) (l : OpenGl_Text) :
    Option (OpenGl_Text × Option TextContext) :=
  (releaseVbos_loop l.myVertsVbo l.myTCrdsVbo theCtx).map fun c =>
    ({ l with myTextures := [], myVertsVbo := [], myTCrdsVbo := [] }, c)

/-- The method `OpenGl_Text::Release`. -/
def OpenGl_Text.Release (theCtx : Option TextContext) (l : OpenGl_Text) :
    Option (OpenGl_Text × Option TextContext) :=
  (l.releaseVbos theCtx).map fun r =>
    match r.1.myFont with
    | none => r
    | some aFont =>
      ({ r.1 with myFont := none }, r.2.map (TextContext.ReleaseResource aFont.ResourceKey true))

/-- The method `OpenGl_Text::SetPosition`. -/
def OpenGl_Text.SetPosition (l : OpenGl_Text) (thePoint : Vec3) : OpenGl_Text :=
  { l with myPoint := thePoint }

/-- The method `OpenGl_Text::SetFontSize`. -/
def OpenGl_Text.SetFontSize (theCtx : Option TextContext) (l : OpenGl_Text)
    (theFontSize : Int) : Option (OpenGl_Text × Option TextContext) :=
  (if l.myParams.Height ≠ theFontSize then l.Release theCtx else some (l, theCtx)).map
    fun r => ({ r.1 with myParams := { r.1.myParams with Height := theFontSize } }, r.2)

/-- The method `OpenGl_Text::Init` taking a text and a 3D point. -/
def OpenGl_Text.Init (theCtx : Option TextContext) (l : OpenGl_Text) (theText : List Nat)
    (thePoint : Vec3) : Option (OpenGl_Text × Option TextContext) :=
  (l.releaseVbos theCtx).map fun r =>
    ({ r.1 with myIs2d := false, myPoint := thePoint, myString := theText }, r.2)

/-- The method `OpenGl_Text::Init` taking a text, a 3D point and text parameters. -/
def OpenGl_Text.Init_3d (theCtx : Option TextContext) (l : OpenGl_Text) (theText : List Nat)
    (thePoint : Vec3) (theParams : OpenGl_TextParam) :
    Option (OpenGl_Text × Option TextContext) :=
  (if l.myParams.Height ≠ theParams.Height then l.Release theCtx
    else l.releaseVbos theCtx).map fun r =>
    ({ r.1 with myIs2d := false, myParams := theParams, myPoint := thePoint,
                myString := theText }, r.2)

/-- The method `OpenGl_Text::Init` taking a text, a 2D point and text parameters. -/
def OpenGl_Text.Init_2d (theCtx : Option TextContext) (l : OpenGl_Text) (theText : List Nat)
    (thePoint : ℚ × ℚ) (theParams : OpenGl_TextParam) :
    Option (OpenGl_Text × Option TextContext) :=
  (if l.myParams.Height ≠ theParams.Height then l.Release theCtx
    else l.releaseVbos theCtx).map fun r =>
    ({ r.1 with myIs2d := true, myParams := theParams,
                myPoint := ⟨thePoint.1, thePoint.2, 0⟩, myString := theText }, r.2)

/-- The matrix that `glScaled (x, y, z)` multiplies the current matrix by. -/
def scaleMatrix (x y z : ℚ) : Mat4 :=
  ((THE_IDENTITY_MATRIX.set 0 0 x).set 1 1 y).set 2 2 z

/-- The operation `glScaled`, also standing for `glScalef`. -/
def glScaled (x y z : ℚ) (c : OpenGl_Context) : OpenGl_Context :=
  glMultMatrixd (scaleMatrix x y z) c

/-- The method `OpenGl_Text::setupMatrix`, a sequence of operations on the matrix selected
by the matrix mode. -/
def OpenGl_Text.setupMatrix (env : TextEnv) (l : OpenGl_Text)
    (theTextAspect : OpenGl_AspectText) (theDVec : Vec3) (c : OpenGl_Context) :
    OpenGl_Context :=
  if l.myIs2d then
    let c := glLoadIdentity c
    let c := glTranslated (l.myPoint.x + theDVec.x) (l.myPoint.y + theDVec.y) 0 c
    let c := glScaled 1 (-1) 1 c
    glMultMatrixd (env.rotationZ theTextAspect.Angle) c
  else
    -- align coordinates to the nearest integer
    let anObj := (env.glu.gluUnProject
      ⟨(⌊l.myWinX + theDVec.x⌋ : Int), (⌊l.myWinY + theDVec.y⌋ : Int), l.myWinZ + theDVec.z⟩
      THE_IDENTITY_MATRIX l.myProjMatrix l.myViewport).getD env.glu.uninit
    let c := glLoadIdentity c
    let c := glTranslated anObj.x anObj.y anObj.z c
    let c := glMultMatrixd (env.rotationZ theTextAspect.Angle) c
    if !theTextAspect.IsZoomable then
      glScaled l.myScaleHeight l.myScaleHeight l.myScaleHeight c
    else c

/-- The conversion `(Standard_Integer )` of a real value, which drops the fraction. -/
def truncToInteger (x : ℚ) : Int := if 0 ≤ x then ⌊x⌋ else ⌈x⌉

/-- The loop of `drawText`: for every index of `myTextures` the texture is bound and the
vertex buffer and the UV buffer at that index are drawn. -/
def drawText_loop : List Nat → List OpenGl_VertexBuffer → List OpenGl_VertexBuffer →
    TextContext → Option TextContext
  | [], _, _, c => some c
  | aTexId :: ts, aVerts :: vs, aTCrds :: us, c =>
    drawText_loop ts vs us
      ((c.gl (GlState.glBindTexture aTexId)).draw (.glDrawArrays aTexId aVerts aTCrds))
  | _ :: _, _, _, _ => none

/-- The method `OpenGl_Text::drawText`; in feedback mode the text goes to `exportText`,
recorded with the font name of the aspect. -/
def OpenGl_Text.drawText (l : OpenGl_Text) (theTextAspect : OpenGl_AspectText)
    (c : TextContext) : Option TextContext :=
  if c.IsFeedback then
    some (c.draw (.exportText l.myString l.myIs2d theTextAspect.FontName
      (truncToInteger l.myExportHeight) theTextAspect.Angle))
  else if l.myVertsVbo.length ≠ l.myTextures.length ∨ l.myTextures.isEmpty then
    some c
  else
    (drawText_loop l.myTextures l.myVertsVbo l.myTCrdsVbo c).map fun c =>
      c.gl (GlState.glBindTexture 0)

/-- Lines 627-632 of `render`: the label is released when it holds a font whose key is
not the key asked for. -/
def OpenGl_Text.render_releaseChanged (l : OpenGl_Text) (theCtx : TextContext)
    (aFontKey : String) : Option (OpenGl_Text × TextContext) :=
  match l.myFont with
  | some aFont =>
    if aFont.ResourceKey ≠ aFontKey then
      -- font changed
      (l.Release (some theCtx)).map fun r => (r.1, r.2.getD theCtx)
    else some (l, theCtx)
  | none => some (l, theCtx)

/-- Lines 634-641 of `render`: a label without font asks `FindFont` for one. -/
def OpenGl_Text.render_findFont (env : TextEnv) (l : OpenGl_Text) (theCtx : TextContext)
    (theTextAspect : OpenGl_AspectText) (aFontKey : String) : OpenGl_Text × TextContext :=
  match l.myFont with
  | some _ => (l, theCtx)
  | none =>
    let f := FindFont env theCtx theTextAspect l.myParams.Height aFontKey
    ({ l with myFont := f.1 }, f.2)

/-- Lines 643-653 of `render`: a label without glyph batch is formatted with its font. -/
def OpenGl_Text.render_format (env : TextEnv) (l : OpenGl_Text) (aFont : OpenGl_Font) :
    OpenGl_Text :=
  if l.myTextures.isEmpty then
    let res := env.formatter l aFont
    { l with
      myTextures := res.theTextures, myVertsVbo := res.theVertsPerTexture
      myTCrdsVbo := res.theTCrdsPerTexture, myBndBox := res.theBndBox }
  else l

/-- Lines 626-653 of `render`: the font is released when its key is not the key asked
for, looked up when the label has none, and the text is formatted when the label has a
font and no glyph batch. -/
def OpenGl_Text.render_resolve (env : TextEnv) (l : OpenGl_Text) (theCtx : TextContext)
    (theTextAspect : OpenGl_AspectText) : Option (OpenGl_Text × TextContext) :=
  let aFontKey := FontKey env theTextAspect l.myParams.Height
  (l.render_releaseChanged theCtx aFontKey).map fun r =>
    let found := r.1.render_findFont env r.2 theTextAspect aFontKey
    match found.1.myFont with
    | none => found
    | some aFont => (found.1.render_format env aFont, found.2)

/-- Lines 666-694 of `render`: the window position of the anchor, the scale factor and the
export height. -/
def OpenGl_Text.render_measure (env : TextEnv) (l : OpenGl_Text) (aFont : OpenGl_Font)
    (theTextAspect : OpenGl_AspectText) (c : TextContext) : OpenGl_Text :=
  let l :=
    if !l.myIs2d then
      -- retrieve active matrices for project/unproject calls
      let l := { l with
        myModelMatrix := c.gpu.matrices.modelView.top
        myProjMatrix := c.gpu.matrices.projection.top
        myViewport := c.gpu.matrices.viewport }
      let aWin := (env.glu.gluProject l.myPoint l.myModelMatrix l.myProjMatrix
        l.myViewport).getD ⟨l.myWinX, l.myWinY, l.myWinZ⟩
      let l := { l with myWinX := aWin.x, myWinY := aWin.y, myWinZ := aWin.z }
      -- compute scale factor for constant text height
      let p1 := (env.glu.gluUnProject ⟨l.myWinX, l.myWinY, l.myWinZ⟩
        THE_IDENTITY_MATRIX l.myProjMatrix l.myViewport).getD env.glu.uninit
      let h : ℚ := aFont.PointSize
      let p2 := (env.glu.gluUnProject ⟨l.myWinX, l.myWinY + h, l.myWinZ⟩
        THE_IDENTITY_MATRIX l.myProjMatrix l.myViewport).getD env.glu.uninit
      let l := { l with myScaleHeight := (p2.y - p1.y) / h }
      if theTextAspect.IsZoomable then { l with myExportHeight := h } else l
    else l
  { l with myExportHeight := (aFont.PointSize : ℚ) / l.myExportHeight }

/-- Lines 696-739 of `render`: the enable flags are pushed and the state for drawing
textured glyphs is set; the first component is `aTexEnvParam`. -/
def OpenGl_Text.render_setupState (l : OpenGl_Text) (theTextAspect : OpenGl_AspectText)
    (c : TextContext) : GLenum × TextContext :=
  -- push enabled flags to the stack
  let c := c.gl GlState.glPushAttrib_ENABLE_BIT
  let c := c.gl (GlState.glDisable .GL_LIGHTING)
  -- setup depth test
  let c :=
    if !l.myIs2d ∧ theTextAspect.StyleType ≠ .Aspect_TOST_ANNOTATION then
      c.gl (GlState.glEnable .GL_DEPTH_TEST)
    else c.gl (GlState.glDisable .GL_DEPTH_TEST)
  -- setup alpha test
  let aTexEnvParam := c.gpu.glGetTexEnviv
  let c := if aTexEnvParam ≠ GL_REPLACE then c.gl (GlState.glTexEnvi GL_REPLACE) else c
  let c := c.gl (GlState.glAlphaFunc GL_GEQUAL 0.285)
  let c := c.gl (GlState.glEnable .GL_ALPHA_TEST)
  -- setup blending
  let c := c.gl (GlState.glEnable .GL_BLEND)
  let c := c.gl (GlState.glBlendFunc GL_SRC_ALPHA GL_ONE_MINUS_SRC_ALPHA)
  -- activate texture unit
  let c := c.gl (GlState.glDisable .GL_TEXTURE_1D)
  let c := c.gl (GlState.glEnable .GL_TEXTURE_2D)
  let c := if c.core15fwd then c.gl (GlState.glActiveTexture 0) else c
  -- unbind current OpenGL sampler
  let c := if c.TextureSampler = some true then c.call .SamplerUnbind else c
  (aTexEnvParam, c)

/-- The four vertices of the bounding box drawn between `glBegin (GL_QUADS)` and
`glEnd`. -/
def OpenGl_Text.drawBndBox (l : OpenGl_Text) (c : TextContext) : TextContext :=
  c.draw (.quad l.myBndBox.Left l.myBndBox.Top l.myBndBox.Right l.myBndBox.Bottom)

/-- Lines 741-782 of `render`: the extra drawings of the display types. -/
def OpenGl_Text.render_extra (env : TextEnv) (l : OpenGl_Text)
    (theTextAspect : OpenGl_AspectText) (theColorSubs : Vec3) (c : TextContext) :
    Option TextContext :=
  match theTextAspect.DisplayType with
  | .Aspect_TODT_BLEND =>
    some ((c.gl (GlState.glEnable .GL_COLOR_LOGIC_OP)).gl (GlState.glLogicOp GL_XOR))
  | .Aspect_TODT_SUBTITLE =>
    let c := c.gl (GlState.glColor3fv theColorSubs)
    let c := c.gl (GlState.onMatrices (l.setupMatrix env theTextAspect ⟨0, 0, 0.00001⟩))
    let c := c.gl (GlState.glBindTexture 0)
    some (l.drawBndBox c)
  | .Aspect_TODT_DEKALE =>
    let c := c.gl (GlState.glColor3fv theColorSubs)
    let c := c.gl (GlState.onMatrices (l.setupMatrix env theTextAspect ⟨1, 1, 0.00001⟩))
    (l.drawText theTextAspect c).bind fun c =>
    let c := c.gl (GlState.onMatrices (l.setupMatrix env theTextAspect ⟨-1, -1, 0.00001⟩))
    (l.drawText theTextAspect c).bind fun c =>
    let c := c.gl (GlState.onMatrices (l.setupMatrix env theTextAspect ⟨-1, 1, 0.00001⟩))
    (l.drawText theTextAspect c).bind fun c =>
    let c := c.gl (GlState.onMatrices (l.setupMatrix env theTextAspect ⟨1, -1, 0.00001⟩))
    l.drawText theTextAspect c
  | .Aspect_TODT_DIMENSION => some c
  | .Aspect_TODT_NORMAL => some c

/-- Lines 791-822 of `render`: the stencil mask of the dimension display type. -/
def OpenGl_Text.render_dimension (env : TextEnv) (l : OpenGl_Text)
    (theTextAspect : OpenGl_AspectText) (c : TextContext) : TextContext :=
  if theTextAspect.DisplayType = .Aspect_TODT_DIMENSION then
    let c := c.gl (GlState.onMatrices (l.setupMatrix env theTextAspect ⟨0, 0, 0.00001⟩))
    let c := c.gl (GlState.glDisable .GL_BLEND)
    let c := c.gl (GlState.glDisable .GL_TEXTURE_2D)
    let c := c.gl (GlState.glDisable .GL_ALPHA_TEST)
    let c := if !l.myIs2d then c.gl (GlState.glDisable .GL_DEPTH_TEST) else c
    let c := c.gl (GlState.glColorMask false false false false)
    let c := c.draw .glClear_STENCIL_BUFFER_BIT
    let c := c.gl (GlState.glEnable .GL_STENCIL_TEST)
    let c := c.gl (GlState.glStencilFunc GL_ALWAYS 1 0xFF)
    let c := c.gl (GlState.glStencilOp GL_KEEP GL_KEEP GL_REPLACE)
    let c := l.drawBndBox c
    let c := c.gl (GlState.glStencilFunc GL_ALWAYS 0 0xFF)
    -- glPopAttrib() will reset state for us
    c.gl (GlState.glColorMask true true true true)
  else c

/-- Lines 789-833 of `render`: the texture-environment mode read at the start is written
back, the dimension display type draws its stencil mask, and the pushed enable flags and
model-view matrix are popped. -/
def OpenGl_Text.render_finish (env : TextEnv) (l : OpenGl_Text)
    (theTextAspect : OpenGl_AspectText) (aTexEnvParam : GLenum) (c : TextContext) :
    TextContext :=
  let c := c.gl (GlState.glTexEnvi aTexEnvParam)
  let c := l.render_dimension env theTextAspect c
  -- revert OpenGL state
  let c := c.gl GlState.glPopAttrib -- enable bit
  let c := c.gl (GlState.onMatrices glPopMatrix) -- model view matrix was modified
  -- revert custom OpenGL sampler
  if c.TextureSampler = some true then c.call .SamplerBind else c

/-- Lines 660-834 of `render`: the drawing of a label that has a font and at least one
glyph batch. -/
def OpenGl_Text.render_draw (env : TextEnv) (l : OpenGl_Text) (theCtx : TextContext)
    (aFont : OpenGl_Font) (theTextAspect : OpenGl_AspectText)
    (theColorText theColorSubs : Vec3) : Option (OpenGl_Text × TextContext) :=
  let l := { l with myExportHeight := 1, myScaleHeight := 1 }
  let c := theCtx.gl (GlState.onMatrices (glMatrixMode .GL_MODELVIEW))
  let c := c.gl (GlState.onMatrices glPushMatrix)
  let l := l.render_measure env aFont theTextAspect c
  let st := l.render_setupState theTextAspect c
  let aTexEnvParam := st.1
  -- extra drawings
  (l.render_extra env theTextAspect theColorSubs st.2).bind fun c =>
  -- main draw call
  let c := c.gl (GlState.glColor3fv theColorText)
  let c := c.gl (GlState.onMatrices (l.setupMatrix env theTextAspect ⟨0, 0, 0⟩))
  (l.drawText theTextAspect c).map fun c =>
    (l, l.render_finish env theTextAspect aTexEnvParam c)

/-- The method `OpenGl_Text::render`; the result is `none` when a vector is indexed beyond
its length, else the label and the context after the call. -/
def OpenGl_Text.render (env : TextEnv) (l : OpenGl_Text) (theCtx : TextContext)
    (theTextAspect : OpenGl_AspectText) (theColorText theColorSubs : Vec3) :
    Option (OpenGl_Text × TextContext) :=
  if l.myString.isEmpty then some (l, theCtx)
  else
    (l.render_resolve env theCtx theTextAspect).bind fun r =>
      match r.1.myFont with
      | none => some r
      | some aFont =>
        if r.1.myTextures.isEmpty then some r
        else r.1.render_draw env r.2 aFont theTextAspect theColorText theColorSubs

/-! ## Font names for the vector export -/

/-- The characters of a C string: those before the first terminator. -/
def cString (s : String) : List Char := s.data.takeWhile fun c => c ≠ Char.ofNat 0

/-- The test `strstr (theSrcFont, needle)`: whether the needle occurs in the C string. -/
def strstr (theSrcFont needle : String) : Bool :=
  decide (needle.data <:+: cString theSrcFont)

/-- The table `TheFamily`. -/
def TheFamily : Fin 3 → String := ![ "Helvetica", "Courier", "Times" ]

/-- The table `TheItalic`. -/
def TheItalic : Fin 3 → String := ![ "Oblique", "Oblique", "Italic" ]

/-- The table `TheBase`. -/
def TheBase : Fin 3 → String := ![ "", "", "-Roman" ]

/-- The function `getGL2PSFontName`; the result is the string written to `thePsFont`. -/
def getGL2PSFontName (theSrcFont : String) : String :=
  if strstr theSrcFont "Symbol" then "Symbol"
  else if strstr theSrcFont "ZapfDingbats" then "WingDings"
  else
    let aFontId : Fin 3 :=
      if strstr theSrcFont "Courier" then 1
      else if strstr theSrcFont "Times" then 2
      else 0
    let isBold : Bool := strstr theSrcFont "Bold"
    let isItalic : Bool := strstr theSrcFont "Italic" || strstr theSrcFont "Oblique"
    if isBold then
      if isItalic then TheFamily aFontId ++ "-Bold" ++ TheItalic aFontId
      else TheFamily aFontId ++ "-Bold"
    else if isItalic then TheFamily aFontId ++ "-" ++ TheItalic aFontId
    else TheFamily aFontId ++ TheBase aFontId

/-- The size of the buffer `aPsFont` that `exportText` hands to `getGL2PSFontName`. -/
def aPsFont_size : Nat := 64

/-- The constructor `OpenGl_Text()`. The font handle is null and the vectors and the string
are empty; the members that the constructor does not initialise (`myExportHeight`, the
bounding box, the saved matrices and viewport) are those of `uninit`; the two alignment
enumerators are not among the sources and are parameters. -/
def OpenGl_Text.new (uninit : OpenGl_Text) (Graphic3d_HTA_LEFT Graphic3d_VTA_BOTTOM : Int) :
    OpenGl_Text :=
  { uninit with
    myFont := none, myTextures := [], myVertsVbo := [], myTCrdsVbo := []
    myWinX := 0, myWinY := 0, myWinZ := 0
    myScaleHeight := 1
    myParams := ⟨10, Graphic3d_HTA_LEFT, Graphic3d_VTA_BOTTOM⟩
    myString := []
    myPoint := ⟨0, 0, 0⟩
    myIs2d := false }

/-- The constructor `OpenGl_Text (theText, thePoint, theParams)`; the members it does not
initialise (the bounding box, the saved matrices and viewport) are those of `uninit`. -/
def OpenGl_Text.new_text (uninit : OpenGl_Text) (theText : List Nat) (thePoint : Vec3)
    (theParams : OpenGl_TextParam) : OpenGl_Text :=
  { uninit with
    myFont := none, myTextures := [], myVertsVbo := [], myTCrdsVbo := []
    myWinX := 0, myWinY := 0, myWinZ := 0
    myScaleHeight := 1, myExportHeight := 1
    myParams := theParams
    myString := theText
    myPoint := thePoint
    myIs2d := false }

/-! ## Dimension geometry (`AIS_AngleDimension`, `AIS_DiameterDimension`)

Only the class declarations of the dimensions are among the sources; the bodies of their
methods are modelled from the specification. -/

/-- The difference of two points, the vector from `q` to `p`. -/
def Vec3.sub (p q : Vec3) : Vec3 := ⟨p.x - q.x, p.y - q.y, p.z - q.z⟩

/-- The scalar product of two vectors. -/
def Vec3.dot (u v : Vec3) : ℚ := u.x * v.x + u.y * v.y + u.z * v.z

/-- The packages `Precision` and `gp` as seen by the dimensions; they are not among the
sources and are parameters: the tolerances `Precision::Angular()` and
`Precision::Confusion()`, the constant `M_PI`, and `gp_Vec::Angle`, the angle of two vectors,
between `0` and `M_PI`. -/
structure GeomEnv where
  Precision_Angular : ℚ
  Precision_Confusion : ℚ
  M_PI : ℚ
  Angle : Vec3 → Vec3 → ℚ

/-- Modelled from the spec: the body of `AIS_AngleDimension::IsValidPoints`, of which the
sources hold the declaration only (`AIS_AngleDimension.hxx`, lines 299-305). In the words of
the specification: both vectors from the centre to the attach points must be constructible,
that is of non-zero length, and the angle between them must exceed the angular tolerance;
angles near zero and angles near `M_PI` are invalid. -/
def AIS_AngleDimension.IsValidPoints (g : GeomEnv)
    (theFirstPoint theCenterPoint theSecondPoint : Vec3) : Bool :=
  let aFirstVec := theFirstPoint.sub theCenterPoint
  let aSecondVec := theSecondPoint.sub theCenterPoint
  if aFirstVec.dot aFirstVec = 0 ∨ aSecondVec.dot aSecondVec = 0 then
    false -- a vector of zero length
  else
    let anAngle := g.Angle aFirstVec aSecondVec
    decide (g.Precision_Angular < anAngle) &&
      decide (g.Precision_Angular < |g.M_PI - anAngle|)

/-- The circle `gp_Circ`: the centre, the normal of its plane and the radius. -/
structure gp_Circ where
  Location : Vec3
  Normal : Vec3
  Radius : ℚ

/-- The plane `gp_Pln`: a point of the plane and its normal. -/
structure gp_Pln where
  Location : Vec3
  Normal : Vec3

/-- The state of `AIS_DiameterDimension` that `SetMeasuredGeometry` works on: the circle,
the working plane and whether the user set it, the validity flag and the cached value. -/
structure AIS_DiameterDimension where
  myCircle : gp_Circ
  myPlane : gp_Pln
  myIsPlaneCustom : Bool
  myIsValid : Bool
  myValue : ℚ

/-- Modelled from the spec: the body of `gp_Pln::Contains (point, tolerance)`, which is not
among the sources: the distance of the point to the plane is at most the tolerance,
compared through the squares so that the normal need not be of unit length. -/
def gp_Pln.Contains (thePlane : gp_Pln) (thePoint : Vec3) (theTolerance : ℚ) : Bool :=
  decide ((thePlane.Normal.dot (thePoint.sub thePlane.Location)) ^ 2
    ≤ theTolerance ^ 2 * thePlane.Normal.dot thePlane.Normal)

/-- Modelled from the spec: the body of `AIS_DiameterDimension::IsValidCircle`, declared in
`AIS_DiameterDimension.hxx`. In the words of the specification: validity requires the
radius and the diameter of the circle to exceed the linear tolerance; near-zero circles are
invalid. -/
def AIS_DiameterDimension.IsValidCircle (g : GeomEnv) (theCircle : gp_Circ) : Bool :=
  decide (g.Precision_Confusion < theCircle.Radius) &&
    decide (g.Precision_Confusion < theCircle.Radius * 2)

/-- Modelled from the spec: the body of `AIS_DiameterDimension::CheckPlane`, declared in
`AIS_DiameterDimension.hxx` (lines 146-147): the working plane contains the centre of the
circle, within the linear tolerance. -/
def AIS_DiameterDimension.CheckPlane (g : GeomEnv) (theCircle : gp_Circ)
    (thePlane : gp_Pln) : Bool :=
  thePlane.Contains theCircle.Location g.Precision_Confusion

/-- Modelled from the spec: the body of `AIS_DiameterDimension::ComputeValue`, declared in
`AIS_DiameterDimension.hxx` (line 149): twice the radius. -/
def AIS_DiameterDimension.ComputeValue (theCircle : gp_Circ) : ℚ := theCircle.Radius * 2

/-- Modelled from the spec: the body of `AIS_DiameterDimension::SetMeasuredGeometry` for a
circle, declared in `AIS_DiameterDimension.hxx` (lines 105-111). The circle replaces the
measured one; without a plane set by the user the working plane is the plane of the circle;
the dimension is valid when the circle is and the working plane passes `CheckPlane`, and
only then is the value computed. -/
def AIS_DiameterDimension.SetMeasuredGeometry (g : GeomEnv) (d : AIS_DiameterDimension)
    (theCircle : gp_Circ) : AIS_DiameterDimension :=
  let aPlane : gp_Pln :=
    if d.myIsPlaneCustom then d.myPlane else ⟨theCircle.Location, theCircle.Normal⟩
  let isValid : Bool :=
    AIS_DiameterDimension.IsValidCircle g theCircle &&
      AIS_DiameterDimension.CheckPlane g theCircle aPlane
  { myCircle := theCircle
    myPlane := aPlane
    myIsPlaneCustom := d.myIsPlaneCustom
    myIsValid := isValid
    myValue := if isValid then AIS_DiameterDimension.ComputeValue theCircle else d.myValue }

/-! ## Predicates used in the statements -/

/-- The stack discipline kept by `Begin`/`End` relative to the stacks `mv0`, `pr0` found
in the Identity state. -/
def PairingInv (mv0 pr0 : MatrixStack) (s : ViewState) : Prop :=
  (s.1.myIsTransPers = false → s.2.modelView = mv0 ∧ s.2.projection = pr0) ∧
  (s.1.myIsTransPers = true →
    s.2.modelView.below = mv0.top :: mv0.below ∧ s.2.projection.below = pr0.top :: pr0.below)

/-- Without kerning the advance is the one taken without successor. -/
def NoKerning (f : OpenGl_Font) : Prop := ∀ c n n' : Nat, f.AdvanceX c n = f.AdvanceX c n'

/-- The calls by which `releaseVbos` hands the buffers to the deferred release: for every
index the vertex buffer, then the UV buffer. -/
def deferredReleaseCalls (theVerts theTCrds : List OpenGl_VertexBuffer) : List ContextCall :=
  (theVerts.zip theTCrds).flatMap fun p =>
    [.DelayedRelease (.VertexBuffer p.1), .DelayedRelease (.VertexBuffer p.2)]

/-- Every index of the vertex-buffer list is an index of the UV-buffer list. -/
def OpenGl_Text.IndexSafe (l : OpenGl_Text) : Prop :=
  l.myVertsVbo.length ≤ l.myTCrdsVbo.length

/-- The matrix that `setupMatrix` leaves as current matrix: the product of the translation,
scaling and rotation it applies to the identity. -/
def OpenGl_Text.setupMatrix_result (env : TextEnv) (l : OpenGl_Text)
    (theTextAspect : OpenGl_AspectText) (theDVec : Vec3) : Mat4 :=
  if l.myIs2d then
    (((THE_IDENTITY_MATRIX.mul
        (translationMatrix (l.myPoint.x + theDVec.x) (l.myPoint.y + theDVec.y) 0)).mul
        (scaleMatrix 1 (-1) 1)).mul (env.rotationZ theTextAspect.Angle))
  else
    let anObj := (env.glu.gluUnProject
      ⟨(⌊l.myWinX + theDVec.x⌋ : Int), (⌊l.myWinY + theDVec.y⌋ : Int), l.myWinZ + theDVec.z⟩
      THE_IDENTITY_MATRIX l.myProjMatrix l.myViewport).getD env.glu.uninit
    let m := (THE_IDENTITY_MATRIX.mul (translationMatrix anObj.x anObj.y anObj.z)).mul
      (env.rotationZ theTextAspect.Angle)
    if !theTextAspect.IsZoomable then
      m.mul (scaleMatrix l.myScaleHeight l.myScaleHeight l.myScaleHeight)
    else m

/-- The draw calls of the loop of `drawText`, one per glyph batch. -/
def batchDrawCalls : List Nat → List OpenGl_VertexBuffer → List OpenGl_VertexBuffer →
    List DrawCall
  | aTexId :: ts, aVerts :: vs, aTCrds :: us =>
    .glDrawArrays aTexId aVerts aTCrds :: batchDrawCalls ts vs us
  | _, _, _ => []

/-- The formatter delivers at least as many UV buffers as vertex buffers. -/
def TextEnv.FormatterIndexSafe (env : TextEnv) : Prop :=
  ∀ (l : OpenGl_Text) (f : OpenGl_Font),
    (env.formatter l f).theVertsPerTexture.length ≤ (env.formatter l f).theTCrdsPerTexture.length

/-- The GL state, the draw calls, the sampler and the modes of the context are the same in
`c` and `c'`. -/
structure SameDevice (c c' : TextContext) : Prop where
  gpu : c'.gpu = c.gpu
  drawCalls : c'.drawCalls = c.drawCalls
  TextureSampler : c'.TextureSampler = c.TextureSampler
  IsFeedback : c'.IsFeedback = c.IsFeedback
  core15fwd : c'.core15fwd = c.core15fwd

/-- What the drawing operations between `glPushAttrib` and `glPopAttrib` leave alone: the
attribute stack, the matrix mode, the saved model-view matrices, and the state that is not
an enable flag, a matrix, a texture binding, a colour or a draw call. -/
structure DrawFrame (c c' : TextContext) : Prop where
  attribStack : c'.gpu.attribStack = c.gpu.attribStack
  matrixMode : c'.gpu.matrices.matrixMode = c.gpu.matrices.matrixMode
  below : c'.gpu.matrices.modelView.below = c.gpu.matrices.modelView.below
  activeTexture : c'.gpu.activeTexture = c.gpu.activeTexture
  texEnvMode : c'.gpu.texEnvMode = c.gpu.texEnvMode
  alphaFunc : c'.gpu.alphaFunc = c.gpu.alphaFunc
  blendFunc : c'.gpu.blendFunc = c.gpu.blendFunc
  logicOp : c'.gpu.logicOp = c.gpu.logicOp
  colorMask : c'.gpu.colorMask = c.gpu.colorMask
  stencilFunc : c'.gpu.stencilFunc = c.gpu.stencilFunc
  stencilOp : c'.gpu.stencilOp = c.gpu.stencilOp
  TextureSampler : c'.TextureSampler = c.TextureSampler
  IsFeedback : c'.IsFeedback = c.IsFeedback
  core15fwd : c'.core15fwd = c.core15fwd

/-- What `render` restores: the model-view matrix stack, the attribute stack, the enable
flags and, when texture unit 0 is the active one or the context cannot switch the active
unit, the texture-environment modes. -/
structure RestoredByRender (c c' : TextContext) : Prop where
  modelView : c'.gpu.matrices.modelView = c.gpu.matrices.modelView
  attribStack : c'.gpu.attribStack = c.gpu.attribStack
  enabled : c'.gpu.enabled = c.gpu.enabled
  texEnvMode : c.gpu.activeTexture = 0 ∨ c.core15fwd = false →
    c'.gpu.texEnvMode = c.gpu.texEnvMode

/-- What a `render` that reaches the drawing stage leaves as it wrote it: the matrix mode,
the alpha test, the blend function, the active texture unit and, depending on the display
type, the logic operation, the colour mask and the stencil function and operation. -/
structure LeftByRender (a : OpenGl_AspectText) (c c' : TextContext) : Prop where
  matrixMode : c'.gpu.matrices.matrixMode = .GL_MODELVIEW
  alphaFunc : c'.gpu.alphaFunc = (GL_GEQUAL, 0.285)
  blendFunc : c'.gpu.blendFunc = (GL_SRC_ALPHA, GL_ONE_MINUS_SRC_ALPHA)
  logicOp : c'.gpu.logicOp
    = (if a.DisplayType = .Aspect_TODT_BLEND then GL_XOR else c.gpu.logicOp)
  colorMask : c'.gpu.colorMask
    = (if a.DisplayType = .Aspect_TODT_DIMENSION then (true, true, true, true)
       else c.gpu.colorMask)
  stencilFunc : c'.gpu.stencilFunc
    = (if a.DisplayType = .Aspect_TODT_DIMENSION then (GL_ALWAYS, 0, 0xFF)
       else c.gpu.stencilFunc)
  stencilOp : c'.gpu.stencilOp
    = (if a.DisplayType = .Aspect_TODT_DIMENSION then (GL_KEEP, GL_KEEP, GL_REPLACE)
       else c.gpu.stencilOp)
  activeTexture : c'.gpu.activeTexture = (if c.core15fwd then 0 else c.gpu.activeTexture)

/-- The three base families of PostScript fonts. -/
inductive PsFamily where
  | Helvetica
  | Courier
  | Times
deriving DecidableEq

/-- The family the specification gives to a font name: Courier if the name contains
`Courier`, else Times if it contains `Times`, else Helvetica. -/
def psFamilyOf (theSrcFont : String) : PsFamily :=
  if strstr theSrcFont "Courier" then .Courier
  else if strstr theSrcFont "Times" then .Times
  else .Helvetica

/-- The twelve canonical PostScript font names, by family, weight and slant. -/
def canonicalPsName : PsFamily → Bool → Bool → String
  | .Helvetica, false, false => "Helvetica"
  | .Helvetica, true, false => "Helvetica-Bold"
  | .Helvetica, false, true => "Helvetica-Oblique"
  | .Helvetica, true, true => "Helvetica-BoldOblique"
  | .Courier, false, false => "Courier"
  | .Courier, true, false => "Courier-Bold"
  | .Courier, false, true => "Courier-Oblique"
  | .Courier, true, true => "Courier-BoldOblique"
  | .Times, false, false => "Times-Roman"
  | .Times, true, false => "Times-Bold"
  | .Times, false, true => "Times-Italic"
  | .Times, true, true => "Times-BoldItalic"

/-- The name the specification gives to a font name: the canonical name of its family,
bold if the name contains `Bold`, slanted if it contains `Italic` or `Oblique`. -/
def psFontNameOfSpec (theSrcFont : String) : String :=
  canonicalPsName (psFamilyOf theSrcFont) (strstr theSrcFont "Bold")
    (strstr theSrcFont "Italic" || strstr theSrcFont "Oblique")

/-- The value of a decimal digit character. -/
def digitValue (c : Char) : Nat := c.toNat - 48

/-- The number written by a list of decimal digits, most significant first. -/
def decodeDigits (ds : List Char) : Nat := ds.foldl (fun a c => 10 * a + digitValue c) 0

/-- The style code that `FontKey` writes: `Font_FA_Regular` for `Font_FA_Undefined`. -/
def effectiveStyle (env : TextEnv) (theAspect : OpenGl_AspectText) : Int :=
  if theAspect.FontAspect = env.Font_FA_Undefined then env.Font_FA_Regular
  else theAspect.FontAspect

/-- The model-view matrix that `BeginTransformPersistence` loads: the matrix found, after
the cancellation of translation, axial scale and rotation that the mode asks for. -/
def loadedModelMatrix (fl : TP_FLAGS) (s : ViewState)
    (theTransPers : TEL_TRANSFORM_PERSISTENCE) : Mat4 :=
  preventRotating fl theTransPers.mode
    (preventAxialScaling fl theTransPers.mode s.1.axialScale
      (preventTranslation fl theTransPers.mode s.2.modelView.top))

/-- The projection matrix that `BeginTransformPersistence` loads: the matrix found, after
the cancellation of zoom and translation that the mode asks for. -/
def loadedProjMatrix (fl : TP_FLAGS) (s : ViewState)
    (theTransPers : TEL_TRANSFORM_PERSISTENCE) : Mat4 :=
  preventTranslation fl theTransPers.mode
    (preventZooming fl theTransPers.mode s.2.viewport.width s.2.viewport.height
      s.2.projection.top)

/-- The three lists of a label describe the same number of glyph batches. -/
def OpenGl_Text.Balanced (l : OpenGl_Text) : Prop :=
  l.myTextures.length = l.myVertsVbo.length ∧ l.myVertsVbo.length = l.myTCrdsVbo.length

/-- The formatter returns three lists of equal length. -/
def TextEnv.FormatterBalanced (env : TextEnv) : Prop :=
  ∀ (l : OpenGl_Text) (f : OpenGl_Font),
    (env.formatter l f).theTextures.length = (env.formatter l f).theVertsPerTexture.length ∧
    (env.formatter l f).theVertsPerTexture.length
      = (env.formatter l f).theTCrdsPerTexture.length

/-- The states of a label that can be reached through the constructors, the three `Init`
methods, `SetFontSize`, `SetPosition`, `Release` and `render`, with any contexts and
arguments. -/
inductive OpenGl_Text.Reachable (env : TextEnv) : OpenGl_Text → Prop
  | new (uninit : OpenGl_Text) (hl vb : Int) : Reachable env (OpenGl_Text.new uninit hl vb)
  | new_text (uninit : OpenGl_Text) (theText : List Nat) (thePoint : Vec3)
      (theParams : OpenGl_TextParam) :
      Reachable env (OpenGl_Text.new_text uninit theText thePoint theParams)
  | Init (l : OpenGl_Text) (theCtx : Option TextContext) (theText : List Nat)
      (thePoint : Vec3) (r : OpenGl_Text × Option TextContext) :
      Reachable env l → l.Init theCtx theText thePoint = some r → Reachable env r.1
  | Init_3d (l : OpenGl_Text) (theCtx : Option TextContext) (theText : List Nat)
      (thePoint : Vec3) (theParams : OpenGl_TextParam) (r : OpenGl_Text × Option TextContext) :
      Reachable env l → l.Init_3d theCtx theText thePoint theParams = some r →
      Reachable env r.1
  | Init_2d (l : OpenGl_Text) (theCtx : Option TextContext) (theText : List Nat)
      (thePoint : ℚ × ℚ) (theParams : OpenGl_TextParam)
      (r : OpenGl_Text × Option TextContext) :
      Reachable env l → l.Init_2d theCtx theText thePoint theParams = some r →
      Reachable env r.1
  | SetFontSize (l : OpenGl_Text) (theCtx : Option TextContext) (theFontSize : Int)
      (r : OpenGl_Text × Option TextContext) :
      Reachable env l → l.SetFontSize theCtx theFontSize = some r → Reachable env r.1
  | SetPosition (l : OpenGl_Text) (thePoint : Vec3) :
      Reachable env l → Reachable env (l.SetPosition thePoint)
  | Release (l : OpenGl_Text) (theCtx : Option TextContext)
      (r : OpenGl_Text × Option TextContext) :
      Reachable env l → l.Release theCtx = some r → Reachable env r.1
  | render (l : OpenGl_Text) (theCtx : TextContext) (theTextAspect : OpenGl_AspectText)
      (theColorText theColorSubs : Vec3) (r : OpenGl_Text × TextContext) :
      Reachable env l →
      l.render env theCtx theTextAspect theColorText theColorSubs = some r →
      Reachable env r.1

/-- The eye coordinates of an object point: the model-view matrix applied to
`(x, y, z, 1)`. -/
def eyeCoordinates (m : Mat4) (obj : Vec3) : Fin 4 → ℚ :=
  fun j => m 0 j * obj.x + m 1 j * obj.y + m 2 j * obj.z + m 3 j

/-- The clip coordinates of a point given in eye coordinates: the projection matrix
applied to it. -/
def clipCoordinates (p : Mat4) (e : Fin 4 → ℚ) : Fin 4 → ℚ :=
  fun j => p 0 j * e 0 + p 1 j * e 1 + p 2 j * e 2 + p 3 j * e 3

/-- The window coordinates that the fixed-function pipeline gives to an object point, as
`gluProject` documents them: model-view matrix, projection matrix, perspective division,
viewport mapping with the depth range `[0, 1]`; `none` when the clip coordinate `w` is
zero. -/
def windowCoordinates (m p : Mat4) (vp : Viewport) (obj : Vec3) : Option Vec3 :=
  let cl := clipCoordinates p (eyeCoordinates m obj)
  if cl 3 = 0 then none
  else some
    ⟨vp.x + vp.width * (cl 0 / cl 3 + 1) / 2, vp.y + vp.height * (cl 1 / cl 3 + 1) / 2,
      (cl 2 / cl 3 + 1) / 2⟩

/-- The function `gluUnProject` is exact at the window point `w` for the identity
model-view matrix, the projection `p` and the viewport `vp`: it succeeds, and the point it
returns has the window coordinates `w`. -/
def Glu.UnProjectsExactly (glu : Glu) (p : Mat4) (vp : Viewport) (w : Vec3) : Prop :=
  ∃ obj, glu.gluUnProject w THE_IDENTITY_MATRIX p vp = some obj ∧
    windowCoordinates THE_IDENTITY_MATRIX p vp obj = some w

/-- An orthographic projection, as `glOrtho` builds it, as far as the window height is
concerned: the clip `y` depends on the eye `y` only and the clip `w` is `1`. -/
def IsOrthographic (p : Mat4) : Prop :=
  p 0 1 = 0 ∧ p 2 1 = 0 ∧ p 1 1 ≠ 0 ∧ p 0 3 = 0 ∧ p 1 3 = 0 ∧ p 2 3 = 0 ∧ p 3 3 = 1

/-- A standard perspective projection, as `glFrustum` and `gluPerspective` build it: the
clip `w` is the opposite of the eye `z`, the clip `z` depends on the eye `z` only, and the
clip `y` on the eye `y` and `z` only. -/
def IsPerspective (p : Mat4) : Prop :=
  p 0 1 = 0 ∧ p 3 1 = 0 ∧ p 1 1 ≠ 0 ∧ p 0 2 = 0 ∧ p 1 2 = 0 ∧ p 3 2 ≠ 0 ∧
  p 0 3 = 0 ∧ p 1 3 = 0 ∧ p 2 3 = -1 ∧ p 3 3 = 0

/-! ## Concrete inputs -/

/-- The flag values of `OpenGl_transform_persistence.hxx` in OCCT. -/
def occtFlags : TP_FLAGS :=
  { TPF_PAN := 1, TPF_ZOOM := 2, TPF_ROTATE := 8, TPF_TRIEDRON := 32 }

/-- A GLU whose two functions always report failure. -/
def failingGlu : Glu :=
  { gluProject := fun _ _ _ _ => none, gluUnProject := fun _ _ _ _ => none,
    uninit := ⟨0, 0, 0⟩ }

/-- A camera turned by a quarter turn about the Z axis and moved by `(5, 0, 0)`. -/
def quarterTurn : Mat4 :=
  ![![0, 1, 0, 0], ![-1, 0, 0, 0], ![0, 0, 1, 0], ![5, 0, 0, 1]]

/-- A context in the Identity state: `quarterTurn` as model-view matrix, the identity as
projection, nothing pushed. -/
def sampleContext : OpenGl_Context :=
  { modelView := ⟨quarterTurn, []⟩
    projection := ⟨THE_IDENTITY_MATRIX, []⟩
    texture := ⟨THE_IDENTITY_MATRIX, []⟩
    matrixMode := .GL_MODELVIEW
    viewport := ⟨0, 0, 640, 480⟩
    shaderCalls := [] }

/-- A freshly constructed view on `sampleContext`. -/
def sampleState : ViewState := (OpenGl_View.new ⟨1, 1, 1⟩, sampleContext)

/-- A descriptor cancelling pan and rotation. -/
def panRotate : TEL_TRANSFORM_PERSISTENCE := { mode := 9, pointX := 0, pointY := 0, pointZ := 0 }

/-- A descriptor cancelling pan only. -/
def panOnly : TEL_TRANSFORM_PERSISTENCE := { mode := 1, pointX := 0, pointY := 0, pointZ := 0 }

/-- A valid font where every character advances by 10, except that the pair `A`,`B` is
kerned: `A` advances by 9 when followed by `B`. -/
def kerningFont : OpenGl_Font :=
  { IsValid := true, Ascender := 12, Descender := 3
    AdvanceX := fun c n => if c = 65 ∧ n = 66 then 9 else 10
    ResourceKey := "Kerned:1:16", PointSize := 16 }

/-- A valid font without kerning where every character advances by 10. -/
def fixedFont : OpenGl_Font :=
  { IsValid := true, Ascender := 12, Descender := 3, AdvanceX := fun _ _ => 10
    ResourceKey := "Courier:1:16", PointSize := 16 }

/-- A valid font without kerning where every character has the advance `-1`. -/
def backwardFont : OpenGl_Font :=
  { IsValid := true, Ascender := 12, Descender := 3, AdvanceX := fun _ _ => -1
    ResourceKey := "Backward:1:16", PointSize := 16 }

/-- A GL server state on `sampleContext`: nothing enabled, nothing bound, an empty
attribute stack, the alpha test at `(GL_ALWAYS, 0)`. -/
def sampleGlState : GlState :=
  { matrices := sampleContext
    attribStack := []
    enabled := fun _ _ => false
    activeTexture := 0
    texEnvMode := fun _ => 0x2100
    boundTexture2D := fun _ => 0
    alphaFunc := (GL_ALWAYS, 0)
    blendFunc := (1, 0)
    logicOp := 0x1503
    colorMask := (true, true, true, true)
    stencilFunc := (GL_ALWAYS, 0, 0xFF)
    stencilOp := (GL_KEEP, GL_KEEP, GL_KEEP)
    currentColor := ⟨1, 1, 1⟩ }

/-- A context with an empty registry, no sampler, not in feedback mode. -/
def sampleTextContext : TextContext :=
  { gpu := sampleGlState, drawCalls := [], sharedResources := [], calls := []
    TextureSampler := none, IsFeedback := false, core15fwd := true }

/-- Collaborators that know the single font family `Courier`, rasterize it with fixed
metrics and format every text into one glyph batch. -/
def sampleTextEnv : TextEnv :=
  { Font_FA_Undefined := 0
    Font_FA_Regular := 1
    FontMgr_FindFont := fun name _ _ => if name = "Courier" then some "cour.ttf" else none
    Font_FTFont_Init := fun _ h =>
      some { PointSize := h.toNat, Ascender := 12, Descender := 3, AdvanceX := fun _ _ => 10 }
    OpenGl_Font_Init := fun _ => true
    formatter := fun _ _ =>
      { theTextures := [7], theVertsPerTexture := [⟨1, 6⟩], theTCrdsPerTexture := [⟨2, 6⟩]
        theBndBox := ⟨0, 10, 12, 0⟩ }
    glu := failingGlu
    rotationZ := fun _ => THE_IDENTITY_MATRIX }

/-- A regular Courier aspect, displayed normally. -/
def courierAspect : OpenGl_AspectText :=
  { FontName := "Courier", FontAspect := 0, Angle := 0, IsZoomable := false
    StyleType := .Aspect_TOST_NORMAL, DisplayType := .Aspect_TODT_NORMAL
    Color := ⟨1, 1, 1⟩, SubtitleColor := ⟨0, 0, 0⟩ }

/-- An aspect naming a font family that the font manager does not know. -/
def unknownAspect : OpenGl_AspectText := { courierAspect with FontName := "Unknown" }

/-- A 2D label showing `A` at height 16 that holds `fixedFont` and one glyph batch:
texture 7, vertex buffer 1, UV buffer 2. -/
def sampleLabel : OpenGl_Text :=
  { myFont := some fixedFont
    myTextures := [7]
    myVertsVbo := [⟨1, 6⟩]
    myTCrdsVbo := [⟨2, 6⟩]
    myBndBox := ⟨0, 10, 12, 0⟩
    myProjMatrix := THE_IDENTITY_MATRIX
    myModelMatrix := THE_IDENTITY_MATRIX
    myViewport := ⟨0, 0, 640, 480⟩
    myWinX := 0, myWinY := 0, myWinZ := 0
    myScaleHeight := 1, myExportHeight := 1
    myParams := ⟨16, 0, 0⟩
    myString := [65]
    myPoint := ⟨0, 0, 0⟩
    myIs2d := true }

/-- The label `sampleLabel` after its vertex buffers were lost: one texture, no vertex
buffer. -/
def mismatchLabel : OpenGl_Text := { sampleLabel with myVertsVbo := [] }

/-- A regular Courier aspect, displayed over a subtitle rectangle. -/
def subtitleAspect : OpenGl_AspectText :=
  { courierAspect with DisplayType := .Aspect_TODT_SUBTITLE }

/-- The context `sampleTextContext` with the projection stack as current matrix stack. -/
def projectionModeContext : TextContext :=
  { sampleTextContext with
    gpu := { sampleGlState with
             matrices := { sampleContext with matrixMode := .GL_PROJECTION } } }

/-- A descriptor cancelling zoom only. -/
def zoomOnly : TEL_TRANSFORM_PERSISTENCE := { mode := 2, pointX := 0, pointY := 0, pointZ := 0 }

/-- A descriptor cancelling rotation only, anchored at `(1, 2, 3)`. -/
def rotateOnly : TEL_TRANSFORM_PERSISTENCE :=
  { mode := 8, pointX := 1, pointY := 2, pointZ := 3 }

/-- The tolerances of `Precision` (`1e-12` and `1e-7`), `M_PI` as the double nearest to the
number, and a table standing for `gp_Vec::Angle` that holds the angles of parallel vectors
(`0`), of opposite vectors (`M_PI`) and of perpendicular vectors (`M_PI / 2`); vectors in
another position are given `M_PI / 4` or `3 M_PI / 4` by the sign of their scalar product. -/
def sampleGeom : GeomEnv :=
  { Precision_Angular := 1 / 1000000000000
    Precision_Confusion := 1 / 10000000
    M_PI := 884279719003555 / 281474976710656
    Angle := fun u v =>
      let aPi : ℚ := 884279719003555 / 281474976710656
      let aCrossIsNull : Bool :=
        decide (u.y * v.z - u.z * v.y = 0 ∧ u.z * v.x - u.x * v.z = 0 ∧
          u.x * v.y - u.y * v.x = 0)
      if aCrossIsNull then (if 0 ≤ u.dot v then 0 else aPi)
      else if u.dot v = 0 then aPi / 2
      else if 0 < u.dot v then aPi / 4 else 3 * aPi / 4 }

/-- A diameter dimension before any measurement, without a plane set by the user. -/
def freshDiameter : AIS_DiameterDimension :=
  { myCircle := ⟨⟨0, 0, 0⟩, ⟨0, 0, 1⟩, 0⟩
    myPlane := ⟨⟨0, 0, 0⟩, ⟨0, 0, 1⟩⟩
    myIsPlaneCustom := false
    myIsValid := false
    myValue := 0 }

/-- A GLU for orthographic projections: `gluProject` is the pipeline of
`windowCoordinates`; `gluUnProject` inverts, under the identity model-view matrix, the
projections whose matrix is diagonal with a translation, and reports failure elsewhere. -/
def orthoGlu : Glu :=
  { gluProject := fun obj m p vp => windowCoordinates m p vp obj
    gluUnProject := fun w m p vp =>
      if m = THE_IDENTITY_MATRIX ∧ (∀ i j : Fin 4, i ≠ j → i ≠ 3 → p i j = 0) ∧
          p 3 3 = 1 ∧ p 0 0 ≠ 0 ∧ p 1 1 ≠ 0 ∧ p 2 2 ≠ 0 ∧
          vp.width ≠ 0 ∧ vp.height ≠ 0 then
        some ⟨((2 * (w.x - vp.x) / vp.width - 1) - p 3 0) / p 0 0,
          ((2 * (w.y - vp.y) / vp.height - 1) - p 3 1) / p 1 1,
          ((2 * w.z - 1) - p 3 2) / p 2 2⟩
      else none
    uninit := ⟨0, 0, 0⟩ }

/-- The collaborators of `sampleTextEnv` with the GLU `orthoGlu`. -/
def orthoTextEnv : TextEnv := { sampleTextEnv with glu := orthoGlu }

/-- The label `sampleLabel` anchored in space at `(1, 2, 3)`. -/
def spaceLabel : OpenGl_Text := { sampleLabel with myIs2d := false, myPoint := ⟨1, 2, 3⟩ }

/-! ## Transform persistence: auxiliary facts -/

theorem moveToAnchor_frame (fl : TP_FLAGS) (glu : Glu) (d : TEL_TRANSFORM_PERSISTENCE) (vp : Viewport) (w : Vec3)
    (p : Mat4) (c : OpenGl_Context) :
    (moveToAnchor fl glu d vp w p c).modelView.below = c.modelView.below ∧
    (moveToAnchor fl glu d vp w p c).projection.below = c.projection.below ∧
    (moveToAnchor fl glu d vp w p c).shaderCalls = c.shaderCalls := by
  unfold moveToAnchor
  simp only [glTranslated, glMultMatrixd, glMatrixMode, onCurrentStack, MatrixStack.load]
  split_ifs <;> simp

theorem pushAndReset_identity (s : ViewState) (h : s.1.myIsTransPers = false) :
    (pushAndReset s).1.myIsTransPers = true ∧
    (pushAndReset s).2.modelView.below = s.2.modelView.top :: s.2.modelView.below ∧
    (pushAndReset s).2.projection.below = s.2.projection.top :: s.2.projection.below := by
  simp [pushAndReset, h, glLoadIdentity, glPushMatrix, glMatrixMode, onCurrentStack,
    MatrixStack.load, MatrixStack.push]

theorem pushAndReset_persisting (s : ViewState) (h : s.1.myIsTransPers = true)
    (m p : Mat4) (r q : List Mat4) (hm : s.2.modelView.below = m :: r)
    (hp : s.2.projection.below = p :: q) :
    (pushAndReset s).1.myIsTransPers = true ∧
    (pushAndReset s).2.modelView.below = m :: r ∧
    (pushAndReset s).2.projection.below = p :: q := by
  simp [pushAndReset, h, glLoadIdentity, glPushMatrix, glPopMatrix, glMatrixMode, onCurrentStack,
    MatrixStack.load, MatrixStack.push, MatrixStack.pop, hm, hp]

theorem pushAndReset_view (s : ViewState) :
    (pushAndReset s).1.myTransPers = s.1.myTransPers := by
  unfold pushAndReset
  cases h : s.1.myIsTransPers <;> simp [h]

theorem begin_fst (fl : TP_FLAGS) (glu : Glu) (s : ViewState) (d : TEL_TRANSFORM_PERSISTENCE) :
    (BeginTransformPersistence fl glu s d).1 = s.1.myTransPers := by
  by_cases hd : d.mode = 0 <;> simp [BeginTransformPersistence, hd]

theorem end_myTransPers (s : ViewState) :
    (EndTransformPersistence s).1.myTransPers = s.1.myTransPers := by
  unfold EndTransformPersistence
  split_ifs <;> rfl

theorem begin_myTransPers (fl : TP_FLAGS) (glu : Glu) (s : ViewState) (d : TEL_TRANSFORM_PERSISTENCE) :
    (BeginTransformPersistence fl glu s d).2.1.myTransPers = d := by
  by_cases hd : d.mode = 0
  · simp [BeginTransformPersistence, hd, end_myTransPers]
  · simp [BeginTransformPersistence, hd, pushAndReset_view]

theorem begin_nonzero_below (fl : TP_FLAGS) (glu : Glu) (s : ViewState) (d : TEL_TRANSFORM_PERSISTENCE) (hd : d.mode ≠ 0) :
    (BeginTransformPersistence fl glu s d).2.1.myIsTransPers
      = (pushAndReset ({ s.1 with myTransPers := d }, s.2)).1.myIsTransPers ∧
    (BeginTransformPersistence fl glu s d).2.2.modelView.below
      = (pushAndReset ({ s.1 with myTransPers := d }, s.2)).2.modelView.below ∧
    (BeginTransformPersistence fl glu s d).2.2.projection.below
      = (pushAndReset ({ s.1 with myTransPers := d }, s.2)).2.projection.below := by
  unfold BeginTransformPersistence
  simp only [hd, if_false]
  simp only [shaderCall]
  refine ⟨by simp, ?_, ?_⟩
  · rw [(moveToAnchor_frame fl glu _ _ _ _ _).1]
    simp [glMultMatrixd, glMatrixMode, onCurrentStack, MatrixStack.load]
  · rw [(moveToAnchor_frame fl glu _ _ _ _ _).2.1]
    simp [glMultMatrixd, glMatrixMode, onCurrentStack, MatrixStack.load]

theorem end_persisting (s : ViewState) (h : s.1.myIsTransPers = true)
    (m p : Mat4) (r q : List Mat4) (hm : s.2.modelView.below = m :: r)
    (hp : s.2.projection.below = p :: q) :
    (EndTransformPersistence s).1.myIsTransPers = false ∧
    (EndTransformPersistence s).2.modelView = { top := m, below := r } ∧
    (EndTransformPersistence s).2.projection = { top := p, below := q } ∧
    (EndTransformPersistence s).2.shaderCalls = s.2.shaderCalls ++
      [.RevertWorldViewStateTo m, .RevertProjectionStateTo p] := by
  simp [EndTransformPersistence, h, glPopMatrix, glMatrixMode, onCurrentStack,
    MatrixStack.pop, hm, hp, shaderCall]

theorem pairingInv_end (mv0 pr0 : MatrixStack) (s : ViewState) (h : PairingInv mv0 pr0 s) :
    PairingInv mv0 pr0 (EndTransformPersistence s) ∧
    (EndTransformPersistence s).1.myIsTransPers = false := by
  cases hf : s.1.myIsTransPers
  · have : EndTransformPersistence s = s := by simp [EndTransformPersistence, hf]
    rw [this]; exact ⟨h, hf⟩
  · obtain ⟨hm, hp⟩ := h.2 hf
    obtain ⟨e1, e2, e3, -⟩ := end_persisting s hf _ _ _ _ hm hp
    refine ⟨⟨fun _ => ⟨e2, e3⟩, fun h' => ?_⟩, e1⟩
    rw [e1] at h'; cases h'

theorem pairingInv_begin (fl : TP_FLAGS) (glu : Glu) (mv0 pr0 : MatrixStack) (s : ViewState) (h : PairingInv mv0 pr0 s)
    (d : TEL_TRANSFORM_PERSISTENCE) :
    PairingInv mv0 pr0 (BeginTransformPersistence fl glu s d).2 := by
  by_cases hd : d.mode = 0
  · have e : (BeginTransformPersistence fl glu s d).2
        = EndTransformPersistence ({ s.1 with myTransPers := d }, s.2) := by
      simp [BeginTransformPersistence, hd]
    rw [e]
    exact (pairingInv_end mv0 pr0 _ (show PairingInv mv0 pr0
      ({ s.1 with myTransPers := d }, s.2) from h)).1
  · obtain ⟨b1, b2, b3⟩ := begin_nonzero_below fl glu s d hd
    cases hf : s.1.myIsTransPers
    · obtain ⟨hm, hp⟩ := h.1 hf
      obtain ⟨p1, p2, p3⟩ := pushAndReset_identity ({ s.1 with myTransPers := d }, s.2) hf
      refine ⟨fun h' => ?_, fun _ => ?_⟩
      · rw [b1, p1] at h'; cases h'
      · rw [b2, b3, p2, p3]; simp only; rw [hm, hp]; exact ⟨rfl, rfl⟩
    · obtain ⟨hm, hp⟩ := h.2 hf
      obtain ⟨p1, p2, p3⟩ :=
        pushAndReset_persisting ({ s.1 with myTransPers := d }, s.2) hf _ _ _ _ hm hp
      refine ⟨fun h' => ?_, fun _ => ?_⟩
      · rw [b1, p1] at h'; cases h'
      · rw [b2, b3, p2, p3]; exact ⟨rfl, rfl⟩

theorem pairingInv_performCalls (fl : TP_FLAGS) (glu : Glu) (mv0 pr0 : MatrixStack) (cs : List Call) :
    ∀ s : ViewState, PairingInv mv0 pr0 s → PairingInv mv0 pr0 (performCalls fl glu s cs) := by
  induction cs with
  | nil => intro s h; exact h
  | cons c cs ih =>
    intro s h
    have : performCalls fl glu s (c :: cs) = performCalls fl glu (Call.perform fl glu s c) cs := rfl
    rw [this]
    apply ih
    cases c with
    | Begin d => exact pairingInv_begin fl glu mv0 pr0 s h d
    | End => exact (pairingInv_end mv0 pr0 s h).1

theorem pairingInv_init (s : ViewState) (h : s.1.myIsTransPers = false) :
    PairingInv s.2.modelView s.2.projection s :=
  ⟨fun _ => ⟨rfl, rfl⟩, fun h' => by rw [h] at h'; cases h'⟩

theorem pairingInv_depth (mv0 pr0 : MatrixStack) (s : ViewState) (h : PairingInv mv0 pr0 s) :
    s.2.modelView.depth = mv0.depth + (if s.1.myIsTransPers then 1 else 0) ∧
    s.2.projection.depth = pr0.depth + (if s.1.myIsTransPers then 1 else 0) := by
  cases hf : s.1.myIsTransPers
  · obtain ⟨hm, hp⟩ := h.1 hf
    simp [hm, hp]
  · obtain ⟨hm, hp⟩ := h.2 hf
    simp [MatrixStack.depth, hm, hp]

theorem performCalls_myTransPers (fl : TP_FLAGS) (glu : Glu) (cs : List Call) :
    ∀ s : ViewState, (performCalls fl glu s cs).1.myTransPers
      = cs.foldl (fun d c => match c with | .Begin e => e | .End => d) s.1.myTransPers := by
  induction cs with
  | nil => intro s; rfl
  | cons c cs ih =>
    intro s
    have : performCalls fl glu s (c :: cs) = performCalls fl glu (Call.perform fl glu s c) cs := rfl
    rw [this, ih]
    cases c with
    | Begin d => simp [Call.perform, begin_myTransPers]
    | End => simp [Call.perform, end_myTransPers]



/-! ## Text measurement: auxiliary facts -/

theorem loop_cons (f : OpenGl_Font) (c : Nat) (rest : List Nat) (tw aw : ℚ) :
    StringSize_loop f (c :: rest) (tw, aw) =
      if c = 0 then (tw, aw)
      else if isCarriageControl c then StringSize_loop f rest (tw, aw)
      else if c = 0x0A then StringSize_loop f rest (max tw aw, 0)
      else if c = 0x20 then StringSize_loop f rest (tw, aw + f.AdvanceX c (rest.headD 0))
      else if c = 0x09 then StringSize_loop f rest (tw, aw + f.AdvanceX 0x20 (rest.headD 0) * 8)
      else StringSize_loop f rest (tw, aw + f.AdvanceX c (rest.headD 0)) := by
  rw [StringSize_loop]

theorem loop_insert_control (f : OpenGl_Font) (c : Nat) (hc : isCarriageControl c = true)
    (s2 : List Nat) :
    ∀ (s1 : List Nat) (st : ℚ × ℚ),
      (∀ p, s1.getLast? = some p →
        f.AdvanceX (if p = 0x09 then 0x20 else p) c
          = f.AdvanceX (if p = 0x09 then 0x20 else p) (s2.headD 0)) →
      StringSize_loop f (s1 ++ c :: s2) st = StringSize_loop f (s1 ++ s2) st := by
  intro s1
  induction s1 with
  | nil =>
    rintro ⟨tw, aw⟩ -
    have hc0 : c ≠ 0 := by rintro rfl; simp [isCarriageControl] at hc
    simp [loop_cons, hc0, hc]
  | cons a s1 ih =>
    rintro ⟨tw, aw⟩ hk
    cases s1 with
    | nil =>
      have h1 := hk a (by simp)
      simp only [List.cons_append, List.nil_append] at ih ⊢
      rw [loop_cons f a (c :: s2), loop_cons f a s2]
      have ih' := fun st => ih st (by simp)
      simp only [List.headD_cons, ih']
      by_cases h9 : a = 9
      · subst h9
        simp only [if_true] at h1
        simp [h1]
      · simp only [h9, if_false] at h1
        simp [h1, h9]
    | cons b s1 =>
      have ih' := fun st => ih st (by
        intro p hp
        apply hk p
        simpa [List.getLast?_cons_cons] using hp)
      simp only [List.cons_append] at ih' ⊢
      rw [loop_cons f a (b :: (s1 ++ c :: s2)), loop_cons f a (b :: (s1 ++ s2))]
      simp only [List.headD_cons, ih']

theorem loop_plain (f : OpenGl_Font) (hk : NoKerning f) :
    ∀ (s : List Nat) (tw aw : ℚ), (∀ c ∈ s, isPlainChar c = true) →
      StringSize_loop f s (tw, aw) = (tw, aw + advanceSum f s) := by
  intro s
  induction s with
  | nil => intro tw aw _; simp [StringSize_loop, advanceSum]
  | cons a s ih =>
    intro tw aw hp
    have ha := hp a (List.mem_cons_self a s)
    simp only [isPlainChar, Bool.and_eq_true, bne_iff_ne, ne_eq, Bool.not_eq_true',
      Bool.not_eq_eq_eq_not, Bool.not_true] at ha
    obtain ⟨⟨⟨h0, h10⟩, hcc⟩, h9⟩ := ha
    rw [loop_cons]
    simp only [h0, h10, hcc, h9, if_false, Bool.false_eq_true]
    rw [hk a (s.headD 0) 0]
    simp only [ite_self]
    rw [ih _ _ (fun c hc => hp c (List.mem_cons_of_mem a hc))]
    simp [advanceSum, add_assoc]

/-- C1: starting in the Identity state, `Begin a; Begin b; End` with non-zero modes leaves
the depth of the model-view and of the projection stack as it was, and after any sequence
of `Begin`/`End` calls each depth is the initial depth plus one when the view is persisting
and the initial depth otherwise. -/
theorem transform_persistence_pairing (fl : TP_FLAGS) (glu : Glu) (s : ViewState)
    (hs : s.1.myIsTransPers = false) :
    (∀ a b : TEL_TRANSFORM_PERSISTENCE, a.mode ≠ 0 → b.mode ≠ 0 →
      (performCalls fl glu s [.Begin a, .Begin b, .End]).2.modelView.depth
        = s.2.modelView.depth ∧
      (performCalls fl glu s [.Begin a, .Begin b, .End]).2.projection.depth
        = s.2.projection.depth) ∧
    (∀ cs : List Call,
      (performCalls fl glu s cs).2.modelView.depth = s.2.modelView.depth +
        (if (performCalls fl glu s cs).1.myIsTransPers then 1 else 0) ∧
      (performCalls fl glu s cs).2.projection.depth = s.2.projection.depth +
        (if (performCalls fl glu s cs).1.myIsTransPers then 1 else 0)) := by
  have key := fun cs =>
    pairingInv_performCalls fl glu s.2.modelView s.2.projection cs s (pairingInv_init s hs)
  refine ⟨fun a b _ _ => ?_, fun cs => pairingInv_depth _ _ _ (key cs)⟩
  have h2 := key [.Begin a, .Begin b]
  have h3 := pairingInv_end _ _ _ h2
  have e : performCalls fl glu s [.Begin a, .Begin b, .End]
      = EndTransformPersistence (performCalls fl glu s [.Begin a, .Begin b]) := rfl
  rw [e]
  have := pairingInv_depth _ _ _ h3.1
  rw [h3.2] at this
  simpa using this

/-- Witness of C1 on `sampleState` with the descriptors `panRotate` and `panOnly`. -/
theorem transform_persistence_pairing_witness :
    (performCalls occtFlags failingGlu sampleState
        [.Begin panRotate, .Begin panOnly, .End]).2.modelView.depth
      = sampleState.2.modelView.depth ∧
    (performCalls occtFlags failingGlu sampleState
        [.Begin panRotate, .Begin panOnly, .End]).2.projection.depth
      = sampleState.2.projection.depth :=
  (transform_persistence_pairing occtFlags failingGlu sampleState rfl).1 panRotate panOnly
    (by decide) (by decide)

/-- C2, evaluated on the code: on `sampleState`, whose model-view matrix is a quarter turn,
`Begin panRotate; Begin panOnly` leaves the entry `[0][0]` of the model-view matrix at `1`
(the rotation cancelled by the first call stays cancelled), whereas `Begin panOnly` alone
leaves it at `0`; the two model-view matrices differ, whatever GLU computes. -/
theorem nested_begin_composes_with_previous_override :
    ∀ glu : Glu,
      (BeginTransformPersistence occtFlags glu
        (BeginTransformPersistence occtFlags glu sampleState panRotate).2
        panOnly).2.2.modelView.top 0 0 = 1 ∧
      (BeginTransformPersistence occtFlags glu sampleState panOnly).2.2.modelView.top 0 0 = 0 ∧
      (BeginTransformPersistence occtFlags glu
        (BeginTransformPersistence occtFlags glu sampleState panRotate).2
        panOnly).2.2.modelView.top
        ≠ (BeginTransformPersistence occtFlags glu sampleState panOnly).2.2.modelView.top := by
  intro glu
  have h1 : (BeginTransformPersistence occtFlags glu
        (BeginTransformPersistence occtFlags glu sampleState panRotate).2
        panOnly).2.2.modelView.top 0 0 = 1 := by
    simp [BeginTransformPersistence, panRotate, panOnly, occtFlags, sampleState, sampleContext,
      pushAndReset, OpenGl_View.new, glMatrixMode, glPushMatrix, glLoadIdentity, glMultMatrixd,
      onCurrentStack, moveToAnchor, shaderCall, MatrixStack.load, MatrixStack.push,
      MatrixStack.pop, glPopMatrix, preventZooming, preventTranslation, preventAxialScaling,
      preventRotating, Mat4.mul, Mat4.set, THE_IDENTITY_MATRIX, quarterTurn]
  have h2 : (BeginTransformPersistence occtFlags glu sampleState panOnly).2.2.modelView.top 0 0
      = 0 := by
    simp [BeginTransformPersistence, panOnly, occtFlags, sampleState, sampleContext,
      pushAndReset, OpenGl_View.new, glMatrixMode, glPushMatrix, glLoadIdentity, glMultMatrixd,
      onCurrentStack, moveToAnchor, shaderCall, MatrixStack.load, MatrixStack.push,
      preventZooming, preventTranslation, preventAxialScaling,
      preventRotating, Mat4.mul, Mat4.set, THE_IDENTITY_MATRIX, quarterTurn]
  refine ⟨h1, h2, fun h => ?_⟩
  rw [h] at h1
  rw [h1] at h2
  exact one_ne_zero h2

/-- C3: in the Identity state, `Begin d` with a non-zero mode followed by `End` restores
both matrix stacks (so the current model-view and projection matrices are again `M` and
`P`), leaves the view in the Identity state, and the two calls `End` makes to the shader
manager hand over `M` and `P`. -/
theorem begin_end_round_trip (fl : TP_FLAGS) (glu : Glu) (s : ViewState)
    (hs : s.1.myIsTransPers = false) (d : TEL_TRANSFORM_PERSISTENCE) (hd : d.mode ≠ 0) :
    (EndTransformPersistence (BeginTransformPersistence fl glu s d).2).2.modelView
      = s.2.modelView ∧
    (EndTransformPersistence (BeginTransformPersistence fl glu s d).2).2.projection
      = s.2.projection ∧
    (EndTransformPersistence (BeginTransformPersistence fl glu s d).2).1.myIsTransPers
      = false ∧
    (EndTransformPersistence (BeginTransformPersistence fl glu s d).2).2.shaderCalls
      = (BeginTransformPersistence fl glu s d).2.2.shaderCalls ++
        [.RevertWorldViewStateTo s.2.modelView.top,
         .RevertProjectionStateTo s.2.projection.top] := by
  obtain ⟨b1, b2, b3⟩ := begin_nonzero_below fl glu s d hd
  obtain ⟨p1, p2, p3⟩ := pushAndReset_identity ({ s.1 with myTransPers := d }, s.2) hs
  obtain ⟨e1, e2, e3, e4⟩ := end_persisting (BeginTransformPersistence fl glu s d).2
    (b1.trans p1) _ _ _ _ (b2.trans p2) (b3.trans p3)
  exact ⟨e2, e3, e1, e4⟩

/-- Witness of C3 on `sampleState` with the descriptor `panRotate`. -/
theorem begin_end_round_trip_witness :
    (EndTransformPersistence
        (BeginTransformPersistence occtFlags failingGlu sampleState panRotate).2).2.modelView
      = sampleState.2.modelView ∧
    (EndTransformPersistence
        (BeginTransformPersistence occtFlags failingGlu sampleState panRotate).2).2.projection
      = sampleState.2.projection :=
  have h := begin_end_round_trip occtFlags failingGlu sampleState rfl panRotate (by decide)
  ⟨h.1, h.2.1⟩

/-- C4: in every state, `Begin d` with `d.mode = 0` leaves the GL context (matrix stacks,
current matrices, matrix mode, shader calls) and the persisting flag exactly as `End` does,
and the view ends in the Identity state. -/
theorem begin_mode_zero_is_end (fl : TP_FLAGS) (glu : Glu) (s : ViewState)
    (d : TEL_TRANSFORM_PERSISTENCE) (hd : d.mode = 0) :
    (BeginTransformPersistence fl glu s d).2.2 = (EndTransformPersistence s).2 ∧
    (BeginTransformPersistence fl glu s d).2.1.myIsTransPers
      = (EndTransformPersistence s).1.myIsTransPers ∧
    (BeginTransformPersistence fl glu s d).2.1.myIsTransPers = false := by
  cases hf : s.1.myIsTransPers <;>
    simp [BeginTransformPersistence, hd, EndTransformPersistence, hf]

/-- Witness of C4: the default descriptor passed to a view made persisting by
`Begin panOnly`. -/
theorem begin_mode_zero_is_end_witness :
    (BeginTransformPersistence occtFlags failingGlu
        (BeginTransformPersistence occtFlags failingGlu sampleState panOnly).2
        myDefaultTransPers).2.2
      = (EndTransformPersistence
          (BeginTransformPersistence occtFlags failingGlu sampleState panOnly).2).2 :=
  (begin_mode_zero_is_end occtFlags failingGlu
    (BeginTransformPersistence occtFlags failingGlu sampleState panOnly).2
    myDefaultTransPers rfl).1

/-- C5: `End` called in the Identity state changes nothing: the whole view state (stacks,
current matrices, matrix mode, flag, current descriptor, shader calls) is returned as is. -/
theorem end_in_identity_is_noop (s : ViewState) (hs : s.1.myIsTransPers = false) :
    EndTransformPersistence s = s := by
  simp [EndTransformPersistence, hs]

/-- Witness of C5 on `sampleState`. -/
theorem end_in_identity_is_noop_witness :
    EndTransformPersistence sampleState = sampleState :=
  end_in_identity_is_noop sampleState rfl

/-- C6: after any sequence of `Begin`/`End` calls on a freshly constructed view, `Begin d`
returns the descriptor of the most recent earlier `Begin` (the default descriptor when there
is none) and makes `d` the current descriptor, whatever the mode of `d`. -/
theorem begin_returns_previous (fl : TP_FLAGS) (glu : Glu) (axialScale : Vec3)
    (c : OpenGl_Context) (cs : List Call) (d : TEL_TRANSFORM_PERSISTENCE) :
    (BeginTransformPersistence fl glu
      (performCalls fl glu (OpenGl_View.new axialScale, c) cs) d).1 = lastBeginDescriptor cs ∧
    (BeginTransformPersistence fl glu
      (performCalls fl glu (OpenGl_View.new axialScale, c) cs) d).2.1.myTransPers = d := by
  refine ⟨?_, begin_myTransPers fl glu _ d⟩
  rw [begin_fst, performCalls_myTransPers]
  rfl

/-! ## Text measurement: verified properties -/

/-- C7, refuted as stated: with the kerned pair `A`,`B` of `kerningFont`, the text `AB`
measures 19 and the text `A CR B` measures 20. -/
theorem control_insertion_changes_kerned_width :
    kerningFont.IsValid = true ∧ isCarriageControl 13 = true ∧
    (StringSize (some kerningFont) ([65] ++ [66])).theWidth = 19 ∧
    (StringSize (some kerningFont) ([65] ++ 13 :: [66])).theWidth = 20 ∧
    (StringSize (some kerningFont) ([65] ++ 13 :: [66])).theWidth
      ≠ (StringSize (some kerningFont) ([65] ++ [66])).theWidth := by
  have h1 : (StringSize (some kerningFont) ([65] ++ [66])).theWidth = 19 := by
    simp [StringSize, StringSize_loop, kerningFont, isCarriageControl]; norm_num
  have h2 : (StringSize (some kerningFont) ([65] ++ 13 :: [66])).theWidth = 20 := by
    simp [StringSize, StringSize_loop, kerningFont, isCarriageControl]; norm_num
  refine ⟨rfl, by decide, h1, h2, ?_⟩
  rw [h1, h2]; norm_num

/-- C7, amended: inserting one of CR, BEL, FF, BS, VT between `s1` and `s2` leaves the
result of `StringSize` unchanged, provided the pair advance of the character just before
the insertion point (of the space glyph when that character is a tab) is the same with the
control character as successor as with the original successor; no condition is needed when
the insertion is at the beginning of the text. -/
theorem control_insertion_keeps_width (f : OpenGl_Font) (c : Nat)
    (hc : isCarriageControl c = true) (s1 s2 : List Nat)
    (hk : ∀ p, s1.getLast? = some p →
      f.AdvanceX (if p = 0x09 then 0x20 else p) c
        = f.AdvanceX (if p = 0x09 then 0x20 else p) (s2.headD 0)) :
    StringSize (some f) (s1 ++ c :: s2) = StringSize (some f) (s1 ++ s2) := by
  simp only [StringSize, loop_insert_control f c hc s2 s1 (0, 0) hk]

/-- Witness of amended C7: a carriage return inserted after `AB` in `ABC`, measured with
`kerningFont`. -/
theorem control_insertion_keeps_width_witness :
    StringSize (some kerningFont) ([65, 66] ++ 13 :: [67])
      = StringSize (some kerningFont) ([65, 66] ++ [67]) :=
  control_insertion_keeps_width kerningFont 13 (by decide) [65, 66] [67]
    (by intro p hp; simp at hp; subst hp; simp [kerningFont])

/-- C8, refuted as stated: `backwardFont` is valid and has no kerning, the text `A` is
plain, the sum of its advances is `-1`, and its measured width is `0`. -/
theorem plain_width_is_not_the_advance_sum :
    backwardFont.IsValid = true ∧ NoKerning backwardFont ∧ isPlainChar 65 = true ∧
    advanceSum backwardFont [65] = -1 ∧
    (StringSize (some backwardFont) [65]).theWidth = 0 ∧
    (StringSize (some backwardFont) [65]).theWidth ≠ advanceSum backwardFont [65] := by
  have h1 : advanceSum backwardFont [65] = -1 := by simp [advanceSum, backwardFont]
  have h2 : (StringSize (some backwardFont) [65]).theWidth = 0 := by
    simp [StringSize, StringSize_loop, backwardFont, isCarriageControl]
  refine ⟨rfl, fun _ _ _ => rfl, by decide, h1, h2, ?_⟩
  rw [h1, h2]; norm_num

/-- C8, amended: for a valid font without kerning and texts `s1`, `s2` made of plain
characters (no terminator, line feed, carriage control code or tab) whose advances sum to
a non-negative value, as they do when no advance is negative, the measured width of `s1` is
the sum of the advances of its characters, and the width of `s1 ++ s2` is the sum of the
widths of `s1` and `s2`. -/
theorem plain_text_width_additive (f : OpenGl_Font) (hv : f.IsValid = true)
    (hk : NoKerning f) (s1 s2 : List Nat)
    (h1 : ∀ c ∈ s1, isPlainChar c = true) (h2 : ∀ c ∈ s2, isPlainChar c = true)
    (hs1 : 0 ≤ advanceSum f s1) (hs2 : 0 ≤ advanceSum f s2) :
    (StringSize (some f) s1).theWidth = advanceSum f s1 ∧
    (StringSize (some f) (s1 ++ s2)).theWidth
      = (StringSize (some f) s1).theWidth + (StringSize (some f) s2).theWidth := by
  have hw : ∀ s : List Nat, (∀ c ∈ s, isPlainChar c = true) → 0 ≤ advanceSum f s →
      (StringSize (some f) s).theWidth = advanceSum f s := by
    intro s hp hs
    simp only [StringSize, hv, Bool.not_true, Bool.false_eq_true, if_false,
      loop_plain f hk s 0 0 hp, zero_add]
    exact max_eq_right hs
  have happ : advanceSum f (s1 ++ s2) = advanceSum f s1 + advanceSum f s2 := by
    simp [advanceSum]
  have h12 : ∀ c ∈ s1 ++ s2, isPlainChar c = true := by
    intro c hc
    rcases List.mem_append.1 hc with h | h
    · exact h1 c h
    · exact h2 c h
  refine ⟨hw s1 h1 hs1, ?_⟩
  rw [hw s1 h1 hs1, hw s2 h2 hs2, hw _ h12 (by rw [happ]; exact add_nonneg hs1 hs2), happ]

/-- Witness of amended C8: the texts `A` and `B` measured with `fixedFont`, so that
`StringSize ("AB")` is the sum of the two advances. -/
theorem plain_text_width_additive_witness :
    (StringSize (some fixedFont) [65]).theWidth = advanceSum fixedFont [65] ∧
    (StringSize (some fixedFont) ([65] ++ [66])).theWidth
      = (StringSize (some fixedFont) [65]).theWidth
        + (StringSize (some fixedFont) [66]).theWidth :=
  plain_text_width_additive fixedFont rfl (fun _ _ _ => rfl) [65] [66] (by decide) (by decide)
    (by norm_num [advanceSum, fixedFont]) (by norm_num [advanceSum, fixedFont])

/-- C10: in the loop of `StringSize` a tab followed by the code point `n` (`0` at the end
of the text) adds `8 * AdvanceX (' ', n)` to the width of the current line and a space adds
`AdvanceX (' ', n)`; the text made of one tab measures eight times the text made of one
space. -/
theorem space_and_tab_advance (f : OpenGl_Font) (rest : List Nat) (tw aw : ℚ) :
    StringSize_loop f (0x09 :: rest) (tw, aw)
      = StringSize_loop f rest (tw, aw + 8 * f.AdvanceX 0x20 (rest.headD 0)) ∧
    StringSize_loop f (0x20 :: rest) (tw, aw)
      = StringSize_loop f rest (tw, aw + f.AdvanceX 0x20 (rest.headD 0)) ∧
    (StringSize (some f) [0x09]).theWidth = 8 * (StringSize (some f) [0x20]).theWidth := by
  refine ⟨?_, ?_, ?_⟩
  · rw [loop_cons]; simp [isCarriageControl, mul_comm]
  · rw [loop_cons]; simp [isCarriageControl]
  · cases hv : f.IsValid
    · simp [StringSize, hv]
    · simp only [StringSize, hv, Bool.not_true, Bool.false_eq_true, if_false, loop_cons,
        StringSize_loop, List.headD_nil]
      simp only [isCarriageControl]
      norm_num
      rcases le_total 0 (f.AdvanceX 32 0) with h | h
      · rw [max_eq_right h, max_eq_right (by linarith)]; ring
      · rw [max_eq_left h, max_eq_left (by linarith)]; ring


/-! ## Fonts and labels: auxiliary facts -/

theorem releaseVbos_loop_eq (vs ts : List OpenGl_VertexBuffer) :
    ∀ c : Option TextContext, vs.length ≤ ts.length →
      releaseVbos_loop vs ts c
        = some (c.map fun c => { c with calls := c.calls ++ deferredReleaseCalls vs ts }) := by
  induction vs generalizing ts with
  | nil =>
    intro c _
    cases c <;> simp [releaseVbos_loop, deferredReleaseCalls]
  | cons v vs ih =>
    intro c h
    cases ts with
    | nil => simp at h
    | cons t ts =>
      have h' : vs.length ≤ ts.length := by simpa using h
      rw [releaseVbos_loop, ih ts _ h']
      cases c <;>
        simp [deferredReleaseCalls, TextContext.DelayedRelease, TextContext.call,
          List.flatMap_cons]

theorem releaseVbos_eq (c : Option TextContext) (l : OpenGl_Text) (h : l.IndexSafe) :
    l.releaseVbos c = some
      ({ l with myTextures := [], myVertsVbo := [], myTCrdsVbo := [] },
        c.map fun c =>
          { c with calls := c.calls ++ deferredReleaseCalls l.myVertsVbo l.myTCrdsVbo }) := by
  simp [OpenGl_Text.releaseVbos, releaseVbos_loop_eq _ _ c h]

theorem release_eq (c : Option TextContext) (l : OpenGl_Text) (h : l.IndexSafe) :
    l.Release c = some
      ({ l with myTextures := [], myVertsVbo := [], myTCrdsVbo := [], myFont := none },
        c.map fun c =>
          { c with calls := c.calls ++ deferredReleaseCalls l.myVertsVbo l.myTCrdsVbo ++
              (match l.myFont with
               | none => []
               | some aFont => [.ReleaseResource aFont.ResourceKey true]) }) := by
  rw [OpenGl_Text.Release, releaseVbos_eq c l h]
  cases hf : l.myFont <;> cases c <;>
    simp [hf, TextContext.ReleaseResource, TextContext.call]

theorem deferredReleaseCalls_no_texture (vs ts : List OpenGl_VertexBuffer) (t : Nat) :
    ContextCall.DelayedRelease (.Texture t) ∉ deferredReleaseCalls vs ts := by
  simp [deferredReleaseCalls, List.mem_flatMap]

theorem findFont_of_small_height (env : TextEnv) (c : TextContext) (a : OpenGl_AspectText)
    (h : Int) (k : String) (hh : h < 2) : FindFont env c a h k = (none, c) := by
  simp [FindFont, hh]

/-! ## Fonts and labels: verified properties -/

/-- C11: `StringSize` returns width, ascent and descent `0` for every text when `FindFont`
yields a null handle or a font that is not valid, in particular whenever the requested
height is below 2; when the font found is valid, the ascent and descent returned are its
`Ascender` and `Descender`, whatever the text. -/
theorem stringSize_fails_softly (env : TextEnv) (theCtx : TextContext)
    (theTextAspect : OpenGl_AspectText) (theParams : OpenGl_TextParam) :
    ((FindFont env theCtx theTextAspect theParams.Height
          (FontKey env theTextAspect theParams.Height)).1 = none →
      ∀ theText, (OpenGl_Text.StringSize env theCtx theText theTextAspect theParams).1
        = ⟨0, 0, 0⟩) ∧
    (∀ f, (FindFont env theCtx theTextAspect theParams.Height
          (FontKey env theTextAspect theParams.Height)).1 = some f → f.IsValid = false →
      ∀ theText, (OpenGl_Text.StringSize env theCtx theText theTextAspect theParams).1
        = ⟨0, 0, 0⟩) ∧
    (theParams.Height < 2 →
      ∀ theText, (OpenGl_Text.StringSize env theCtx theText theTextAspect theParams).1
        = ⟨0, 0, 0⟩) ∧
    (∀ f, (FindFont env theCtx theTextAspect theParams.Height
          (FontKey env theTextAspect theParams.Height)).1 = some f → f.IsValid = true →
      ∀ theText,
        (OpenGl_Text.StringSize env theCtx theText theTextAspect theParams).1.theAscent
          = f.Ascender ∧
        (OpenGl_Text.StringSize env theCtx theText theTextAspect theParams).1.theDescent
          = f.Descender) := by
  refine ⟨fun h t => ?_, fun f h hv t => ?_, fun hh t => ?_, fun f h hv t => ?_⟩
  · simp [OpenGl_Text.StringSize, h]
  · simp [OpenGl_Text.StringSize, h, hv]
  · simp [OpenGl_Text.StringSize, findFont_of_small_height env theCtx theTextAspect _ _ hh]
  · simp [OpenGl_Text.StringSize, h, hv, StringSize]

/-- Witness of C11: height 1 gives zeros, and the Courier font of `sampleTextEnv` at
height 16 gives its ascender 12 and descender 3 for the text `AB`. -/
theorem stringSize_fails_softly_witness :
    (OpenGl_Text.StringSize sampleTextEnv sampleTextContext [65, 66] courierAspect
        ⟨1, 0, 0⟩).1 = ⟨0, 0, 0⟩ ∧
    (OpenGl_Text.StringSize sampleTextEnv sampleTextContext [65, 66] courierAspect
        ⟨16, 0, 0⟩).1.theAscent = 12 ∧
    (OpenGl_Text.StringSize sampleTextEnv sampleTextContext [65, 66] courierAspect
        ⟨16, 0, 0⟩).1.theDescent = 3 :=
  have h := stringSize_fails_softly sampleTextEnv sampleTextContext courierAspect
  ⟨(h ⟨1, 0, 0⟩).2.2.1 (by decide) [65, 66],
    (h ⟨16, 0, 0⟩).2.2.2
      (OpenGl_Font.create ⟨16, 12, 3, fun _ _ => 10⟩ "Courier:1:16" true)
      (by simp [FindFont, FontKey, sampleTextEnv, sampleTextContext, courierAspect,
            TextContext.GetResource, AsciiString_ofInteger]; rfl)
      rfl [65, 66]⟩

/-- C12: with a height below 2 `FindFont` returns a null handle and the context it was
given, registry included, whatever the collaborators, the aspect and the key. -/
theorem findFont_rejects_small_height (env : TextEnv) (theCtx : TextContext)
    (theAspect : OpenGl_AspectText) (theHeight : Int) (theKey : String)
    (hh : theHeight < 2) :
    (FindFont env theCtx theAspect theHeight theKey).1 = none ∧
    (FindFont env theCtx theAspect theHeight theKey).2 = theCtx := by
  rw [findFont_of_small_height env theCtx theAspect theHeight theKey hh]
  exact ⟨rfl, rfl⟩

/-- Witness of C12: height 1 on a context whose registry holds `fixedFont` under the key
asked for. -/
theorem findFont_rejects_small_height_witness :
    (FindFont sampleTextEnv (sampleTextContext.ShareResource "Courier:1:1" fixedFont)
        courierAspect 1 "Courier:1:1").1 = none ∧
    (FindFont sampleTextEnv (sampleTextContext.ShareResource "Courier:1:1" fixedFont)
        courierAspect 1 "Courier:1:1").2
      = sampleTextContext.ShareResource "Courier:1:1" fixedFont :=
  findFont_rejects_small_height sampleTextEnv _ courierAspect 1 "Courier:1:1" (by decide)

/-- C13: the key built by `FontKey` is the font name, a colon, the decimal rendering of
the style code (with `Font_FA_Regular` in place of `Font_FA_Undefined`), a colon and the
decimal rendering of the height. -/
theorem fontKey_format (env : TextEnv) (theAspect : OpenGl_AspectText) (theHeight : Int) :
    FontKey env theAspect theHeight
      = String.intercalate ":"
          [theAspect.FontName,
           toString (if theAspect.FontAspect = env.Font_FA_Undefined then env.Font_FA_Regular
                     else theAspect.FontAspect),
           toString theHeight] := by
  by_cases h : theAspect.FontAspect = env.Font_FA_Undefined <;>
    simp [FontKey, AsciiString_ofInteger, h, String.intercalate, String.intercalate.go]

/-- C14: for a height of at least 2, a font held by the registry under the key is
returned as is, with the context unchanged and whatever the collaborators are; when the
registry holds none and the system font is found and rasterized, the font created is
returned, it is inserted under the key, and the next `FindFont` with that key returns it
again; when the registry holds none and the font is not found or not rasterized, the
handle is null and the context unchanged. -/
theorem findFont_keyed_cache (env : TextEnv) (theCtx : TextContext)
    (theAspect : OpenGl_AspectText) (theHeight : Int) (theKey : String)
    (hh : 2 ≤ theHeight) :
    (∀ f, theCtx.GetResource theKey = some f →
      ∀ env' : TextEnv, FindFont env' theCtx theAspect theHeight theKey = (some f, theCtx)) ∧
    (theCtx.GetResource theKey = none →
      ∀ aFontPath aFontFt,
        env.FontMgr_FindFont theAspect.FontName
          (if theAspect.FontAspect ≠ env.Font_FA_Undefined then theAspect.FontAspect
           else env.Font_FA_Regular) theHeight = some aFontPath →
        env.Font_FTFont_Init aFontPath theHeight = some aFontFt →
        (FindFont env theCtx theAspect theHeight theKey).1
          = some (OpenGl_Font.create aFontFt theKey (env.OpenGl_Font_Init aFontFt)) ∧
        (FindFont env theCtx theAspect theHeight theKey).2.sharedResources
          = (theKey, OpenGl_Font.create aFontFt theKey (env.OpenGl_Font_Init aFontFt))
              :: theCtx.sharedResources ∧
        FindFont env (FindFont env theCtx theAspect theHeight theKey).2 theAspect theHeight
            theKey
          = (some (OpenGl_Font.create aFontFt theKey (env.OpenGl_Font_Init aFontFt)),
              (FindFont env theCtx theAspect theHeight theKey).2)) ∧
    (theCtx.GetResource theKey = none →
      (env.FontMgr_FindFont theAspect.FontName
          (if theAspect.FontAspect ≠ env.Font_FA_Undefined then theAspect.FontAspect
           else env.Font_FA_Regular) theHeight = none ∨
        ∃ aFontPath,
          env.FontMgr_FindFont theAspect.FontName
            (if theAspect.FontAspect ≠ env.Font_FA_Undefined then theAspect.FontAspect
             else env.Font_FA_Regular) theHeight = some aFontPath ∧
          env.Font_FTFont_Init aFontPath theHeight = none) →
      FindFont env theCtx theAspect theHeight theKey = (none, theCtx)) := by
  have hh' : ¬ theHeight < 2 := not_lt.mpr hh
  refine ⟨fun f hf env' => ?_, fun hn p ft hp hft => ?_, fun hn hfail => ?_⟩
  · simp [FindFont, hh', hf]
  · have e : FindFont env theCtx theAspect theHeight theKey
        = (some (OpenGl_Font.create ft theKey (env.OpenGl_Font_Init ft)),
            ((theCtx.gl GlState.glPushAttrib_TEXTURE_BIT).gl GlState.glPopAttrib).ShareResource
              theKey (OpenGl_Font.create ft theKey (env.OpenGl_Font_Init ft))) := by
      simp only [FindFont, hh', if_false, hn, hp, hft]
    rw [e]
    refine ⟨rfl, rfl, ?_⟩
    simp [FindFont, hh', TextContext.GetResource, TextContext.ShareResource, List.lookup]
  · rcases hfail with hnone | ⟨p, hp, hft⟩
    · simp only [FindFont, hh', if_false, hn, hnone]
    · simp only [FindFont, hh', if_false, hn, hp, hft]

/-- Witness of C14 on `sampleTextContext`, whose registry is empty: the Courier font is
created, and the second lookup returns it. -/
theorem findFont_keyed_cache_witness :
    FindFont sampleTextEnv
        (FindFont sampleTextEnv sampleTextContext courierAspect 16 "Courier:1:16").2
        courierAspect 16 "Courier:1:16"
      = (some (OpenGl_Font.create ⟨16, 12, 3, fun _ _ => 10⟩ "Courier:1:16" true),
          (FindFont sampleTextEnv sampleTextContext courierAspect 16 "Courier:1:16").2) :=
  ((findFont_keyed_cache sampleTextEnv sampleTextContext courierAspect 16 "Courier:1:16"
      (by decide)).2.1 rfl "cour.ttf" ⟨16, 12, 3, fun _ _ => 10⟩
      (by simp [sampleTextEnv, courierAspect]) (by simp [sampleTextEnv])).2.2

/-- C15: on a label whose vertex-buffer indices are indices of the UV-buffer list,
`SetFontSize` with a height different from the current one returns, leaves the three
glyph-batch lists empty and stores the new height; `SetPosition` leaves the three lists,
the font handle and the text parameters unchanged. -/
theorem setFontSize_invalidates_batches (theCtx : Option TextContext) (l : OpenGl_Text)
    (theFontSize : Int) (thePoint : Vec3) (hsafe : l.IndexSafe)
    (hne : l.myParams.Height ≠ theFontSize) :
    (∃ l' c', l.SetFontSize theCtx theFontSize = some (l', c') ∧
      l'.myTextures = [] ∧ l'.myVertsVbo = [] ∧ l'.myTCrdsVbo = [] ∧
      l'.myParams.Height = theFontSize) ∧
    (l.SetPosition thePoint).myTextures = l.myTextures ∧
    (l.SetPosition thePoint).myVertsVbo = l.myVertsVbo ∧
    (l.SetPosition thePoint).myTCrdsVbo = l.myTCrdsVbo ∧
    (l.SetPosition thePoint).myFont = l.myFont ∧
    (l.SetPosition thePoint).myParams = l.myParams := by
  refine ⟨?_, rfl, rfl, rfl, rfl, rfl⟩
  simp [OpenGl_Text.SetFontSize, hne, release_eq theCtx l hsafe]

/-- Witness of C15: `sampleLabel`, of height 16, set to height 20. -/
theorem setFontSize_invalidates_batches_witness :
    ∃ l' c', sampleLabel.SetFontSize (some sampleTextContext) 20 = some (l', c') ∧
      l'.myTextures = [] ∧ l'.myVertsVbo = [] ∧ l'.myTCrdsVbo = [] ∧
      l'.myParams.Height = 20 :=
  (setFontSize_invalidates_batches (some sampleTextContext) sampleLabel 20 ⟨0, 0, 0⟩
    (by simp [OpenGl_Text.IndexSafe, sampleLabel]) (by decide)).1

/-- C16: on a label whose vertex-buffer indices are indices of the UV-buffer list, both
`Init` methods taking text parameters return; the font handle is kept when the new height
equals the current one and is null when it differs; the three glyph-batch lists are empty
afterwards; the parameters, the point (with `z = 0` for the 2D method), the text and the
`myIs2d` flag are those passed in; with an unchanged height the context receives the
deferred releases of the buffers and nothing else. -/
theorem init_keeps_font_for_same_height (theCtx : Option TextContext) (l : OpenGl_Text)
    (theText : List Nat) (thePoint : Vec3) (thePoint2d : ℚ × ℚ)
    (theParams : OpenGl_TextParam) (hsafe : l.IndexSafe) :
    (∃ l' c', l.Init_3d theCtx theText thePoint theParams = some (l', c') ∧
      (l.myParams.Height = theParams.Height → l'.myFont = l.myFont ∧
        c' = theCtx.map fun c =>
          { c with calls := c.calls ++ deferredReleaseCalls l.myVertsVbo l.myTCrdsVbo }) ∧
      (l.myParams.Height ≠ theParams.Height → l'.myFont = none) ∧
      l'.myTextures = [] ∧ l'.myVertsVbo = [] ∧ l'.myTCrdsVbo = [] ∧
      l'.myParams = theParams ∧ l'.myPoint = thePoint ∧ l'.myString = theText ∧
      l'.myIs2d = false) ∧
    (∃ l' c', l.Init_2d theCtx theText thePoint2d theParams = some (l', c') ∧
      (l.myParams.Height = theParams.Height → l'.myFont = l.myFont ∧
        c' = theCtx.map fun c =>
          { c with calls := c.calls ++ deferredReleaseCalls l.myVertsVbo l.myTCrdsVbo }) ∧
      (l.myParams.Height ≠ theParams.Height → l'.myFont = none) ∧
      l'.myTextures = [] ∧ l'.myVertsVbo = [] ∧ l'.myTCrdsVbo = [] ∧
      l'.myParams = theParams ∧ l'.myPoint = ⟨thePoint2d.1, thePoint2d.2, 0⟩ ∧
      l'.myString = theText ∧ l'.myIs2d = true) := by
  by_cases hh : l.myParams.Height = theParams.Height
  · constructor
    · simp only [OpenGl_Text.Init_3d, hh, ne_eq, not_true_eq_false, if_false,
        releaseVbos_eq theCtx l hsafe, Option.map_some']
      exact ⟨_, _, rfl, fun _ => ⟨rfl, rfl⟩, fun h => h.elim, rfl, rfl, rfl, rfl, rfl,
        rfl, rfl⟩
    · simp only [OpenGl_Text.Init_2d, hh, ne_eq, not_true_eq_false, if_false,
        releaseVbos_eq theCtx l hsafe, Option.map_some']
      exact ⟨_, _, rfl, fun _ => ⟨rfl, rfl⟩, fun h => h.elim, rfl, rfl, rfl, rfl, rfl,
        rfl, rfl⟩
  · constructor
    · simp only [OpenGl_Text.Init_3d, hh, ne_eq, not_false_eq_true, if_true,
        release_eq theCtx l hsafe, Option.map_some']
      exact ⟨_, _, rfl, fun h => h.elim, fun _ => rfl, rfl, rfl, rfl, rfl, rfl,
        rfl, rfl⟩
    · simp only [OpenGl_Text.Init_2d, hh, ne_eq, not_false_eq_true, if_true,
        release_eq theCtx l hsafe, Option.map_some']
      exact ⟨_, _, rfl, fun h => h.elim, fun _ => rfl, rfl, rfl, rfl, rfl, rfl,
        rfl, rfl⟩

/-- Witness of C16: `sampleLabel` initialised again with its own height 16, in 3D. -/
theorem init_keeps_font_for_same_height_witness :
    ∃ l' c', sampleLabel.Init_3d (some sampleTextContext) [66] ⟨1, 2, 3⟩ ⟨16, 1, 1⟩
        = some (l', c') ∧
      l'.myFont = some fixedFont ∧ l'.myTextures = [] ∧ l'.myParams = ⟨16, 1, 1⟩ :=
  have ⟨l', c', h, hsame, _, ht, _, _, hp, _⟩ :=
    (init_keeps_font_for_same_height (some sampleTextContext) sampleLabel [66] ⟨1, 2, 3⟩
      (0, 0) ⟨16, 1, 1⟩ (by simp [OpenGl_Text.IndexSafe, sampleLabel])).1
  ⟨l', c', h, (hsame rfl).1, ht, hp⟩

/-- C17, refuted as stated: releasing `sampleLabel`, which holds one glyph batch with
texture 7, the context receives the deferred release of the vertex buffer and of the UV
buffer and the release of the font key; the texture is not handed to it. -/
theorem release_does_not_defer_textures :
    (sampleLabel.Release (some sampleTextContext)).map (fun r => r.2.map (fun c => c.calls))
      = some (some [.DelayedRelease (.VertexBuffer ⟨1, 6⟩),
                    .DelayedRelease (.VertexBuffer ⟨2, 6⟩),
                    .ReleaseResource "Courier:1:16" true]) ∧
    sampleLabel.myTextures = [7] ∧
    ContextCall.DelayedRelease (.Texture 7) ∉
      [ContextCall.DelayedRelease (.VertexBuffer ⟨1, 6⟩),
       .DelayedRelease (.VertexBuffer ⟨2, 6⟩),
       .ReleaseResource "Courier:1:16" true] := by
  refine ⟨?_, rfl, by decide⟩
  rw [release_eq _ _ (by simp [OpenGl_Text.IndexSafe, sampleLabel])]
  simp [sampleLabel, sampleTextContext, deferredReleaseCalls, fixedFont]

/-- C17, amended: on a label with as many vertex buffers as UV buffers and a non-null
context, `Release` returns; the context has received, after the calls it had before, the
deferred release of each vertex buffer and UV buffer, index by index, and then, if the
label held a font, one release of the key of that font; no texture is handed to the
deferred release, the texture identifiers are only dropped from the list; the three lists
are empty and the font handle is null afterwards; the registry, the GL state and the draw
calls of the context are untouched. -/
theorem release_defers_buffers_then_font (c : TextContext) (l : OpenGl_Text)
    (hlen : l.myVertsVbo.length = l.myTCrdsVbo.length) :
    ∃ l' c', l.Release (some c) = some (l', some c') ∧
      l'.myTextures = [] ∧ l'.myVertsVbo = [] ∧ l'.myTCrdsVbo = [] ∧ l'.myFont = none ∧
      c'.calls = c.calls ++ deferredReleaseCalls l.myVertsVbo l.myTCrdsVbo ++
        (match l.myFont with
         | none => []
         | some aFont => [.ReleaseResource aFont.ResourceKey true]) ∧
      (∀ v ∈ l.myVertsVbo, ContextCall.DelayedRelease (.VertexBuffer v)
        ∈ deferredReleaseCalls l.myVertsVbo l.myTCrdsVbo) ∧
      (∀ t ∈ l.myTCrdsVbo, ContextCall.DelayedRelease (.VertexBuffer t)
        ∈ deferredReleaseCalls l.myVertsVbo l.myTCrdsVbo) ∧
      (∀ t, ContextCall.DelayedRelease (.Texture t)
        ∉ deferredReleaseCalls l.myVertsVbo l.myTCrdsVbo) ∧
      c'.sharedResources = c.sharedResources ∧ c'.gpu = c.gpu ∧
      c'.drawCalls = c.drawCalls := by
  rw [release_eq (some c) l (le_of_eq hlen)]
  refine ⟨_, _, rfl, rfl, rfl, rfl, rfl, rfl, ?_, ?_,
    fun t => deferredReleaseCalls_no_texture _ _ t, rfl, rfl, rfl⟩
  · intro v hv
    obtain ⟨i, hi, rfl⟩ := List.mem_iff_getElem.1 hv
    have hi' : i < l.myTCrdsVbo.length := hlen ▸ hi
    simp only [deferredReleaseCalls, List.mem_flatMap]
    refine ⟨(l.myVertsVbo[i], l.myTCrdsVbo[i]), ?_, by simp⟩
    rw [List.mem_iff_getElem]
    exact ⟨i, by simp [hi, hi'], by simp⟩
  · intro t ht
    obtain ⟨i, hi, rfl⟩ := List.mem_iff_getElem.1 ht
    have hi' : i < l.myVertsVbo.length := hlen ▸ hi
    simp only [deferredReleaseCalls, List.mem_flatMap]
    refine ⟨(l.myVertsVbo[i], l.myTCrdsVbo[i]), ?_, by simp⟩
    rw [List.mem_iff_getElem]
    exact ⟨i, by simp [hi, hi'], by simp⟩

/-- Witness of amended C17 on `sampleLabel` and `sampleTextContext`. -/
theorem release_defers_buffers_then_font_witness :
    ∃ l' c', sampleLabel.Release (some sampleTextContext) = some (l', some c') ∧
      l'.myTextures = [] ∧ l'.myFont = none ∧ c'.gpu = sampleTextContext.gpu :=
  have ⟨l', c', h, ht, _, _, hf, _, _, _, _, _, hg, _⟩ :=
    release_defers_buffers_then_font sampleTextContext sampleLabel rfl
  ⟨l', c', h, ht, hf, hg⟩

/-! ## Rendering: auxiliary facts -/

theorem setupMatrix_eq (env : TextEnv) (l : OpenGl_Text) (a : OpenGl_AspectText) (dv : Vec3)
    (m : OpenGl_Context) :
    l.setupMatrix env a dv m
      = onCurrentStack (fun s => s.load (l.setupMatrix_result env a dv)) m := by
  unfold OpenGl_Text.setupMatrix OpenGl_Text.setupMatrix_result
  cases hm : m.matrixMode <;> cases h2 : l.myIs2d <;> cases hz : a.IsZoomable <;>
    simp [glLoadIdentity, glTranslated, glScaled, glMultMatrixd, onCurrentStack,
      MatrixStack.load, hm]

theorem glBindTexture_glBindTexture (g : GlState) (t t' : Nat) :
    (g.glBindTexture t).glBindTexture t' = g.glBindTexture t' := by
  simp only [GlState.glBindTexture]
  congr 1
  funext u
  by_cases h : u = g.activeTexture <;> simp [h]

theorem drawText_loop_eq (ts : List Nat) :
    ∀ (vs us : List OpenGl_VertexBuffer) (c : TextContext),
      ts.length ≤ vs.length → ts.length ≤ us.length →
      (drawText_loop ts vs us c).map (fun c => c.gl (GlState.glBindTexture 0))
        = some { c with gpu := c.gpu.glBindTexture 0
                        drawCalls := c.drawCalls ++ batchDrawCalls ts vs us } := by
  induction ts with
  | nil => intro vs us c _ _; simp [drawText_loop, batchDrawCalls, TextContext.gl]
  | cons t ts ih =>
    intro vs us c hv hu
    cases vs with
    | nil => simp at hv
    | cons v vs =>
      cases us with
      | nil => simp at hu
      | cons u us =>
        rw [drawText_loop, ih vs us _ (by simpa using hv) (by simpa using hu)]
        simp [TextContext.gl, TextContext.draw, batchDrawCalls, glBindTexture_glBindTexture]

theorem drawText_eq (l : OpenGl_Text) (a : OpenGl_AspectText) (c : TextContext)
    (hsafe : l.IndexSafe) :
    l.drawText a c = some
      (if c.IsFeedback then
        c.draw (.exportText l.myString l.myIs2d a.FontName (truncToInteger l.myExportHeight)
          a.Angle)
      else if l.myVertsVbo.length ≠ l.myTextures.length ∨ l.myTextures.isEmpty then c
      else { c with gpu := c.gpu.glBindTexture 0
                    drawCalls := c.drawCalls ++
                      batchDrawCalls l.myTextures l.myVertsVbo l.myTCrdsVbo }) := by
  unfold OpenGl_Text.drawText
  by_cases hf : c.IsFeedback = true
  · simp [hf]
  · by_cases hg : l.myVertsVbo.length ≠ l.myTextures.length ∨ l.myTextures.isEmpty = true
    · simp only [hf, hg, if_true, if_false, Bool.false_eq_true]
    · simp only [hf, hg, if_false, Bool.false_eq_true]
      have hlen : l.myVertsVbo.length = l.myTextures.length := by
        by_contra h; exact hg (Or.inl h)
      have hf' : c.IsFeedback = false := by simpa using hf
      rw [drawText_loop_eq l.myTextures l.myVertsVbo l.myTCrdsVbo c (le_of_eq hlen.symm)
        (by rw [← hlen]; exact hsafe)]
      simp [hf']

theorem glPopAttrib_glPushAttrib_TEXTURE_BIT (g : GlState) :
    g.glPushAttrib_TEXTURE_BIT.glPopAttrib = g := by
  simp only [GlState.glPushAttrib_TEXTURE_BIT, GlState.glPopAttrib]
  have : (fun (c : Capability) (u : Nat) => if c.isTexture = true then g.enabled c u
      else g.enabled c u) = g.enabled := by
    funext c u; simp
  simp [this]

theorem sameDevice_refl (c : TextContext) : SameDevice c c := ⟨rfl, rfl, rfl, rfl, rfl⟩

theorem sameDevice_trans {c c' c'' : TextContext} (h : SameDevice c c')
    (h' : SameDevice c' c'') : SameDevice c c'' :=
  ⟨h'.gpu.trans h.gpu, h'.drawCalls.trans h.drawCalls,
    h'.TextureSampler.trans h.TextureSampler, h'.IsFeedback.trans h.IsFeedback,
    h'.core15fwd.trans h.core15fwd⟩

theorem findFont_frame (env : TextEnv) (c : TextContext) (a : OpenGl_AspectText) (h : Int)
    (k : String) :
    (FindFont env c a h k).2.gpu = c.gpu ∧
    (FindFont env c a h k).2.drawCalls = c.drawCalls ∧
    (FindFont env c a h k).2.calls = c.calls ∧
    (FindFont env c a h k).2.TextureSampler = c.TextureSampler ∧
    (FindFont env c a h k).2.IsFeedback = c.IsFeedback ∧
    (FindFont env c a h k).2.core15fwd = c.core15fwd := by
  by_cases hh : h < 2
  · simp [FindFont, hh]
  · simp only [FindFont, hh, if_false]
    split
    · simp
    · split
      · simp
      · split
        · simp
        · simp [TextContext.gl, TextContext.ShareResource,
            glPopAttrib_glPushAttrib_TEXTURE_BIT]

theorem findFont_fst_congr (env : TextEnv) (c c' : TextContext) (a : OpenGl_AspectText)
    (h : Int) (k : String) (hr : c'.sharedResources = c.sharedResources) :
    (FindFont env c' a h k).1 = (FindFont env c a h k).1 := by
  by_cases hh : h < 2
  · simp [FindFont, hh]
  · simp only [FindFont, hh, if_false, TextContext.GetResource, hr]
    split
    · rfl
    · split
      · rfl
      · split <;> rfl

theorem render_releaseChanged_spec (l : OpenGl_Text) (c : TextContext) (k : String)
    (hsafe : l.IndexSafe) :
    ∃ lr cr, l.render_releaseChanged c k = some (lr, cr) ∧ SameDevice c cr ∧
      cr.sharedResources = c.sharedResources ∧
      lr.IndexSafe ∧ lr.myParams = l.myParams ∧
      ((∀ f, l.myFont = some f → f.ResourceKey ≠ k) → lr.myFont = none) := by
  unfold OpenGl_Text.render_releaseChanged
  cases hf : l.myFont with
  | none =>
    exact ⟨l, c, rfl, sameDevice_refl c, rfl, hsafe, rfl, fun _ => hf⟩
  | some f =>
    by_cases hk : f.ResourceKey = k
    · refine ⟨l, c, by simp [hk], sameDevice_refl c, rfl, hsafe, rfl, fun h => ?_⟩
      exact absurd hk (h f rfl)
    · simp only [ne_eq, hk, not_false_eq_true, if_true, release_eq (some c) l hsafe,
        Option.map_some', Option.getD_some]
      exact ⟨_, _, rfl, ⟨rfl, rfl, rfl, rfl, rfl⟩, rfl,
        by simp [OpenGl_Text.IndexSafe], rfl, fun _ => rfl⟩

theorem render_findFont_spec (env : TextEnv) (l : OpenGl_Text) (c : TextContext)
    (a : OpenGl_AspectText) (k : String) :
    SameDevice c (l.render_findFont env c a k).2 ∧
    (l.render_findFont env c a k).1.myTextures = l.myTextures ∧
    (l.render_findFont env c a k).1.myVertsVbo = l.myVertsVbo ∧
    (l.render_findFont env c a k).1.myTCrdsVbo = l.myTCrdsVbo ∧
    (l.myFont = none → (l.render_findFont env c a k).1.myFont
      = (FindFont env c a l.myParams.Height k).1) := by
  unfold OpenGl_Text.render_findFont
  cases hf : l.myFont with
  | some f => exact ⟨sameDevice_refl c, rfl, rfl, rfl, fun h => by cases h⟩
  | none =>
    obtain ⟨f1, f2, -, f4, f5, f6⟩ := findFont_frame env c a l.myParams.Height k
    exact ⟨⟨f1, f2, f4, f5, f6⟩, rfl, rfl, rfl, fun _ => rfl⟩

theorem render_format_spec (env : TextEnv) (l : OpenGl_Text) (f : OpenGl_Font)
    (hsafe : l.IndexSafe) (hfmt : env.FormatterIndexSafe) :
    (l.render_format env f).IndexSafe ∧ (l.render_format env f).myFont = l.myFont := by
  unfold OpenGl_Text.render_format
  split_ifs
  · exact ⟨hfmt l f, rfl⟩
  · exact ⟨hsafe, rfl⟩

theorem render_resolve_spec (env : TextEnv) (l : OpenGl_Text) (c : TextContext)
    (a : OpenGl_AspectText) (hsafe : l.IndexSafe) (hfmt : env.FormatterIndexSafe) :
    ∃ l1 c1, l.render_resolve env c a = some (l1, c1) ∧ SameDevice c c1 ∧ l1.IndexSafe ∧
      ((∀ f, l.myFont = some f → f.ResourceKey ≠ FontKey env a l.myParams.Height) →
        (FindFont env c a l.myParams.Height (FontKey env a l.myParams.Height)).1 = none →
        l1.myFont = none) := by
  obtain ⟨lr, cr, hr, hdev, hres, hsr, hpar, hnone⟩ :=
    render_releaseChanged_spec l c (FontKey env a l.myParams.Height) hsafe
  obtain ⟨g1, -, g3, g4, g5⟩ :=
    render_findFont_spec env lr cr a (FontKey env a l.myParams.Height)
  have hsafe' : (lr.render_findFont env cr a (FontKey env a l.myParams.Height)).1.IndexSafe := by
    unfold OpenGl_Text.IndexSafe; rw [g3, g4]; exact hsr
  simp only [OpenGl_Text.render_resolve, hr, Option.map_some']
  cases hfound : (lr.render_findFont env cr a (FontKey env a l.myParams.Height)).1.myFont with
  | none =>
    refine ⟨_, _, rfl, sameDevice_trans hdev g1, hsafe', fun _ _ => hfound⟩
  | some f =>
    obtain ⟨q1, q2⟩ := render_format_spec env _ f hsafe' hfmt
    refine ⟨_, _, rfl, sameDevice_trans hdev g1, q1, fun hstale hff => ?_⟩
    have e1 := g5 (hnone hstale)
    rw [hpar, findFont_fst_congr env c cr a _ _ hres, hff] at e1
    rw [hfound] at e1
    cases e1

theorem drawFrame_refl (c : TextContext) : DrawFrame c c :=
  ⟨rfl, rfl, rfl, rfl, rfl, rfl, rfl, rfl, rfl, rfl, rfl, rfl, rfl, rfl⟩

theorem drawFrame_trans {c c' c'' : TextContext} (h : DrawFrame c c')
    (h' : DrawFrame c' c'') : DrawFrame c c'' :=
  ⟨h'.attribStack.trans h.attribStack, h'.matrixMode.trans h.matrixMode,
    h'.below.trans h.below, h'.activeTexture.trans h.activeTexture,
    h'.texEnvMode.trans h.texEnvMode, h'.alphaFunc.trans h.alphaFunc,
    h'.blendFunc.trans h.blendFunc, h'.logicOp.trans h.logicOp,
    h'.colorMask.trans h.colorMask, h'.stencilFunc.trans h.stencilFunc,
    h'.stencilOp.trans h.stencilOp, h'.TextureSampler.trans h.TextureSampler,
    h'.IsFeedback.trans h.IsFeedback, h'.core15fwd.trans h.core15fwd⟩

theorem drawFrame_glColor3fv (c : TextContext) (v : Vec3) :
    DrawFrame c (c.gl (GlState.glColor3fv v)) :=
  ⟨rfl, rfl, rfl, rfl, rfl, rfl, rfl, rfl, rfl, rfl, rfl, rfl, rfl, rfl⟩

theorem drawFrame_glBindTexture (c : TextContext) (t : Nat) :
    DrawFrame c (c.gl (GlState.glBindTexture t)) :=
  ⟨rfl, rfl, rfl, rfl, rfl, rfl, rfl, rfl, rfl, rfl, rfl, rfl, rfl, rfl⟩

theorem drawFrame_draw (c : TextContext) (d : DrawCall) : DrawFrame c (c.draw d) :=
  ⟨rfl, rfl, rfl, rfl, rfl, rfl, rfl, rfl, rfl, rfl, rfl, rfl, rfl, rfl⟩

theorem drawFrame_setupMatrix (env : TextEnv) (l : OpenGl_Text) (a : OpenGl_AspectText)
    (dv : Vec3) (c : TextContext) (hm : c.gpu.matrices.matrixMode = .GL_MODELVIEW) :
    DrawFrame c (c.gl (GlState.onMatrices (l.setupMatrix env a dv))) := by
  constructor <;>
    simp [TextContext.gl, GlState.onMatrices, setupMatrix_eq, onCurrentStack, hm,
      MatrixStack.load]

theorem drawText_spec (l : OpenGl_Text) (a : OpenGl_AspectText) (c : TextContext)
    (hsafe : l.IndexSafe) :
    ∃ c', l.drawText a c = some c' ∧ DrawFrame c c' ∧
      (c.IsFeedback = false → l.myVertsVbo.length = l.myTextures.length →
        l.myTextures ≠ [] → c'.gpu.boundTexture2D c'.gpu.activeTexture = 0) := by
  rw [drawText_eq l a c hsafe]
  refine ⟨_, rfl, ?_, ?_⟩
  · split_ifs
    · exact drawFrame_draw c _
    · exact drawFrame_refl c
    · exact ⟨rfl, rfl, rfl, rfl, rfl, rfl, rfl, rfl, rfl, rfl, rfl, rfl, rfl, rfl⟩
  · intro hf hlen hne
    have hne' : l.myTextures.isEmpty = false := by
      cases h : l.myTextures with
      | nil => exact absurd h hne
      | cons _ _ => rfl
    simp [hf, hlen, hne', GlState.glBindTexture]

theorem render_extra_spec (env : TextEnv) (l : OpenGl_Text) (a : OpenGl_AspectText)
    (cs : Vec3) (c : TextContext) (hsafe : l.IndexSafe)
    (hm : c.gpu.matrices.matrixMode = .GL_MODELVIEW) :
    ∃ c', l.render_extra env a cs c = some c' ∧
      DrawFrame (if a.DisplayType = .Aspect_TODT_BLEND then c.gl (GlState.glLogicOp GL_XOR)
        else c) c' := by
  unfold OpenGl_Text.render_extra
  cases hd : a.DisplayType with
  | Aspect_TODT_NORMAL => exact ⟨c, rfl, by simpa using drawFrame_refl c⟩
  | Aspect_TODT_DIMENSION => exact ⟨c, rfl, by simpa using drawFrame_refl c⟩
  | Aspect_TODT_BLEND =>
    refine ⟨_, rfl, ?_⟩
    simp only [if_true]
    exact ⟨rfl, rfl, rfl, rfl, rfl, rfl, rfl, rfl, rfl, rfl, rfl, rfl, rfl, rfl⟩
  | Aspect_TODT_SUBTITLE =>
    refine ⟨_, rfl, ?_⟩
    simp only [if_false, reduceCtorEq]
    have h1 := drawFrame_glColor3fv c cs
    have h2 := drawFrame_setupMatrix env l a ⟨0, 0, 0.00001⟩ (c.gl (GlState.glColor3fv cs))
      (h1.matrixMode.trans hm)
    exact drawFrame_trans (drawFrame_trans (drawFrame_trans h1 h2)
      (drawFrame_glBindTexture _ 0)) (drawFrame_draw _ _)
  | Aspect_TODT_DEKALE =>
    simp only [if_false, reduceCtorEq]
    have h1 := drawFrame_glColor3fv c cs
    have s1 := drawFrame_setupMatrix env l a ⟨1, 1, 0.00001⟩ (c.gl (GlState.glColor3fv cs))
      (h1.matrixMode.trans hm)
    obtain ⟨c1, e1, d1, -⟩ := drawText_spec l a _ hsafe
    have f1 := drawFrame_trans (drawFrame_trans h1 s1) d1
    have s2 := drawFrame_setupMatrix env l a ⟨-1, -1, 0.00001⟩ c1 (f1.matrixMode.trans hm)
    obtain ⟨c2, e2, d2, -⟩ := drawText_spec l a _ hsafe
    have f2 := drawFrame_trans (drawFrame_trans f1 s2) d2
    have s3 := drawFrame_setupMatrix env l a ⟨-1, 1, 0.00001⟩ c2 (f2.matrixMode.trans hm)
    obtain ⟨c3, e3, d3, -⟩ := drawText_spec l a _ hsafe
    have f3 := drawFrame_trans (drawFrame_trans f2 s3) d3
    have s4 := drawFrame_setupMatrix env l a ⟨1, -1, 0.00001⟩ c3 (f3.matrixMode.trans hm)
    obtain ⟨c4, e4, d4, -⟩ := drawText_spec l a _ hsafe
    have f4 := drawFrame_trans (drawFrame_trans f3 s4) d4
    refine ⟨c4, ?_, f4⟩
    simp only [e1, Option.some_bind, e2, e3, e4]

theorem setEnabled_matrices (g : GlState) (cap : Capability) (v : Bool) :
    (g.setEnabled cap v).matrices = g.matrices := rfl

theorem setEnabled_attribStack (g : GlState) (cap : Capability) (v : Bool) :
    (g.setEnabled cap v).attribStack = g.attribStack := rfl

theorem setEnabled_activeTexture (g : GlState) (cap : Capability) (v : Bool) :
    (g.setEnabled cap v).activeTexture = g.activeTexture := rfl

theorem setEnabled_texEnvMode (g : GlState) (cap : Capability) (v : Bool) :
    (g.setEnabled cap v).texEnvMode = g.texEnvMode := rfl

theorem setEnabled_boundTexture2D (g : GlState) (cap : Capability) (v : Bool) :
    (g.setEnabled cap v).boundTexture2D = g.boundTexture2D := rfl

theorem setEnabled_alphaFunc (g : GlState) (cap : Capability) (v : Bool) :
    (g.setEnabled cap v).alphaFunc = g.alphaFunc := rfl

theorem setEnabled_blendFunc (g : GlState) (cap : Capability) (v : Bool) :
    (g.setEnabled cap v).blendFunc = g.blendFunc := rfl

theorem setEnabled_logicOp (g : GlState) (cap : Capability) (v : Bool) :
    (g.setEnabled cap v).logicOp = g.logicOp := rfl

theorem setEnabled_colorMask (g : GlState) (cap : Capability) (v : Bool) :
    (g.setEnabled cap v).colorMask = g.colorMask := rfl

theorem setEnabled_stencilFunc (g : GlState) (cap : Capability) (v : Bool) :
    (g.setEnabled cap v).stencilFunc = g.stencilFunc := rfl

theorem setEnabled_stencilOp (g : GlState) (cap : Capability) (v : Bool) :
    (g.setEnabled cap v).stencilOp = g.stencilOp := rfl

theorem setEnabled_currentColor (g : GlState) (cap : Capability) (v : Bool) :
    (g.setEnabled cap v).currentColor = g.currentColor := rfl

theorem render_setupState_spec (l : OpenGl_Text) (a : OpenGl_AspectText) (c : TextContext) :
    (l.render_setupState a c).1 = c.gpu.texEnvMode c.gpu.activeTexture ∧
    (l.render_setupState a c).2.gpu.attribStack
      = .GL_ENABLE_BIT c.gpu.enabled :: c.gpu.attribStack ∧
    (l.render_setupState a c).2.gpu.matrices = c.gpu.matrices ∧
    (l.render_setupState a c).2.gpu.activeTexture
      = (if c.core15fwd then 0 else c.gpu.activeTexture) ∧
    (l.render_setupState a c).2.gpu.texEnvMode
      = (fun u => if u = c.gpu.activeTexture then GL_REPLACE else c.gpu.texEnvMode u) ∧
    (l.render_setupState a c).2.gpu.alphaFunc = (GL_GEQUAL, 0.285) ∧
    (l.render_setupState a c).2.gpu.blendFunc = (GL_SRC_ALPHA, GL_ONE_MINUS_SRC_ALPHA) ∧
    (l.render_setupState a c).2.gpu.logicOp = c.gpu.logicOp ∧
    (l.render_setupState a c).2.gpu.colorMask = c.gpu.colorMask ∧
    (l.render_setupState a c).2.gpu.stencilFunc = c.gpu.stencilFunc ∧
    (l.render_setupState a c).2.gpu.stencilOp = c.gpu.stencilOp ∧
    (l.render_setupState a c).2.TextureSampler = c.TextureSampler ∧
    (l.render_setupState a c).2.IsFeedback = c.IsFeedback ∧
    (l.render_setupState a c).2.core15fwd = c.core15fwd := by
  have htex : c.gpu.texEnvMode c.gpu.activeTexture = GL_REPLACE →
      c.gpu.texEnvMode
        = (fun u => if u = c.gpu.activeTexture then GL_REPLACE else c.gpu.texEnvMode u) := by
    intro h
    funext u
    by_cases hu : u = c.gpu.activeTexture
    · simp [hu, h]
    · simp [hu]
  unfold OpenGl_Text.render_setupState
  by_cases h1 : ((!l.myIs2d) = true ∧ a.StyleType ≠ .Aspect_TOST_ANNOTATION) <;>
  by_cases h2 : c.gpu.texEnvMode c.gpu.activeTexture = GL_REPLACE <;>
  cases h3 : c.core15fwd <;>
  by_cases h4 : c.TextureSampler = some true <;>
  simp only [h1, h2, h3, h4, TextContext.gl, TextContext.call,
    GlState.glPushAttrib_ENABLE_BIT, GlState.glEnable, GlState.glDisable, GlState.glTexEnvi,
    GlState.glGetTexEnviv, GlState.glAlphaFunc, GlState.glBlendFunc, GlState.glActiveTexture,
    setEnabled_matrices, setEnabled_attribStack, setEnabled_activeTexture, setEnabled_texEnvMode, setEnabled_boundTexture2D, setEnabled_alphaFunc, setEnabled_blendFunc, setEnabled_logicOp, setEnabled_colorMask, setEnabled_stencilFunc, setEnabled_stencilOp, setEnabled_currentColor, if_true, if_false, ne_eq, not_true_eq_false, not_false_eq_true,
    Bool.false_eq_true, and_self, and_true, true_and] <;>
  exact htex h2

theorem render_dimension_spec (env : TextEnv) (l : OpenGl_Text) (a : OpenGl_AspectText)
    (c : TextContext) (hm : c.gpu.matrices.matrixMode = .GL_MODELVIEW) :
    (l.render_dimension env a c).gpu.attribStack = c.gpu.attribStack ∧
    (l.render_dimension env a c).gpu.matrices.matrixMode = c.gpu.matrices.matrixMode ∧
    (l.render_dimension env a c).gpu.matrices.modelView.below
      = c.gpu.matrices.modelView.below ∧
    (l.render_dimension env a c).gpu.activeTexture = c.gpu.activeTexture ∧
    (l.render_dimension env a c).gpu.texEnvMode = c.gpu.texEnvMode ∧
    (l.render_dimension env a c).gpu.boundTexture2D = c.gpu.boundTexture2D ∧
    (l.render_dimension env a c).gpu.alphaFunc = c.gpu.alphaFunc ∧
    (l.render_dimension env a c).gpu.blendFunc = c.gpu.blendFunc ∧
    (l.render_dimension env a c).gpu.logicOp = c.gpu.logicOp ∧
    (l.render_dimension env a c).gpu.colorMask
      = (if a.DisplayType = .Aspect_TODT_DIMENSION then (true, true, true, true)
         else c.gpu.colorMask) ∧
    (l.render_dimension env a c).gpu.stencilFunc
      = (if a.DisplayType = .Aspect_TODT_DIMENSION then (GL_ALWAYS, 0, 0xFF)
         else c.gpu.stencilFunc) ∧
    (l.render_dimension env a c).gpu.stencilOp
      = (if a.DisplayType = .Aspect_TODT_DIMENSION then (GL_KEEP, GL_KEEP, GL_REPLACE)
         else c.gpu.stencilOp) ∧
    (l.render_dimension env a c).TextureSampler = c.TextureSampler := by
  unfold OpenGl_Text.render_dimension
  by_cases hd : a.DisplayType = .Aspect_TODT_DIMENSION
  · cases h2 : l.myIs2d <;>
    simp only [hd, h2, TextContext.gl, TextContext.draw, OpenGl_Text.drawBndBox,
      GlState.onMatrices, setupMatrix_eq, onCurrentStack, hm, MatrixStack.load,
      GlState.glEnable, GlState.glDisable, GlState.glColorMask, GlState.glStencilFunc,
      GlState.glStencilOp, setEnabled_matrices, setEnabled_attribStack, setEnabled_activeTexture, setEnabled_texEnvMode, setEnabled_boundTexture2D, setEnabled_alphaFunc, setEnabled_blendFunc, setEnabled_logicOp, setEnabled_colorMask, setEnabled_stencilFunc, setEnabled_stencilOp, setEnabled_currentColor, if_true, if_false, Bool.not_true, Bool.not_false,
      Bool.false_eq_true, and_self]
  · simp only [hd, if_false, and_self]

theorem render_finish_spec (env : TextEnv) (l : OpenGl_Text) (a : OpenGl_AspectText)
    (p : GLenum) (c : TextContext) (e : Capability → Nat → Bool) (s : List AttribFrame)
    (t : Mat4) (b : List Mat4)
    (hA : c.gpu.attribStack = .GL_ENABLE_BIT e :: s)
    (hm : c.gpu.matrices.matrixMode = .GL_MODELVIEW)
    (hb : c.gpu.matrices.modelView.below = t :: b) :
    (l.render_finish env a p c).gpu.attribStack = s ∧
    (l.render_finish env a p c).gpu.enabled = e ∧
    (l.render_finish env a p c).gpu.matrices.modelView = ⟨t, b⟩ ∧
    (l.render_finish env a p c).gpu.matrices.matrixMode = .GL_MODELVIEW ∧
    (l.render_finish env a p c).gpu.activeTexture = c.gpu.activeTexture ∧
    (l.render_finish env a p c).gpu.texEnvMode
      = (fun u => if u = c.gpu.activeTexture then p else c.gpu.texEnvMode u) ∧
    (l.render_finish env a p c).gpu.boundTexture2D = c.gpu.boundTexture2D ∧
    (l.render_finish env a p c).gpu.alphaFunc = c.gpu.alphaFunc ∧
    (l.render_finish env a p c).gpu.blendFunc = c.gpu.blendFunc ∧
    (l.render_finish env a p c).gpu.logicOp = c.gpu.logicOp ∧
    (l.render_finish env a p c).gpu.colorMask
      = (if a.DisplayType = .Aspect_TODT_DIMENSION then (true, true, true, true)
         else c.gpu.colorMask) ∧
    (l.render_finish env a p c).gpu.stencilFunc
      = (if a.DisplayType = .Aspect_TODT_DIMENSION then (GL_ALWAYS, 0, 0xFF)
         else c.gpu.stencilFunc) ∧
    (l.render_finish env a p c).gpu.stencilOp
      = (if a.DisplayType = .Aspect_TODT_DIMENSION then (GL_KEEP, GL_KEEP, GL_REPLACE)
         else c.gpu.stencilOp) := by
  obtain ⟨d1, d2, d3, d4, d5, d6, d7, d8, d9, d10, d11, d12, d13⟩ :=
    render_dimension_spec env l a (c.gl (GlState.glTexEnvi p)) hm
  have hA' : (l.render_dimension env a (c.gl (GlState.glTexEnvi p))).gpu.attribStack
      = .GL_ENABLE_BIT e :: s := d1.trans hA
  have hm' : (l.render_dimension env a (c.gl (GlState.glTexEnvi p))).gpu.matrices.matrixMode
      = .GL_MODELVIEW := d2.trans hm
  have hb' : (l.render_dimension env a (c.gl (GlState.glTexEnvi p))).gpu.matrices.modelView.below
      = t :: b := d3.trans hb
  have hfin : ∀ c3 : TextContext,
      (if c3.TextureSampler = some true then c3.call .SamplerBind else c3).gpu = c3.gpu := by
    intro c3; split_ifs <;> rfl
  simp only [OpenGl_Text.render_finish, hfin]
  generalize l.render_dimension env a (c.gl (GlState.glTexEnvi p)) = c2 at *
  have hpop : (c2.gl GlState.glPopAttrib).gpu
      = { c2.gpu with enabled := e, attribStack := s } := by
    simp only [TextContext.gl, GlState.glPopAttrib, hA']
  have hpm : (glPopMatrix c2.gpu.matrices).modelView = ⟨t, b⟩ ∧
      (glPopMatrix c2.gpu.matrices).matrixMode = .GL_MODELVIEW := by
    simp only [glPopMatrix, onCurrentStack, hm', MatrixStack.pop, hb', and_self]
  have key : (((c2.gl GlState.glPopAttrib).gl (GlState.onMatrices glPopMatrix))).gpu
      = { c2.gpu with enabled := e, attribStack := s,
                      matrices := glPopMatrix c2.gpu.matrices } := by
    simp only [TextContext.gl, GlState.onMatrices] at hpop ⊢
    rw [hpop]
  rw [key]
  simp only [TextContext.gl, GlState.glTexEnvi] at d4 d5 d6 d7 d8 d9 d10 d11 d12
  refine ⟨rfl, rfl, hpm.1, hpm.2, d4, d5, d6, d7, d8, d9, d10, d11, d12⟩

theorem render_measure_frame (env : TextEnv) (l : OpenGl_Text) (f : OpenGl_Font)
    (a : OpenGl_AspectText) (c : TextContext) :
    (l.render_measure env f a c).myFont = l.myFont ∧
    (l.render_measure env f a c).myTextures = l.myTextures ∧
    (l.render_measure env f a c).myVertsVbo = l.myVertsVbo ∧
    (l.render_measure env f a c).myTCrdsVbo = l.myTCrdsVbo := by
  unfold OpenGl_Text.render_measure
  cases l.myIs2d <;> cases a.IsZoomable <;> simp

theorem render_pushed_frame (c : TextContext) :
    ((c.gl (GlState.onMatrices (glMatrixMode .GL_MODELVIEW))).gl
      (GlState.onMatrices glPushMatrix)).gpu.matrices.matrixMode = .GL_MODELVIEW ∧
    ((c.gl (GlState.onMatrices (glMatrixMode .GL_MODELVIEW))).gl
      (GlState.onMatrices glPushMatrix)).gpu.matrices.modelView.below
      = c.gpu.matrices.modelView.top :: c.gpu.matrices.modelView.below ∧
    ((c.gl (GlState.onMatrices (glMatrixMode .GL_MODELVIEW))).gl
      (GlState.onMatrices glPushMatrix)).gpu.enabled = c.gpu.enabled ∧
    ((c.gl (GlState.onMatrices (glMatrixMode .GL_MODELVIEW))).gl
      (GlState.onMatrices glPushMatrix)).gpu.attribStack = c.gpu.attribStack ∧
    ((c.gl (GlState.onMatrices (glMatrixMode .GL_MODELVIEW))).gl
      (GlState.onMatrices glPushMatrix)).gpu.activeTexture = c.gpu.activeTexture ∧
    ((c.gl (GlState.onMatrices (glMatrixMode .GL_MODELVIEW))).gl
      (GlState.onMatrices glPushMatrix)).gpu.texEnvMode = c.gpu.texEnvMode ∧
    ((c.gl (GlState.onMatrices (glMatrixMode .GL_MODELVIEW))).gl
      (GlState.onMatrices glPushMatrix)).gpu.logicOp = c.gpu.logicOp ∧
    ((c.gl (GlState.onMatrices (glMatrixMode .GL_MODELVIEW))).gl
      (GlState.onMatrices glPushMatrix)).gpu.colorMask = c.gpu.colorMask ∧
    ((c.gl (GlState.onMatrices (glMatrixMode .GL_MODELVIEW))).gl
      (GlState.onMatrices glPushMatrix)).gpu.stencilFunc = c.gpu.stencilFunc ∧
    ((c.gl (GlState.onMatrices (glMatrixMode .GL_MODELVIEW))).gl
      (GlState.onMatrices glPushMatrix)).gpu.stencilOp = c.gpu.stencilOp ∧
    ((c.gl (GlState.onMatrices (glMatrixMode .GL_MODELVIEW))).gl
      (GlState.onMatrices glPushMatrix)).core15fwd = c.core15fwd ∧
    ((c.gl (GlState.onMatrices (glMatrixMode .GL_MODELVIEW))).gl
      (GlState.onMatrices glPushMatrix)).IsFeedback = c.IsFeedback := by
  simp [TextContext.gl, GlState.onMatrices, glMatrixMode, glPushMatrix, onCurrentStack,
    MatrixStack.push]

theorem render_draw_spec (env : TextEnv) (l : OpenGl_Text) (c : TextContext)
    (f : OpenGl_Font) (a : OpenGl_AspectText) (ct cs : Vec3) (hsafe : l.IndexSafe) :
    ∃ l' c', l.render_draw env c f a ct cs = some (l', c') ∧
      l'.myFont = l.myFont ∧ l'.myTextures = l.myTextures ∧
      l'.myVertsVbo = l.myVertsVbo ∧
      RestoredByRender c c' ∧ LeftByRender a c c' ∧
      (c.IsFeedback = false → l.myVertsVbo.length = l.myTextures.length →
        l.myTextures ≠ [] → c'.gpu.boundTexture2D c'.gpu.activeTexture = 0) := by
  obtain ⟨p1, p2, p3, p4, p5, p6, p7, p8, p9, p10, p11, p12⟩ := render_pushed_frame c
  obtain ⟨m1, m2, m3, m4⟩ := render_measure_frame env
    { l with myExportHeight := 1, myScaleHeight := 1 } f a
    ((c.gl (GlState.onMatrices (glMatrixMode .GL_MODELVIEW))).gl
      (GlState.onMatrices glPushMatrix))
  simp only [OpenGl_Text.render_draw]
  generalize (c.gl (GlState.onMatrices (glMatrixMode .GL_MODELVIEW))).gl
      (GlState.onMatrices glPushMatrix) = c0 at *
  have hL : (OpenGl_Text.render_measure env { l with myExportHeight := 1, myScaleHeight := 1 }
      f a c0).IndexSafe := by
    unfold OpenGl_Text.IndexSafe; rw [m3, m4]; exact hsafe
  generalize OpenGl_Text.render_measure env { l with myExportHeight := 1, myScaleHeight := 1 }
      f a c0 = L at *
  obtain ⟨s1, s2, s3, s4, s5, s6, s7, s8, s9, s10, s11, s12, s13, s14⟩ :=
    render_setupState_spec L a c0
  generalize L.render_setupState a c0 = st at *
  -- the extra drawings
  obtain ⟨c2, e2, f2⟩ := render_extra_spec env L a cs st.2 hL (by rw [s3]; exact p1)
  have hbase_attr : (if a.DisplayType = .Aspect_TODT_BLEND
      then st.2.gl (GlState.glLogicOp GL_XOR) else st.2).gpu.attribStack
      = st.2.gpu.attribStack := by split_ifs <;> rfl
  have hbase_mode : (if a.DisplayType = .Aspect_TODT_BLEND
      then st.2.gl (GlState.glLogicOp GL_XOR) else st.2).gpu.matrices
      = st.2.gpu.matrices := by split_ifs <;> rfl
  have hbase_act : (if a.DisplayType = .Aspect_TODT_BLEND
      then st.2.gl (GlState.glLogicOp GL_XOR) else st.2).gpu.activeTexture
      = st.2.gpu.activeTexture := by split_ifs <;> rfl
  have hbase_tex : (if a.DisplayType = .Aspect_TODT_BLEND
      then st.2.gl (GlState.glLogicOp GL_XOR) else st.2).gpu.texEnvMode
      = st.2.gpu.texEnvMode := by split_ifs <;> rfl
  have hbase_alpha : (if a.DisplayType = .Aspect_TODT_BLEND
      then st.2.gl (GlState.glLogicOp GL_XOR) else st.2).gpu.alphaFunc
      = st.2.gpu.alphaFunc := by split_ifs <;> rfl
  have hbase_blend : (if a.DisplayType = .Aspect_TODT_BLEND
      then st.2.gl (GlState.glLogicOp GL_XOR) else st.2).gpu.blendFunc
      = st.2.gpu.blendFunc := by split_ifs <;> rfl
  have hbase_logic : (if a.DisplayType = .Aspect_TODT_BLEND
      then st.2.gl (GlState.glLogicOp GL_XOR) else st.2).gpu.logicOp
      = (if a.DisplayType = .Aspect_TODT_BLEND then GL_XOR else st.2.gpu.logicOp) := by
    split_ifs <;> rfl
  have hbase_mask : (if a.DisplayType = .Aspect_TODT_BLEND
      then st.2.gl (GlState.glLogicOp GL_XOR) else st.2).gpu.colorMask
      = st.2.gpu.colorMask := by split_ifs <;> rfl
  have hbase_sf : (if a.DisplayType = .Aspect_TODT_BLEND
      then st.2.gl (GlState.glLogicOp GL_XOR) else st.2).gpu.stencilFunc
      = st.2.gpu.stencilFunc := by split_ifs <;> rfl
  have hbase_so : (if a.DisplayType = .Aspect_TODT_BLEND
      then st.2.gl (GlState.glLogicOp GL_XOR) else st.2).gpu.stencilOp
      = st.2.gpu.stencilOp := by split_ifs <;> rfl
  have hbase_fb : (if a.DisplayType = .Aspect_TODT_BLEND
      then st.2.gl (GlState.glLogicOp GL_XOR) else st.2).IsFeedback
      = st.2.IsFeedback := by split_ifs <;> rfl
  generalize (if a.DisplayType = .Aspect_TODT_BLEND
      then st.2.gl (GlState.glLogicOp GL_XOR) else st.2) = base at *
  -- the main draw call
  have hm2 : c2.gpu.matrices.matrixMode = .GL_MODELVIEW := by
    rw [f2.matrixMode, hbase_mode, s3]; exact p1
  have g1 := drawFrame_glColor3fv c2 ct
  have g2 := drawFrame_setupMatrix env L a ⟨0, 0, 0⟩ (c2.gl (GlState.glColor3fv ct))
    (g1.matrixMode.trans hm2)
  obtain ⟨c4, e4, f4, b4⟩ := drawText_spec L a
    ((c2.gl (GlState.glColor3fv ct)).gl (GlState.onMatrices (L.setupMatrix env a ⟨0, 0, 0⟩))) hL
  have F := drawFrame_trans (drawFrame_trans (drawFrame_trans f2 g1) g2) f4
  obtain ⟨r1, r2, r3, r4, r5, r6, r7, r8, r9, r10, r11, r12, r13⟩ :=
    render_finish_spec env L a st.1 c4 c0.gpu.enabled c0.gpu.attribStack
      c.gpu.matrices.modelView.top c.gpu.matrices.modelView.below
      (by rw [F.attribStack, hbase_attr, s2])
      (by rw [F.matrixMode, hbase_mode, s3]; exact p1)
      (by rw [F.below, hbase_mode, s3]; exact p2)
  refine ⟨L, _, by simp only [e2, Option.some_bind, e4, Option.map_some'], m1, m2, m3,
    ⟨r3, r1.trans p4, r2.trans p3, ?_⟩, ⟨r4, ?_, ?_, ?_, ?_, ?_, ?_, ?_⟩, ?_⟩
  · intro hcond
    rw [r6, F.activeTexture, hbase_act, s4, F.texEnvMode, hbase_tex, s5, s1, p11, p5, p6]
    funext u
    have hact : (if c.core15fwd = true then 0 else c.gpu.activeTexture)
        = c.gpu.activeTexture := by
      rcases hcond with h | h
      · split_ifs <;> simp [h]
      · simp [h]
    rw [hact]
    by_cases hu : u = c.gpu.activeTexture
    · simp [hu]
    · simp [hu]
  · rw [r8, F.alphaFunc, hbase_alpha, s6]
  · rw [r9, F.blendFunc, hbase_blend, s7]
  · rw [r10, F.logicOp, hbase_logic, s8, p7]
  · rw [r11, F.colorMask, hbase_mask, s9, p8]
  · rw [r12, F.stencilFunc, hbase_sf, s10, p9]
  · rw [r13, F.stencilOp, hbase_so, s11, p10]
  · rw [r5, F.activeTexture, hbase_act, s4, p11, p5]
  · intro hf hlen hne
    rw [r7, r5]
    apply b4
    · rw [g2.IsFeedback, g1.IsFeedback, f2.IsFeedback, hbase_fb, s13, p12, hf]
    · rw [m3, m2]; exact hlen
    · rw [m2]; exact hne


theorem restoredByRender_of_sameDevice {c c1 c' : TextContext} (h : SameDevice c c1)
    (r : RestoredByRender c1 c') : RestoredByRender c c' :=
  ⟨by rw [r.modelView, h.gpu], by rw [r.attribStack, h.gpu], by rw [r.enabled, h.gpu],
   fun hc => by
    have := r.texEnvMode (by rw [h.gpu, h.core15fwd]; exact hc)
    rw [this, h.gpu]⟩

theorem restoredByRender_same {c c1 : TextContext} (h : SameDevice c c1) :
    RestoredByRender c c1 :=
  ⟨by rw [h.gpu], by rw [h.gpu], by rw [h.gpu], fun _ => by rw [h.gpu]⟩

theorem leftByRender_of_sameDevice {a : OpenGl_AspectText} {c c1 c' : TextContext}
    (h : SameDevice c c1) (r : LeftByRender a c1 c') : LeftByRender a c c' :=
  ⟨r.matrixMode, r.alphaFunc, r.blendFunc, by rw [r.logicOp, h.gpu],
   by rw [r.colorMask, h.gpu], by rw [r.stencilFunc, h.gpu], by rw [r.stencilOp, h.gpu],
   by rw [r.activeTexture, h.gpu, h.core15fwd]⟩

/-- The whole of `render`: it returns; it restores the stacks and the enable flags; when it
leaves before the drawing stage nothing of the GL state has changed and nothing was drawn;
when it reaches the drawing stage the written state is left as written. -/
theorem render_spec (env : TextEnv) (l : OpenGl_Text) (c : TextContext)
    (a : OpenGl_AspectText) (ct cs : Vec3) (hsafe : l.IndexSafe)
    (hfmt : env.FormatterIndexSafe) :
    ∃ l' c', l.render env c a ct cs = some (l', c') ∧ RestoredByRender c c' ∧
      ((l.myString = [] ∨ l'.myFont = none ∨ l'.myTextures = []) →
        c'.gpu = c.gpu ∧ c'.drawCalls = c.drawCalls) ∧
      (l.myString ≠ [] → l'.myFont ≠ none → l'.myTextures ≠ [] →
        LeftByRender a c c' ∧
        (c.IsFeedback = false → l'.myVertsVbo.length = l'.myTextures.length →
          c'.gpu.boundTexture2D c'.gpu.activeTexture = 0)) ∧
      (l.myString ≠ [] →
        (∀ f, l.myFont = some f → f.ResourceKey ≠ FontKey env a l.myParams.Height) →
        (FindFont env c a l.myParams.Height (FontKey env a l.myParams.Height)).1 = none →
        l'.myFont = none) := by
  by_cases hs : l.myString = []
  · refine ⟨l, c, by simp [OpenGl_Text.render, hs], restoredByRender_same (sameDevice_refl c),
      fun _ => ⟨rfl, rfl⟩, fun h => (h hs).elim, fun h => (h hs).elim⟩
  · have hs' : l.myString.isEmpty = false := by
      cases hl : l.myString with
      | nil => exact (hs hl).elim
      | cons x xs => rfl
    obtain ⟨l1, c1, hr, hdev, hs1, hnone⟩ := render_resolve_spec env l c a hsafe hfmt
    cases hf : l1.myFont with
    | none =>
      refine ⟨l1, c1, ?_, restoredByRender_same hdev, fun _ => ⟨hdev.gpu, hdev.drawCalls⟩,
        fun _ h => (h hf).elim, fun _ _ _ => hf⟩
      simp only [OpenGl_Text.render, hs', hr, Option.some_bind, hf]
      rfl
    | some f =>
      cases ht : l1.myTextures with
      | nil =>
        refine ⟨l1, c1, ?_, restoredByRender_same hdev,
          fun _ => ⟨hdev.gpu, hdev.drawCalls⟩, fun _ _ h => (h ht).elim,
          fun _ h1 h2 => ?_⟩
        · simp only [OpenGl_Text.render, hs', hr, Option.some_bind, hf, ht]
          rfl
        · have := hnone h1 h2
          rw [hf] at this
          cases this
      | cons t ts =>
        obtain ⟨l2, c2, e, m1, m2, m3, R, L, B⟩ := render_draw_spec env l1 c1 f a ct cs hs1
        have hne2 : l2.myTextures ≠ [] := by rw [m2, ht]; exact List.cons_ne_nil _ _
        have hf2 : l2.myFont ≠ none := by rw [m1, hf]; exact Option.some_ne_none _
        refine ⟨l2, c2, ?_, restoredByRender_of_sameDevice hdev R, ?_, ?_, ?_⟩
        · simp only [OpenGl_Text.render, hs', hr, Option.some_bind, hf, ht]
          exact e
        · rintro (h | h | h)
          · exact (hs h).elim
          · exact (hf2 h).elim
          · exact (hne2 h).elim
        · intro _ _ _
          refine ⟨leftByRender_of_sameDevice hdev L, fun hfb hlen => ?_⟩
          apply B
          · rw [hdev.IsFeedback]; exact hfb
          · rw [← m3, ← m2]; exact hlen
          · rw [ht]; exact List.cons_ne_nil _ _
        · intro _ h1 h2
          have := hnone h1 h2
          rw [hf] at this
          cases this

theorem drawText_of_count_mismatch (l : OpenGl_Text) (a : OpenGl_AspectText)
    (c : TextContext) (hf : c.IsFeedback = false)
    (h : l.myVertsVbo.length ≠ l.myTextures.length) : l.drawText a c = some c := by
  simp [OpenGl_Text.drawText, hf, h]

/-! ## Rendering: verified properties -/

/-- C18 (as stated, refuted): the label `mismatchLabel` holds one texture and no vertex
buffer, yet `render` with the subtitle display type changes the alpha test of the context
from `(GL_ALWAYS, 0)` to `(GL_GEQUAL, 0.285)`, its blend function, and draws the subtitle
rectangle. -/
theorem render_count_mismatch_changes_gpu :
    mismatchLabel.myVertsVbo.length ≠ mismatchLabel.myTextures.length ∧
    sampleTextContext.gpu.alphaFunc = (GL_ALWAYS, 0) ∧
    sampleTextContext.gpu.blendFunc = (1, 0) ∧
    sampleTextContext.drawCalls = [] ∧
    (mismatchLabel.render sampleTextEnv sampleTextContext subtitleAspect ⟨1, 1, 1⟩
        ⟨0, 0, 0⟩).map (fun r => (r.2.gpu.alphaFunc, r.2.gpu.blendFunc, r.2.drawCalls))
      = some ((GL_GEQUAL, 0.285), (GL_SRC_ALPHA, GL_ONE_MINUS_SRC_ALPHA),
          [.quad 0 12 10 0]) := by
  refine ⟨by decide, rfl, rfl, rfl, ?_⟩
  rfl

/-- C18 (amended): `render` returns; when the font cannot be resolved (the label holds no
font or a font of another key, and `FindFont` gives none, as it does for every height below
2) or the glyph batch list is empty after formatting, the GL state and the draw calls of the
context are exactly as before; when the number of vertex buffers differs from the number of
textures, `drawText` outside feedback mode draws nothing and changes nothing. -/
theorem render_soft_failures_leave_gpu (env : TextEnv) (l : OpenGl_Text) (c : TextContext)
    (a : OpenGl_AspectText) (ct cs : Vec3) (hsafe : l.IndexSafe)
    (hfmt : env.FormatterIndexSafe) :
    ∃ l' c', l.render env c a ct cs = some (l', c') ∧
      (((∀ f, l.myFont = some f → f.ResourceKey ≠ FontKey env a l.myParams.Height) ∧
          (l.myParams.Height < 2 ∨
            (FindFont env c a l.myParams.Height (FontKey env a l.myParams.Height)).1 = none))
          ∨ l'.myTextures = [] →
        c'.gpu = c.gpu ∧ c'.drawCalls = c.drawCalls) ∧
      (∀ c2 : TextContext, c2.IsFeedback = false →
        l'.myVertsVbo.length ≠ l'.myTextures.length → l'.drawText a c2 = some c2) := by
  obtain ⟨l', c', e, -, hsoft, -, hnone⟩ := render_spec env l c a ct cs hsafe hfmt
  refine ⟨l', c', e, ?_, fun c2 hf h => drawText_of_count_mismatch l' a c2 hf h⟩
  rintro (⟨hstale, hff⟩ | ht)
  · by_cases hs : l.myString = []
    · exact hsoft (Or.inl hs)
    · have hff' : (FindFont env c a l.myParams.Height
          (FontKey env a l.myParams.Height)).1 = none := by
        rcases hff with hh | hff
        · rw [findFont_of_small_height env c a _ _ hh]
        · exact hff
      exact hsoft (Or.inr (Or.inl (hnone hs hstale hff')))
  · exact hsoft (Or.inr (Or.inr ht))

theorem render_soft_failures_leave_gpu_witness :
    sampleLabel.IndexSafe ∧ sampleTextEnv.FormatterIndexSafe ∧
    ∃ l' c', sampleLabel.render sampleTextEnv sampleTextContext unknownAspect ⟨1, 1, 1⟩
        ⟨0, 0, 0⟩ = some (l', c') ∧
      (((∀ f, sampleLabel.myFont = some f →
            f.ResourceKey ≠ FontKey sampleTextEnv unknownAspect sampleLabel.myParams.Height) ∧
          (sampleLabel.myParams.Height < 2 ∨
            (FindFont sampleTextEnv sampleTextContext unknownAspect sampleLabel.myParams.Height
              (FontKey sampleTextEnv unknownAspect sampleLabel.myParams.Height)).1 = none))
          ∨ l'.myTextures = [] →
        c'.gpu = sampleTextContext.gpu ∧ c'.drawCalls = sampleTextContext.drawCalls) ∧
      (∀ c2 : TextContext, c2.IsFeedback = false →
        l'.myVertsVbo.length ≠ l'.myTextures.length → l'.drawText unknownAspect c2 = some c2) :=
  ⟨by simp [OpenGl_Text.IndexSafe, sampleLabel],
   by intro l f; simp [sampleTextEnv],
   render_soft_failures_leave_gpu sampleTextEnv sampleLabel sampleTextContext unknownAspect
     ⟨1, 1, 1⟩ ⟨0, 0, 0⟩ (by simp [OpenGl_Text.IndexSafe, sampleLabel])
     (by intro l f; simp [sampleTextEnv])⟩

/-- C19: `render` returns and, on every path through it, the model-view matrix stack (its
depth, its current matrix and the matrices below), the attribute stack (so its depth) and
the enable flags of every capability on every texture unit are after the call what they
were before it. -/
theorem render_push_pop_discipline (env : TextEnv) (l : OpenGl_Text) (c : TextContext)
    (a : OpenGl_AspectText) (ct cs : Vec3) (hsafe : l.IndexSafe)
    (hfmt : env.FormatterIndexSafe) :
    ∃ l' c', l.render env c a ct cs = some (l', c') ∧
      c'.gpu.matrices.modelView.depth = c.gpu.matrices.modelView.depth ∧
      c'.gpu.matrices.modelView.top = c.gpu.matrices.modelView.top ∧
      c'.gpu.matrices.modelView.below = c.gpu.matrices.modelView.below ∧
      c'.gpu.attribStack.length = c.gpu.attribStack.length ∧
      c'.gpu.attribStack = c.gpu.attribStack ∧
      c'.gpu.enabled = c.gpu.enabled := by
  obtain ⟨l', c', e, R, -⟩ := render_spec env l c a ct cs hsafe hfmt
  exact ⟨l', c', e, by rw [R.modelView], by rw [R.modelView], by rw [R.modelView],
    by rw [R.attribStack], R.attribStack, R.enabled⟩

theorem render_push_pop_discipline_witness :
    sampleLabel.IndexSafe ∧ sampleTextEnv.FormatterIndexSafe ∧
    ∃ l' c', sampleLabel.render sampleTextEnv sampleTextContext courierAspect ⟨1, 1, 1⟩
        ⟨0, 0, 0⟩ = some (l', c') ∧
      c'.gpu.matrices.modelView.depth = sampleTextContext.gpu.matrices.modelView.depth ∧
      c'.gpu.matrices.modelView.top = sampleTextContext.gpu.matrices.modelView.top ∧
      c'.gpu.matrices.modelView.below = sampleTextContext.gpu.matrices.modelView.below ∧
      c'.gpu.attribStack.length = sampleTextContext.gpu.attribStack.length ∧
      c'.gpu.attribStack = sampleTextContext.gpu.attribStack ∧
      c'.gpu.enabled = sampleTextContext.gpu.enabled :=
  ⟨by simp [OpenGl_Text.IndexSafe, sampleLabel],
   by intro l f; simp [sampleTextEnv],
   render_push_pop_discipline sampleTextEnv sampleLabel sampleTextContext courierAspect
     ⟨1, 1, 1⟩ ⟨0, 0, 0⟩ (by simp [OpenGl_Text.IndexSafe, sampleLabel])
     (by intro l f; simp [sampleTextEnv])⟩

/-- C20 (as stated, refuted): rendering `sampleLabel` with the normal display type on a
context whose matrix mode is `GL_PROJECTION`, whose alpha test is `(GL_ALWAYS, 0)`, whose
blend function is `(GL_ONE, GL_ZERO)` and whose texture unit 0 has texture 0 bound leaves
the matrix mode `GL_MODELVIEW`, the alpha test `(GL_GEQUAL, 0.285)` and the blend function
`(GL_SRC_ALPHA, GL_ONE_MINUS_SRC_ALPHA)`. -/
theorem render_leaves_written_state :
    projectionModeContext.gpu.matrices.matrixMode = .GL_PROJECTION ∧
    projectionModeContext.gpu.alphaFunc = (GL_ALWAYS, 0) ∧
    projectionModeContext.gpu.blendFunc = (1, 0) ∧
    (sampleLabel.render sampleTextEnv projectionModeContext courierAspect ⟨1, 1, 1⟩
        ⟨0, 0, 0⟩).map
        (fun r => (r.2.gpu.matrices.matrixMode, r.2.gpu.alphaFunc, r.2.gpu.blendFunc))
      = some (.GL_MODELVIEW, (GL_GEQUAL, 0.285), (GL_SRC_ALPHA, GL_ONE_MINUS_SRC_ALPHA)) := by
  refine ⟨rfl, rfl, rfl, ?_⟩
  rfl

/-- C20 (amended): `render` returns and restores the model-view matrix stack, the attribute
stack, the enable flags and, when texture unit 0 is the active one or the context cannot
switch the active unit, the texture-environment modes. When it reaches the drawing stage
(text, font and glyph batches present) the rest of what it writes stays as written: the
matrix mode is `GL_MODELVIEW`, the alpha test `(GL_GEQUAL, 0.285)`, the blend function
`(GL_SRC_ALPHA, GL_ONE_MINUS_SRC_ALPHA)`, the logic operation `GL_XOR` for the blend display
type, the colour mask, stencil function and stencil operation the written ones for the
dimension display type (each unchanged for the other display types), the active texture
unit 0 when the context can switch it, and texture 0 is bound on the active unit after the
batches were drawn. -/
theorem render_restores_stacks_and_leaves_rest (env : TextEnv) (l : OpenGl_Text)
    (c : TextContext) (a : OpenGl_AspectText) (ct cs : Vec3) (hsafe : l.IndexSafe)
    (hfmt : env.FormatterIndexSafe) :
    ∃ l' c', l.render env c a ct cs = some (l', c') ∧
      c'.gpu.matrices.modelView = c.gpu.matrices.modelView ∧
      c'.gpu.attribStack = c.gpu.attribStack ∧
      c'.gpu.enabled = c.gpu.enabled ∧
      (c.gpu.activeTexture = 0 ∨ c.core15fwd = false →
        c'.gpu.texEnvMode = c.gpu.texEnvMode) ∧
      (l.myString ≠ [] → l'.myFont ≠ none → l'.myTextures ≠ [] →
        c'.gpu.matrices.matrixMode = .GL_MODELVIEW ∧
        c'.gpu.alphaFunc = (GL_GEQUAL, 0.285) ∧
        c'.gpu.blendFunc = (GL_SRC_ALPHA, GL_ONE_MINUS_SRC_ALPHA) ∧
        c'.gpu.logicOp
          = (if a.DisplayType = .Aspect_TODT_BLEND then GL_XOR else c.gpu.logicOp) ∧
        c'.gpu.colorMask
          = (if a.DisplayType = .Aspect_TODT_DIMENSION then (true, true, true, true)
             else c.gpu.colorMask) ∧
        c'.gpu.stencilFunc
          = (if a.DisplayType = .Aspect_TODT_DIMENSION then (GL_ALWAYS, 0, 0xFF)
             else c.gpu.stencilFunc) ∧
        c'.gpu.stencilOp
          = (if a.DisplayType = .Aspect_TODT_DIMENSION then (GL_KEEP, GL_KEEP, GL_REPLACE)
             else c.gpu.stencilOp) ∧
        c'.gpu.activeTexture = (if c.core15fwd then 0 else c.gpu.activeTexture) ∧
        (c.IsFeedback = false → l'.myVertsVbo.length = l'.myTextures.length →
          c'.gpu.boundTexture2D c'.gpu.activeTexture = 0)) := by
  obtain ⟨l', c', e, R, -, hdraw, -⟩ := render_spec env l c a ct cs hsafe hfmt
  refine ⟨l', c', e, R.modelView, R.attribStack, R.enabled, R.texEnvMode, fun h1 h2 h3 => ?_⟩
  obtain ⟨L, B⟩ := hdraw h1 h2 h3
  exact ⟨L.matrixMode, L.alphaFunc, L.blendFunc, L.logicOp, L.colorMask, L.stencilFunc,
    L.stencilOp, L.activeTexture, B⟩

theorem render_restores_stacks_and_leaves_rest_witness :
    sampleLabel.IndexSafe ∧ sampleTextEnv.FormatterIndexSafe ∧
    ∃ l' c', sampleLabel.render sampleTextEnv projectionModeContext subtitleAspect ⟨1, 1, 1⟩
        ⟨0, 0, 0⟩ = some (l', c') ∧
      c'.gpu.matrices.modelView = projectionModeContext.gpu.matrices.modelView ∧
      c'.gpu.attribStack = projectionModeContext.gpu.attribStack ∧
      c'.gpu.enabled = projectionModeContext.gpu.enabled ∧
      (projectionModeContext.gpu.activeTexture = 0 ∨ projectionModeContext.core15fwd = false →
        c'.gpu.texEnvMode = projectionModeContext.gpu.texEnvMode) ∧
      (sampleLabel.myString ≠ [] → l'.myFont ≠ none → l'.myTextures ≠ [] →
        c'.gpu.matrices.matrixMode = .GL_MODELVIEW ∧
        c'.gpu.alphaFunc = (GL_GEQUAL, 0.285) ∧
        c'.gpu.blendFunc = (GL_SRC_ALPHA, GL_ONE_MINUS_SRC_ALPHA) ∧
        c'.gpu.logicOp
          = (if subtitleAspect.DisplayType = .Aspect_TODT_BLEND then GL_XOR
             else projectionModeContext.gpu.logicOp) ∧
        c'.gpu.colorMask
          = (if subtitleAspect.DisplayType = .Aspect_TODT_DIMENSION then
               (true, true, true, true)
             else projectionModeContext.gpu.colorMask) ∧
        c'.gpu.stencilFunc
          = (if subtitleAspect.DisplayType = .Aspect_TODT_DIMENSION then (GL_ALWAYS, 0, 0xFF)
             else projectionModeContext.gpu.stencilFunc) ∧
        c'.gpu.stencilOp
          = (if subtitleAspect.DisplayType = .Aspect_TODT_DIMENSION then
               (GL_KEEP, GL_KEEP, GL_REPLACE)
             else projectionModeContext.gpu.stencilOp) ∧
        c'.gpu.activeTexture
          = (if projectionModeContext.core15fwd then 0
             else projectionModeContext.gpu.activeTexture) ∧
        (projectionModeContext.IsFeedback = false →
          l'.myVertsVbo.length = l'.myTextures.length →
          c'.gpu.boundTexture2D c'.gpu.activeTexture = 0)) :=
  ⟨by simp [OpenGl_Text.IndexSafe, sampleLabel],
   by intro l f; simp [sampleTextEnv],
   render_restores_stacks_and_leaves_rest sampleTextEnv sampleLabel projectionModeContext
     subtitleAspect ⟨1, 1, 1⟩ ⟨0, 0, 0⟩ (by simp [OpenGl_Text.IndexSafe, sampleLabel])
     (by intro l f; simp [sampleTextEnv])⟩
/-! ## Font names for the vector export: verified properties -/

theorem getGL2PSFontName_cases (s : String) :
    getGL2PSFontName s
      = if strstr s "Symbol" then "Symbol"
        else if strstr s "ZapfDingbats" then "WingDings"
        else psFontNameOfSpec s := by
  unfold getGL2PSFontName psFontNameOfSpec psFamilyOf
  cases strstr s "Symbol" <;> cases strstr s "ZapfDingbats" <;> cases strstr s "Courier" <;>
    cases strstr s "Times" <;> cases strstr s "Bold" <;> cases strstr s "Italic" <;>
    cases strstr s "Oblique" <;> rfl

/-- C22 (as stated, refuted): the font name `Symbol` is mapped to `Symbol`, which is none of
the twelve names of the families Helvetica, Courier and Times and not the name the
specification gives (`Helvetica`). -/
theorem symbol_font_keeps_its_name :
    getGL2PSFontName "Symbol" = "Symbol" ∧
    (∀ f b i, getGL2PSFontName "Symbol" ≠ canonicalPsName f b i) ∧
    psFontNameOfSpec "Symbol" = "Helvetica" := by
  refine ⟨by decide, ?_, by decide⟩
  intro f b i
  cases f <;> cases b <;> cases i <;> decide

/-- C22 (amended): a font name containing `Symbol` is mapped to `Symbol`, one containing
`ZapfDingbats` and not `Symbol` to `WingDings`; every other font name is mapped to the
canonical PostScript name of its family (Courier if the name contains `Courier`, else Times
if it contains `Times`, else Helvetica), bold if the name contains `Bold`, slanted
(`Oblique` for Helvetica and Courier, `Italic` for Times) if it contains `Italic` or
`Oblique`, the regular forms being `Helvetica`, `Courier` and `Times-Roman`. -/
theorem getGL2PSFontName_canonical (theSrcFont : String) :
    (strstr theSrcFont "Symbol" = true → getGL2PSFontName theSrcFont = "Symbol") ∧
    (strstr theSrcFont "Symbol" = false → strstr theSrcFont "ZapfDingbats" = true →
      getGL2PSFontName theSrcFont = "WingDings") ∧
    (strstr theSrcFont "Symbol" = false → strstr theSrcFont "ZapfDingbats" = false →
      getGL2PSFontName theSrcFont
        = canonicalPsName (psFamilyOf theSrcFont) (strstr theSrcFont "Bold")
            (strstr theSrcFont "Italic" || strstr theSrcFont "Oblique")) := by
  rw [getGL2PSFontName_cases]
  refine ⟨fun h => ?_, fun h1 h2 => ?_, fun h1 h2 => ?_⟩
  · simp [h]
  · simp [h1, h2]
  · simp [h1, h2, psFontNameOfSpec]

theorem getGL2PSFontName_canonical_witness :
    getGL2PSFontName "Symbol Bold" = "Symbol" ∧
    getGL2PSFontName "ZapfDingbats" = "WingDings" ∧
    getGL2PSFontName "Times New Roman Bold Italic" = "Times-BoldItalic" :=
  ⟨(getGL2PSFontName_canonical "Symbol Bold").1 (by decide),
   (getGL2PSFontName_canonical "ZapfDingbats").2.1 (by decide) (by decide),
   ((getGL2PSFontName_canonical "Times New Roman Bold Italic").2.2 (by decide)
      (by decide)).trans (by decide)⟩

/-- C30: for every source font name the string written by `getGL2PSFontName` has at most
21 characters, each of one byte, so that with its terminator it fits the buffer of 64 bytes
of `exportText`; 21 is reached by `Helvetica-BoldOblique`. -/
theorem getGL2PSFontName_fits_buffer (theSrcFont : String) :
    (getGL2PSFontName theSrcFont).length ≤ 21 ∧
    (getGL2PSFontName theSrcFont).utf8ByteSize = (getGL2PSFontName theSrcFont).length ∧
    (getGL2PSFontName theSrcFont).utf8ByteSize + 1 ≤ aPsFont_size ∧
    (getGL2PSFontName "Arial Bold Italic").length = 21 := by
  have key : (getGL2PSFontName theSrcFont).length ≤ 21 ∧
      (getGL2PSFontName theSrcFont).utf8ByteSize = (getGL2PSFontName theSrcFont).length := by
    unfold getGL2PSFontName
    cases strstr theSrcFont "Symbol" <;> cases strstr theSrcFont "ZapfDingbats" <;>
      cases strstr theSrcFont "Courier" <;> cases strstr theSrcFont "Times" <;>
      cases strstr theSrcFont "Bold" <;> cases strstr theSrcFont "Italic" <;>
      cases strstr theSrcFont "Oblique" <;> decide
  refine ⟨key.1, key.2, ?_, by decide⟩
  rw [key.2]
  have := key.1
  unfold aPsFont_size
  omega

/-! ## Font keys: auxiliary facts -/

theorem digitChar_spec (d : Nat) (h : d < 10) :
    digitValue (Nat.digitChar d) = d ∧ Nat.digitChar d ≠ ':' ∧ Nat.digitChar d ≠ '-' := by
  interval_cases d <;> decide

theorem decodeDigits_append (ds : List Char) (c : Char) :
    decodeDigits (ds ++ [c]) = 10 * decodeDigits ds + digitValue c := by
  simp [decodeDigits, List.foldl_append]

theorem toDigitsCore_spec (fuel : Nat) :
    ∀ n ds, n < fuel →
      ∃ D, Nat.toDigitsCore 10 fuel n ds = D ++ ds ∧ decodeDigits D = n ∧
        ∀ c ∈ D, c ≠ ':' ∧ c ≠ '-' := by
  induction fuel with
  | zero => intro n ds h; omega
  | succ fuel ih =>
    intro n ds h
    have hd := digitChar_spec (n % 10) (Nat.mod_lt _ (by decide))
    by_cases h0 : n / 10 = 0
    · refine ⟨[Nat.digitChar (n % 10)], by simp [Nat.toDigitsCore, h0], ?_, ?_⟩
      · have : decodeDigits [Nat.digitChar (n % 10)] = digitValue (Nat.digitChar (n % 10)) := by
          simp [decodeDigits]
        rw [this, hd.1]
        omega
      · intro c hc
        rw [List.mem_singleton] at hc
        rw [hc]
        exact hd.2
    · obtain ⟨D, e, hv, hc⟩ := ih (n / 10) (Nat.digitChar (n % 10) :: ds) (by omega)
      refine ⟨D ++ [Nat.digitChar (n % 10)], by simp [Nat.toDigitsCore, h0, e], ?_, ?_⟩
      · rw [decodeDigits_append, hv, hd.1]
        omega
      · intro c hcm
        rcases List.mem_append.1 hcm with h1 | h1
        · exact hc c h1
        · rw [List.mem_singleton] at h1
          rw [h1]
          exact hd.2

theorem nat_repr_spec (n : Nat) :
    decodeDigits (Nat.repr n).data = n ∧ ∀ c ∈ (Nat.repr n).data, c ≠ ':' ∧ c ≠ '-' := by
  obtain ⟨D, e, hv, hc⟩ := toDigitsCore_spec (n + 1) n [] (by omega)
  have : (Nat.repr n).data = D := by
    simp [Nat.repr, Nat.toDigits, e, List.asString]
  rw [this]
  exact ⟨hv, hc⟩

theorem int_toString_ofNat (m : Nat) : (toString (Int.ofNat m)).data = (Nat.repr m).data :=
  rfl

theorem int_toString_negSucc (m : Nat) :
    (toString (Int.negSucc m)).data = '-' :: (Nat.repr (m + 1)).data :=
  rfl

theorem int_toString_no_colon (i : Int) : ∀ c ∈ (toString i).data, c ≠ ':' := by
  intro c hc
  cases i with
  | ofNat m =>
    rw [int_toString_ofNat] at hc
    exact ((nat_repr_spec m).2 c hc).1
  | negSucc m =>
    rw [int_toString_negSucc] at hc
    rcases List.mem_cons.1 hc with h | h
    · rw [h]; decide
    · exact ((nat_repr_spec (m + 1)).2 c h).1

theorem int_toString_injective (i j : Int) (h : (toString i).data = (toString j).data) :
    i = j := by
  cases i with
  | ofNat m =>
    cases j with
    | ofNat k =>
      rw [int_toString_ofNat, int_toString_ofNat] at h
      have := congrArg decodeDigits h
      rw [(nat_repr_spec m).1, (nat_repr_spec k).1] at this
      rw [this]
    | negSucc k =>
      rw [int_toString_ofNat, int_toString_negSucc] at h
      exfalso
      have hm := (nat_repr_spec m).2 '-' (by rw [h]; exact List.mem_cons_self _ _)
      exact hm.2 rfl
  | negSucc m =>
    cases j with
    | ofNat k =>
      rw [int_toString_ofNat, int_toString_negSucc] at h
      exfalso
      have hm := (nat_repr_spec k).2 '-' (by rw [← h]; exact List.mem_cons_self _ _)
      exact hm.2 rfl
    | negSucc k =>
      rw [int_toString_negSucc, int_toString_negSucc] at h
      have h' := (List.cons.inj h).2
      have := congrArg decodeDigits h'
      rw [(nat_repr_spec (m + 1)).1, (nat_repr_spec (k + 1)).1] at this
      have : m = k := by omega
      rw [this]

/-- A list is split in one way only at the last occurrence of a separator. -/
theorem split_at_last_separator {α : Type} (c : α) :
    ∀ (b b' a a' : List α), c ∉ b → c ∉ b' → a ++ c :: b = a' ++ c :: b' →
      a = a' ∧ b = b' := by
  intro b b' a a' hb hb' h
  have hr := congrArg List.reverse h
  simp only [List.reverse_append, List.reverse_cons, List.append_assoc,
    List.singleton_append] at hr
  have key : ∀ (x y u v : List α), c ∉ x → c ∉ y → x ++ c :: u = y ++ c :: v →
      x = y ∧ u = v := by
    intro x
    induction x with
    | nil =>
      intro y u v _ hy e
      cases y with
      | nil => exact ⟨rfl, (List.cons.inj e).2⟩
      | cons z zs =>
        exfalso
        have := (List.cons.inj e).1
        exact hy (by rw [this]; exact List.mem_cons_self _ _)
    | cons z zs ih =>
      intro y u v hx hy e
      cases y with
      | nil =>
        exfalso
        have := (List.cons.inj e).1
        exact hx (by rw [← this]; exact List.mem_cons_self _ _)
      | cons w ws =>
        have e1 := List.cons.inj e
        obtain ⟨r1, r2⟩ := ih ws u v (fun m => hx (List.mem_cons_of_mem _ m))
          (fun m => hy (List.mem_cons_of_mem _ m)) e1.2
        exact ⟨by rw [e1.1, r1], r2⟩
  obtain ⟨r1, r2⟩ := key b.reverse b'.reverse a.reverse a'.reverse
    (by simpa using hb) (by simpa using hb') hr
  exact ⟨List.reverse_injective r2, List.reverse_injective r1⟩

theorem fontKey_data (env : TextEnv) (a : OpenGl_AspectText) (h : Int) :
    (FontKey env a h).data
      = (a.FontName.data ++ ':' :: (toString (effectiveStyle env a)).data)
          ++ ':' :: (toString h).data := by
  by_cases hu : a.FontAspect = env.Font_FA_Undefined <;>
    simp [FontKey, AsciiString_ofInteger, effectiveStyle, hu]

/-! ## Font keys: verified properties -/

/-- C29: two font requests get the same key exactly when the font names are equal, the
heights are equal and the style codes are equal once `Font_FA_Undefined` is replaced by
`Font_FA_Regular`; the names may contain colons. -/
theorem fontKey_identifies_request (env : TextEnv) (a1 a2 : OpenGl_AspectText)
    (h1 h2 : Int) :
    FontKey env a1 h1 = FontKey env a2 h2 ↔
      a1.FontName = a2.FontName ∧ h1 = h2 ∧
      (if a1.FontAspect = env.Font_FA_Undefined then env.Font_FA_Regular
        else a1.FontAspect)
        = (if a2.FontAspect = env.Font_FA_Undefined then env.Font_FA_Regular
            else a2.FontAspect) := by
  constructor
  · intro e
    have e' := congrArg String.data e
    rw [fontKey_data, fontKey_data] at e'
    obtain ⟨r1, r2⟩ := split_at_last_separator ':' _ _ _ _
      (fun m => int_toString_no_colon h1 _ m rfl)
      (fun m => int_toString_no_colon h2 _ m rfl) e'
    obtain ⟨r3, r4⟩ := split_at_last_separator ':' _ _ _ _
      (fun m => int_toString_no_colon (effectiveStyle env a1) _ m rfl)
      (fun m => int_toString_no_colon (effectiveStyle env a2) _ m rfl) r1
    exact ⟨String.ext r3, int_toString_injective _ _ r2, int_toString_injective _ _ r4⟩
  · rintro ⟨e1, e2, e3⟩
    apply String.ext
    rw [fontKey_data, fontKey_data]
    unfold effectiveStyle
    rw [e1, e2, e3]

/-! ## Transform persistence: the matrices after `Begin` -/

theorem identity_mul (m : Mat4) : THE_IDENTITY_MATRIX.mul m = m := by
  funext i j
  fin_cases j <;> simp [Mat4.mul, THE_IDENTITY_MATRIX]

theorem mul_translation_apply (c : Mat4) (x y z : ℚ) (i j : Fin 4) (hi : i ≠ 3) :
    (c.mul (translationMatrix x y z)) i j = c i j := by
  fin_cases i <;> simp [Mat4.mul, translationMatrix, Mat4.set, THE_IDENTITY_MATRIX] at hi ⊢

theorem pushAndReset_tops (s : ViewState) :
    (pushAndReset s).2.modelView.top = THE_IDENTITY_MATRIX ∧
    (pushAndReset s).2.projection.top = THE_IDENTITY_MATRIX ∧
    (pushAndReset s).2.viewport = s.2.viewport ∧
    (pushAndReset s).1.axialScale = s.1.axialScale := by
  cases h : s.1.myIsTransPers <;>
    simp [pushAndReset, h, glLoadIdentity, glPushMatrix, glPopMatrix, glMatrixMode,
      onCurrentStack, MatrixStack.load, MatrixStack.push, MatrixStack.pop]

/-- The current matrices after `Begin` with a non-zero mode: the loaded matrices, the
projection followed by the corner translation in the trihedron mode, the model-view matrix
followed by the anchor translation when the mode does not contain `TPF_PAN`. -/
theorem begin_tops (fl : TP_FLAGS) (glu : Glu) (s : ViewState)
    (d : TEL_TRANSFORM_PERSISTENCE) (hd : d.mode ≠ 0) :
    ((BeginTransformPersistence fl glu s d).2.2.modelView.top = loadedModelMatrix fl s d ∧
      ((BeginTransformPersistence fl glu s d).2.2.projection.top = loadedProjMatrix fl s d ∨
        (d.mode = fl.TPF_TRIEDRON ∧ ∃ x y,
          (BeginTransformPersistence fl glu s d).2.2.projection.top
            = (loadedProjMatrix fl s d).mul (translationMatrix x y 0)))) ∨
    (d.mode ≠ fl.TPF_TRIEDRON ∧ d.mode &&& fl.TPF_PAN ≠ fl.TPF_PAN ∧
      (BeginTransformPersistence fl glu s d).2.2.projection.top = loadedProjMatrix fl s d ∧
      ∃ x y z, (BeginTransformPersistence fl glu s d).2.2.modelView.top
        = (loadedModelMatrix fl s d).mul (translationMatrix x y z)) := by
  obtain ⟨t1, t2, t3, t4⟩ := pushAndReset_tops ({ s.1 with myTransPers := d }, s.2)
  unfold BeginTransformPersistence
  simp only [hd, if_false, shaderCall]
  unfold moveToAnchor
  simp only [glTranslated, glMultMatrixd, glMatrixMode, onCurrentStack, MatrixStack.load,
    t1, t2, t4, identity_mul]
  by_cases htri : d.mode = fl.TPF_TRIEDRON
  · left
    by_cases hp : d.pointX ≠ 0 ∧ d.pointY ≠ 0
    · rw [if_pos htri, if_pos hp]
      exact ⟨rfl, Or.inr ⟨htri, _, _, rfl⟩⟩
    · rw [if_pos htri, if_neg hp]
      exact ⟨rfl, Or.inl rfl⟩
  · by_cases hpan : d.mode &&& fl.TPF_PAN ≠ fl.TPF_PAN
    · right
      rw [if_neg htri, if_pos hpan]
      exact ⟨htri, hpan, rfl, _, _, _, rfl⟩
    · left
      rw [if_neg htri, if_neg hpan]
      exact ⟨rfl, Or.inl rfl⟩

theorem preventTranslation_row (fl : TP_FLAGS) (mode : Nat) (m : Mat4)
    (h : mode &&& fl.TPF_PAN ≠ 0 ∨ mode = fl.TPF_TRIEDRON) :
    (preventTranslation fl mode m) 3 0 = 0 ∧ (preventTranslation fl mode m) 3 1 = 0 ∧
    (preventTranslation fl mode m) 3 2 = 0 := by
  simp [preventTranslation, h, Mat4.set]

theorem preventTranslation_diag (fl : TP_FLAGS) (mode : Nat) (m : Mat4) (i j : Fin 4)
    (hi : i ≠ 3) : (preventTranslation fl mode m) i j = m i j := by
  unfold preventTranslation
  split_ifs
  · fin_cases i <;> simp [Mat4.set] at hi ⊢
  · rfl

theorem preventAxialScaling_row (fl : TP_FLAGS) (mode : Nat) (sc : Vec3) (m : Mat4)
    (j : Fin 4) : (preventAxialScaling fl mode sc m) 3 j = m 3 j := by
  unfold preventAxialScaling
  split_ifs
  · simp [Mat4.set]
  · rfl

theorem preventRotating_row (fl : TP_FLAGS) (mode : Nat) (m : Mat4) (j : Fin 4) :
    (preventRotating fl mode m) 3 j = m 3 j := by
  unfold preventRotating
  split_ifs
  · simp [Mat4.set]
  · rfl

theorem preventRotating_block (fl : TP_FLAGS) (mode : Nat) (m : Mat4)
    (h : mode &&& fl.TPF_ROTATE ≠ 0) (i j : Fin 4) (hi : i ≠ 3) (hj : j ≠ 3) :
    (preventRotating fl mode m) i j = if i = j then 1 else 0 := by
  unfold preventRotating
  rw [if_pos h]
  fin_cases i <;> fin_cases j <;> simp [Mat4.set] at hi hj ⊢

theorem preventZooming_diag (fl : TP_FLAGS) (mode : Nat) (w h : ℚ) (p : Mat4)
    (hz : mode &&& fl.TPF_ZOOM ≠ 0 ∨ mode = fl.TPF_TRIEDRON) :
    (preventZooming fl mode w h p) 0 0 = p 0 0 * (0.002 / (if w > h then p 1 1 else p 0 0)) ∧
    (preventZooming fl mode w h p) 1 1 = p 1 1 * (0.002 / (if w > h then p 1 1 else p 0 0)) ∧
    (preventZooming fl mode w h p) 2 2
      = p 2 2 * (0.002 / (if w > h then p 1 1 else p 0 0)) := by
  simp [preventZooming, hz, Mat4.set]

theorem and_single_bit (x p : Nat) (hbit : ∃ k, p = 2 ^ k) (h : x &&& p ≠ 0) :
    x &&& p = p := by
  obtain ⟨k, rfl⟩ := hbit
  rw [Nat.and_two_pow] at h ⊢
  cases hb : x.testBit k
  · simp [hb] at h
  · simp

/-! ## Transform persistence: the cancelled degrees of freedom -/

/-- C25: when `TPF_PAN` is a single bit that the mode contains, or the mode is the non-zero
`TPF_TRIEDRON`, the model-view matrix current after `Begin` has its translation entries
`[3][0]`, `[3][1]`, `[3][2]` equal to zero whatever the matrix found; the projection matrix
loaded has these entries zero too, and the current projection is that matrix, followed in
the trihedron mode only by the corner translation. -/
theorem pan_cancels_translation (fl : TP_FLAGS) (glu : Glu) (s : ViewState)
    (d : TEL_TRANSFORM_PERSISTENCE) (hbit : ∃ k, fl.TPF_PAN = 2 ^ k)
    (htri : fl.TPF_TRIEDRON ≠ 0)
    (hpan : d.mode &&& fl.TPF_PAN ≠ 0 ∨ d.mode = fl.TPF_TRIEDRON) :
    (BeginTransformPersistence fl glu s d).2.2.modelView.top 3 0 = 0 ∧
    (BeginTransformPersistence fl glu s d).2.2.modelView.top 3 1 = 0 ∧
    (BeginTransformPersistence fl glu s d).2.2.modelView.top 3 2 = 0 ∧
    (loadedProjMatrix fl s d) 3 0 = 0 ∧ (loadedProjMatrix fl s d) 3 1 = 0 ∧
    (loadedProjMatrix fl s d) 3 2 = 0 ∧
    ((BeginTransformPersistence fl glu s d).2.2.projection.top = loadedProjMatrix fl s d ∨
      (d.mode = fl.TPF_TRIEDRON ∧ ∃ x y,
        (BeginTransformPersistence fl glu s d).2.2.projection.top
          = (loadedProjMatrix fl s d).mul (translationMatrix x y 0))) := by
  have hd : d.mode ≠ 0 := by
    rcases hpan with h | h
    · intro h0
      rw [h0] at h
      simp at h
    · rw [h]; exact htri
  have hM : ∀ j : Fin 4, j ≠ 3 → (loadedModelMatrix fl s d) 3 j = 0 := by
    intro j hj
    unfold loadedModelMatrix
    rw [preventRotating_row, preventAxialScaling_row]
    obtain ⟨r0, r1, r2⟩ := preventTranslation_row fl d.mode s.2.modelView.top hpan
    fin_cases j
    · exact r0
    · exact r1
    · exact r2
    · exact (hj rfl).elim
  obtain ⟨q0, q1, q2⟩ := preventTranslation_row fl d.mode
    (preventZooming fl d.mode s.2.viewport.width s.2.viewport.height s.2.projection.top) hpan
  rcases begin_tops fl glu s d hd with ⟨hmv, hpr⟩ | ⟨hnt, hnp, -, -⟩
  · rw [hmv]
    exact ⟨hM 0 (by decide), hM 1 (by decide), hM 2 (by decide), q0, q1, q2, hpr⟩
  · exfalso
    rcases hpan with h | h
    · exact hnp (and_single_bit _ _ hbit h)
    · exact hnt h

theorem pan_cancels_translation_witness :
    (BeginTransformPersistence occtFlags failingGlu sampleState panOnly).2.2.modelView.top 3 0
      = 0 ∧
    sampleState.2.modelView.top 3 0 = 5 :=
  ⟨(pan_cancels_translation occtFlags failingGlu sampleState panOnly ⟨0, rfl⟩ (by decide)
      (Or.inl (by decide))).1, rfl⟩

/-- C26: when the mode contains a bit of `TPF_ROTATE`, the upper-left 3x3 block of the
model-view matrix current after `Begin` is the identity, whatever the matrix found and the
axial scale of the camera, also when the anchor translation was applied. -/
theorem rotate_cancels_rotation (fl : TP_FLAGS) (glu : Glu) (s : ViewState)
    (d : TEL_TRANSFORM_PERSISTENCE) (hrot : d.mode &&& fl.TPF_ROTATE ≠ 0) (i j : Fin 4)
    (hi : i ≠ 3) (hj : j ≠ 3) :
    (BeginTransformPersistence fl glu s d).2.2.modelView.top i j = if i = j then 1 else 0 := by
  have hd : d.mode ≠ 0 := by
    intro h0
    rw [h0] at hrot
    simp at hrot
  have hM : (loadedModelMatrix fl s d) i j = if i = j then 1 else 0 :=
    preventRotating_block fl d.mode _ hrot i j hi hj
  rcases begin_tops fl glu s d hd with ⟨hmv, -⟩ | ⟨-, -, -, x, y, z, hmv⟩
  · rw [hmv, hM]
  · rw [hmv, mul_translation_apply _ _ _ _ _ _ hi, hM]

theorem rotate_cancels_rotation_witness :
    (BeginTransformPersistence occtFlags failingGlu sampleState rotateOnly).2.2.modelView.top
        0 1 = 0 ∧
    sampleState.2.modelView.top 0 1 = 1 :=
  ⟨rotate_cancels_rotation occtFlags failingGlu sampleState rotateOnly (by decide) 0 1
      (by decide) (by decide), rfl⟩

/-- C27: when the mode is not zero and contains a bit of `TPF_ZOOM` or is `TPF_TRIEDRON`,
the diagonal entries `[0][0]`, `[1][1]`, `[2][2]` of the projection current after `Begin`
are those of the projection found, each multiplied by `0.002 / (P[1][1] if W > H, else
P[0][0])`; when that divisor is not zero the entry of the chosen axis is exactly `0.002`. -/
theorem zoom_fixes_projection_scale (fl : TP_FLAGS) (glu : Glu) (s : ViewState)
    (d : TEL_TRANSFORM_PERSISTENCE) (hd : d.mode ≠ 0)
    (hz : d.mode &&& fl.TPF_ZOOM ≠ 0 ∨ d.mode = fl.TPF_TRIEDRON) :
    (BeginTransformPersistence fl glu s d).2.2.projection.top 0 0
      = s.2.projection.top 0 0 *
          (0.002 / (if (s.2.viewport.width : ℚ) > s.2.viewport.height
                    then s.2.projection.top 1 1 else s.2.projection.top 0 0)) ∧
    (BeginTransformPersistence fl glu s d).2.2.projection.top 1 1
      = s.2.projection.top 1 1 *
          (0.002 / (if (s.2.viewport.width : ℚ) > s.2.viewport.height
                    then s.2.projection.top 1 1 else s.2.projection.top 0 0)) ∧
    (BeginTransformPersistence fl glu s d).2.2.projection.top 2 2
      = s.2.projection.top 2 2 *
          (0.002 / (if (s.2.viewport.width : ℚ) > s.2.viewport.height
                    then s.2.projection.top 1 1 else s.2.projection.top 0 0)) ∧
    ((if (s.2.viewport.width : ℚ) > s.2.viewport.height
        then s.2.projection.top 1 1 else s.2.projection.top 0 0) ≠ 0 →
      (if (s.2.viewport.width : ℚ) > s.2.viewport.height
        then (BeginTransformPersistence fl glu s d).2.2.projection.top 1 1
        else (BeginTransformPersistence fl glu s d).2.2.projection.top 0 0) = 0.002) := by
  obtain ⟨z0, z1, z2⟩ := preventZooming_diag fl d.mode s.2.viewport.width
    s.2.viewport.height s.2.projection.top hz
  have hL : ∀ i : Fin 4, i ≠ 3 → (loadedProjMatrix fl s d) i i
      = (preventZooming fl d.mode s.2.viewport.width s.2.viewport.height
          s.2.projection.top) i i :=
    fun i hi => preventTranslation_diag fl d.mode _ i i hi
  have hP : ∀ i : Fin 4, i ≠ 3 →
      (BeginTransformPersistence fl glu s d).2.2.projection.top i i
        = (preventZooming fl d.mode s.2.viewport.width s.2.viewport.height
            s.2.projection.top) i i := by
    intro i hi
    rcases begin_tops fl glu s d hd with ⟨-, hpr | ⟨-, x, y, hpr⟩⟩ | ⟨-, -, hpr, -⟩
    · rw [hpr, hL i hi]
    · rw [hpr, mul_translation_apply _ _ _ _ _ _ hi, hL i hi]
    · rw [hpr, hL i hi]
  rw [hP 0 (by decide), hP 1 (by decide), hP 2 (by decide), z0, z1, z2]
  refine ⟨rfl, rfl, rfl, fun hne => ?_⟩
  split_ifs with hw
  · rw [if_pos hw] at hne
    field_simp
  · rw [if_neg hw] at hne
    field_simp

theorem zoom_fixes_projection_scale_witness :
    (BeginTransformPersistence occtFlags failingGlu sampleState zoomOnly).2.2.projection.top
        1 1 = 0.002 :=
  have h := (zoom_fixes_projection_scale occtFlags failingGlu sampleState zoomOnly
    (by decide) (Or.inl (by decide))).2.2.2
  (by
    have h' := h (by simp [sampleState, sampleContext, THE_IDENTITY_MATRIX])
    simpa [sampleState, sampleContext] using h')

/-! ## Glyph batches of reachable labels: auxiliary facts -/

theorem balanced_indexSafe {l : OpenGl_Text} (h : l.Balanced) : l.IndexSafe :=
  le_of_eq h.2

theorem releaseVbos_balanced (c : Option TextContext) (l : OpenGl_Text)
    (r : OpenGl_Text × Option TextContext) (h : l.releaseVbos c = some r) :
    r.1.Balanced ∧ r.1.myFont = l.myFont := by
  unfold OpenGl_Text.releaseVbos at h
  obtain ⟨x, -, rfl⟩ := Option.map_eq_some'.1 h
  exact ⟨⟨rfl, rfl⟩, rfl⟩

theorem release_balanced (c : Option TextContext) (l : OpenGl_Text)
    (r : OpenGl_Text × Option TextContext) (h : l.Release c = some r) : r.1.Balanced := by
  unfold OpenGl_Text.Release at h
  obtain ⟨x, hx, rfl⟩ := Option.map_eq_some'.1 h
  have hb := (releaseVbos_balanced c l x hx).1
  cases hf : x.1.myFont with
  | none => exact hb
  | some f => exact hb

theorem render_format_balanced (env : TextEnv) (l : OpenGl_Text) (f : OpenGl_Font)
    (hb : l.Balanced) (hfmt : env.FormatterBalanced) : (l.render_format env f).Balanced := by
  unfold OpenGl_Text.render_format
  split_ifs
  · exact hfmt l f
  · exact hb

theorem render_resolve_balanced (env : TextEnv) (l : OpenGl_Text) (c : TextContext)
    (a : OpenGl_AspectText) (r : OpenGl_Text × TextContext) (hb : l.Balanced)
    (hfmt : env.FormatterBalanced) (h : l.render_resolve env c a = some r) :
    r.1.Balanced := by
  unfold OpenGl_Text.render_resolve at h
  obtain ⟨x, hx, rfl⟩ := Option.map_eq_some'.1 h
  have hxb : x.1.Balanced := by
    unfold OpenGl_Text.render_releaseChanged at hx
    cases hf : l.myFont with
    | none =>
      rw [hf] at hx
      cases hx
      exact hb
    | some f =>
      rw [hf] at hx
      by_cases hk : f.ResourceKey = FontKey env a l.myParams.Height
      · simp only [hk, ne_eq, not_true_eq_false, if_false] at hx
        cases hx
        exact hb
      · simp only [ne_eq, hk, not_false_eq_true, if_true] at hx
        obtain ⟨y, hy, rfl⟩ := Option.map_eq_some'.1 hx
        exact release_balanced _ _ _ hy
  obtain ⟨-, g2, g3, g4, -⟩ :=
    render_findFont_spec env x.1 x.2 a (FontKey env a l.myParams.Height)
  have hfb : (x.1.render_findFont env x.2 a (FontKey env a l.myParams.Height)).1.Balanced := by
    unfold OpenGl_Text.Balanced
    rw [g2, g3, g4]
    exact hxb
  cases hm : (x.1.render_findFont env x.2 a (FontKey env a l.myParams.Height)).1.myFont with
  | none => simp only [hm]; exact hfb
  | some f => simp only [hm]; exact render_format_balanced env _ f hfb hfmt

theorem render_draw_label (env : TextEnv) (l : OpenGl_Text) (c : TextContext)
    (f : OpenGl_Font) (a : OpenGl_AspectText) (ct cs : Vec3) (r : OpenGl_Text × TextContext)
    (h : l.render_draw env c f a ct cs = some r) :
    r.1 = OpenGl_Text.render_measure env { l with myExportHeight := 1, myScaleHeight := 1 } f a
      ((c.gl (GlState.onMatrices (glMatrixMode .GL_MODELVIEW))).gl
        (GlState.onMatrices glPushMatrix)) := by
  unfold OpenGl_Text.render_draw at h
  obtain ⟨x, -, hx⟩ := Option.bind_eq_some.1 h
  obtain ⟨y, -, rfl⟩ := Option.map_eq_some'.1 hx
  rfl

theorem render_balanced (env : TextEnv) (l : OpenGl_Text) (c : TextContext)
    (a : OpenGl_AspectText) (ct cs : Vec3) (r : OpenGl_Text × TextContext) (hb : l.Balanced)
    (hfmt : env.FormatterBalanced) (h : l.render env c a ct cs = some r) : r.1.Balanced := by
  unfold OpenGl_Text.render at h
  by_cases hs : l.myString.isEmpty = true
  · rw [if_pos hs] at h
    cases h
    exact hb
  · rw [if_neg hs] at h
    obtain ⟨x, hx, hx2⟩ := Option.bind_eq_some.1 h
    have hxb := render_resolve_balanced env l c a x hb hfmt hx
    cases hf : x.1.myFont with
    | none =>
      simp only [hf] at hx2
      cases hx2
      exact hxb
    | some f =>
      simp only [hf] at hx2
      by_cases ht : x.1.myTextures.isEmpty = true
      · rw [if_pos ht] at hx2
        cases hx2
        exact hxb
      · rw [if_neg ht] at hx2
        have e := render_draw_label env x.1 x.2 f a ct cs r hx2
        obtain ⟨-, m2, m3, m4⟩ := render_measure_frame env
          { x.1 with myExportHeight := 1, myScaleHeight := 1 } f a
          ((x.2.gl (GlState.onMatrices (glMatrixMode .GL_MODELVIEW))).gl
            (GlState.onMatrices glPushMatrix))
        unfold OpenGl_Text.Balanced
        rw [e, m2, m3, m4]
        exact hxb

theorem reachable_balanced (env : TextEnv) (hfmt : env.FormatterBalanced) (l : OpenGl_Text)
    (hr : l.Reachable env) : l.Balanced := by
  induction hr with
  | new uninit hl vb => exact ⟨rfl, rfl⟩
  | new_text uninit t p q => exact ⟨rfl, rfl⟩
  | Init l c t p r _ h ih =>
    unfold OpenGl_Text.Init at h
    obtain ⟨x, hx, rfl⟩ := Option.map_eq_some'.1 h
    exact (releaseVbos_balanced c l x hx).1
  | Init_3d l c t p q r _ h ih =>
    unfold OpenGl_Text.Init_3d at h
    obtain ⟨x, hx, rfl⟩ := Option.map_eq_some'.1 h
    split_ifs at hx
    · exact release_balanced c l x hx
    · exact (releaseVbos_balanced c l x hx).1
  | Init_2d l c t p q r _ h ih =>
    unfold OpenGl_Text.Init_2d at h
    obtain ⟨x, hx, rfl⟩ := Option.map_eq_some'.1 h
    split_ifs at hx
    · exact release_balanced c l x hx
    · exact (releaseVbos_balanced c l x hx).1
  | SetFontSize l c s r _ h ih =>
    unfold OpenGl_Text.SetFontSize at h
    obtain ⟨x, hx, rfl⟩ := Option.map_eq_some'.1 h
    split_ifs at hx
    · exact release_balanced c l x hx
    · cases hx
      exact ih
  | SetPosition l p _ ih => exact ih
  | Release l c r _ h ih => exact release_balanced c l r h
  | render l c a ct cs r _ h ih => exact render_balanced env l c a ct cs r ih hfmt h

/-! ## Glyph batches of reachable labels: verified properties -/

/-- C28: with a formatter that returns three lists of equal length, in every state of a
label reachable through the constructors, `Init`, `SetFontSize`, `SetPosition`, `Release`
and `render`, the texture list, the vertex-buffer list and the UV-buffer list have the same
length; every index of the texture list is in range for the two buffer lists and every
index of the vertex-buffer list is in range for the UV-buffer list, so that `drawText` and
`releaseVbos` return without reading outside the lists. -/
theorem reachable_label_has_whole_batches (env : TextEnv) (hfmt : env.FormatterBalanced)
    (l : OpenGl_Text) (hr : l.Reachable env) :
    l.myTextures.length = l.myVertsVbo.length ∧
    l.myVertsVbo.length = l.myTCrdsVbo.length ∧
    (∀ i, i < l.myTextures.length → i < l.myVertsVbo.length ∧ i < l.myTCrdsVbo.length) ∧
    (∀ i, i < l.myVertsVbo.length → i < l.myTCrdsVbo.length) ∧
    (∀ (a : OpenGl_AspectText) (c : TextContext), ∃ c', l.drawText a c = some c') ∧
    (∀ theCtx : Option TextContext, ∃ r, l.releaseVbos theCtx = some r) := by
  obtain ⟨h1, h2⟩ := reachable_balanced env hfmt l hr
  refine ⟨h1, h2, fun i hi => ⟨by omega, by omega⟩, fun i hi => by omega, fun a c => ?_,
    fun ctx => ⟨_, releaseVbos_eq ctx l (le_of_eq h2)⟩⟩
  exact ⟨_, drawText_eq l a c (le_of_eq h2)⟩

theorem reachable_label_has_whole_batches_witness :
    sampleTextEnv.FormatterBalanced ∧
    ∃ l : OpenGl_Text, l.Reachable sampleTextEnv ∧ l.myTextures = [7] ∧
      l.myTextures.length = l.myVertsVbo.length ∧
      l.myVertsVbo.length = l.myTCrdsVbo.length := by
  have hfmt : sampleTextEnv.FormatterBalanced := by
    intro l f
    simp [sampleTextEnv]
  have hsome : ((OpenGl_Text.new_text sampleLabel [65] ⟨0, 0, 0⟩ ⟨16, 0, 0⟩).render
      sampleTextEnv sampleTextContext courierAspect ⟨1, 1, 1⟩ ⟨0, 0, 0⟩).map
        (fun r => r.1.myTextures) = some [7] := rfl
  obtain ⟨r, hr, ht⟩ := Option.map_eq_some'.1 hsome
  have hreach : r.1.Reachable sampleTextEnv :=
    OpenGl_Text.Reachable.render _ _ _ _ _ r (OpenGl_Text.Reachable.new_text _ _ _ _) hr
  have h := reachable_label_has_whole_batches sampleTextEnv hfmt r.1 hreach
  exact ⟨hfmt, r.1, hreach, ht, h.1, h.2.1⟩

/-! ## Dimension geometry: auxiliary facts -/

theorem dot_self_eq_zero (v : Vec3) : v.dot v = 0 ↔ v = ⟨0, 0, 0⟩ := by
  constructor
  · intro h
    unfold Vec3.dot at h
    have hx : v.x = 0 := by
      nlinarith [mul_self_nonneg v.x, mul_self_nonneg v.y, mul_self_nonneg v.z]
    have hy : v.y = 0 := by
      nlinarith [mul_self_nonneg v.x, mul_self_nonneg v.y, mul_self_nonneg v.z]
    have hz : v.z = 0 := by
      nlinarith [mul_self_nonneg v.x, mul_self_nonneg v.y, mul_self_nonneg v.z]
    cases v
    simp_all
  · intro h
    rw [h]
    simp [Vec3.dot]

theorem sub_dot_self_eq_zero (p q : Vec3) : (p.sub q).dot (p.sub q) = 0 ↔ p = q := by
  rw [dot_self_eq_zero]
  cases p
  cases q
  simp only [Vec3.sub, Vec3.mk.injEq, sub_eq_zero]

/-! ## Dimension geometry: verified properties -/

/-- C23: `IsValidPoints` is true exactly when both points differ from the centre, so that
both vectors from the centre have non-zero length, the angle between the vectors is greater
than `Precision::Angular()` and the angle is not within that tolerance of `M_PI`; it is
false for every angle strictly below the tolerance, and true for an angle strictly above
the tolerance between vectors of non-zero length that is not within the tolerance of
`M_PI`. -/
theorem isValidPoints_boundary (g : GeomEnv) (P1 C P2 : Vec3) :
    (AIS_AngleDimension.IsValidPoints g P1 C P2 = true ↔
      P1 ≠ C ∧ P2 ≠ C ∧ g.Precision_Angular < g.Angle (P1.sub C) (P2.sub C) ∧
      g.Precision_Angular < |g.M_PI - g.Angle (P1.sub C) (P2.sub C)|) ∧
    (g.Angle (P1.sub C) (P2.sub C) < g.Precision_Angular →
      AIS_AngleDimension.IsValidPoints g P1 C P2 = false) ∧
    (P1 ≠ C → P2 ≠ C → g.Precision_Angular < g.Angle (P1.sub C) (P2.sub C) →
      g.Precision_Angular < |g.M_PI - g.Angle (P1.sub C) (P2.sub C)| →
      AIS_AngleDimension.IsValidPoints g P1 C P2 = true) := by
  have key : AIS_AngleDimension.IsValidPoints g P1 C P2 = true ↔
      P1 ≠ C ∧ P2 ≠ C ∧ g.Precision_Angular < g.Angle (P1.sub C) (P2.sub C) ∧
      g.Precision_Angular < |g.M_PI - g.Angle (P1.sub C) (P2.sub C)| := by
    unfold AIS_AngleDimension.IsValidPoints
    simp only [sub_dot_self_eq_zero]
    by_cases h1 : P1 = C
    · simp [h1]
    · by_cases h2 : P2 = C
      · simp [h2]
      · simp [h1, h2]
  refine ⟨key, fun h => ?_, fun h1 h2 h3 h4 => key.2 ⟨h1, h2, h3, h4⟩⟩
  cases hv : AIS_AngleDimension.IsValidPoints g P1 C P2
  · rfl
  · exact absurd (key.1 hv).2.2.1 (not_lt.mpr (le_of_lt h))

theorem isValidPoints_boundary_witness :
    AIS_AngleDimension.IsValidPoints sampleGeom ⟨1, 0, 0⟩ ⟨0, 0, 0⟩ ⟨0, 1, 0⟩ = true ∧
    AIS_AngleDimension.IsValidPoints sampleGeom ⟨1, 0, 0⟩ ⟨0, 0, 0⟩ ⟨2, 0, 0⟩ = false :=
  ⟨(isValidPoints_boundary sampleGeom ⟨1, 0, 0⟩ ⟨0, 0, 0⟩ ⟨0, 1, 0⟩).2.2
      (by decide) (by decide)
      (by simp [sampleGeom, Vec3.sub, Vec3.dot]; norm_num)
      (by simp [sampleGeom, Vec3.sub, Vec3.dot]; norm_num [abs_of_pos]),
   (isValidPoints_boundary sampleGeom ⟨1, 0, 0⟩ ⟨0, 0, 0⟩ ⟨2, 0, 0⟩).2.1
      (by simp [sampleGeom, Vec3.sub, Vec3.dot])⟩

/-- C24: for every circle whose radius is below `Precision::Confusion()`,
`SetMeasuredGeometry` leaves the dimension invalid whatever the plane and the former state;
for a circle of radius twice the (positive) tolerance whose centre is in the working plane,
the plane of the circle when the user set none, the dimension is valid and its value is
twice the radius. -/
theorem diameter_degeneracy (g : GeomEnv) (d : AIS_DiameterDimension) (theCircle : gp_Circ) :
    (theCircle.Radius < g.Precision_Confusion →
      (d.SetMeasuredGeometry g theCircle).myIsValid = false) ∧
    (0 < g.Precision_Confusion → theCircle.Radius = 2 * g.Precision_Confusion →
      (d.myIsPlaneCustom = true →
        d.myPlane.Normal.dot (theCircle.Location.sub d.myPlane.Location) = 0) →
      (d.SetMeasuredGeometry g theCircle).myIsValid = true ∧
      (d.SetMeasuredGeometry g theCircle).myValue = 2 * theCircle.Radius) := by
  constructor
  · intro h
    have : ¬ g.Precision_Confusion < theCircle.Radius := not_lt.mpr (le_of_lt h)
    simp [AIS_DiameterDimension.SetMeasuredGeometry, AIS_DiameterDimension.IsValidCircle, this]
  · intro htol hr hplane
    have hcirc : AIS_DiameterDimension.IsValidCircle g theCircle = true := by
      have h1 : g.Precision_Confusion < theCircle.Radius := by rw [hr]; linarith
      have h2 : g.Precision_Confusion < theCircle.Radius * 2 := by rw [hr]; linarith
      simp [AIS_DiameterDimension.IsValidCircle, h1, h2]
    have hnn : ∀ n : Vec3, 0 ≤ n.dot n := by
      intro n
      unfold Vec3.dot
      nlinarith [mul_self_nonneg n.x, mul_self_nonneg n.y, mul_self_nonneg n.z]
    have hcheck : AIS_DiameterDimension.CheckPlane g theCircle
        (if d.myIsPlaneCustom then d.myPlane else ⟨theCircle.Location, theCircle.Normal⟩)
          = true := by
      cases hc : d.myIsPlaneCustom
      · simp only [AIS_DiameterDimension.CheckPlane, gp_Pln.Contains, Bool.false_eq_true,
          if_false, decide_eq_true_eq]
        have : theCircle.Normal.dot (theCircle.Location.sub theCircle.Location) = 0 := by
          simp [Vec3.dot, Vec3.sub]
        rw [this]
        have := hnn theCircle.Normal
        have := sq_nonneg g.Precision_Confusion
        positivity
      · simp only [AIS_DiameterDimension.CheckPlane, gp_Pln.Contains, if_true,
          decide_eq_true_eq]
        rw [hplane hc]
        have := hnn d.myPlane.Normal
        have := sq_nonneg g.Precision_Confusion
        positivity
    have hv : (d.SetMeasuredGeometry g theCircle).myIsValid = true := by
      simp only [AIS_DiameterDimension.SetMeasuredGeometry, hcirc, hcheck, Bool.and_self]
    refine ⟨hv, ?_⟩
    simp only [AIS_DiameterDimension.SetMeasuredGeometry, hcirc, hcheck, Bool.and_self,
      if_true, AIS_DiameterDimension.ComputeValue]
    ring

theorem diameter_degeneracy_witness :
    (freshDiameter.SetMeasuredGeometry sampleGeom
        ⟨⟨0, 0, 0⟩, ⟨0, 0, 1⟩, 3 / 40000000⟩).myIsValid = false ∧
    (freshDiameter.SetMeasuredGeometry sampleGeom
        ⟨⟨1, 2, 3⟩, ⟨0, 0, 1⟩, 2 * sampleGeom.Precision_Confusion⟩).myIsValid = true :=
  ⟨(diameter_degeneracy sampleGeom freshDiameter ⟨⟨0, 0, 0⟩, ⟨0, 0, 1⟩, 3 / 40000000⟩).1
      (by simp [sampleGeom]; norm_num),
   ((diameter_degeneracy sampleGeom freshDiameter
      ⟨⟨1, 2, 3⟩, ⟨0, 0, 1⟩, 2 * sampleGeom.Precision_Confusion⟩).2
      (by simp [sampleGeom]) rfl (by simp [freshDiameter])).1⟩

/-! ## Constant pixel height: auxiliary facts -/

theorem eyeCoordinates_identity (obj : Vec3) :
    eyeCoordinates THE_IDENTITY_MATRIX obj 0 = obj.x ∧
    eyeCoordinates THE_IDENTITY_MATRIX obj 1 = obj.y ∧
    eyeCoordinates THE_IDENTITY_MATRIX obj 2 = obj.z ∧
    eyeCoordinates THE_IDENTITY_MATRIX obj 3 = 1 := by
  simp [eyeCoordinates, THE_IDENTITY_MATRIX]

/-- The eye coordinates of a glyph point `(x, y, 0)` under the matrix that `setupMatrix`
builds from the anchor `o` and the scale `s` when the rotation is the identity. -/
theorem eyeCoordinates_billboard (o : Vec3) (s x y : ℚ) :
    eyeCoordinates
        (((THE_IDENTITY_MATRIX.mul (translationMatrix o.x o.y o.z)).mul
          THE_IDENTITY_MATRIX).mul (scaleMatrix s s s)) ⟨x, y, 0⟩ 0 = o.x + s * x ∧
    eyeCoordinates
        (((THE_IDENTITY_MATRIX.mul (translationMatrix o.x o.y o.z)).mul
          THE_IDENTITY_MATRIX).mul (scaleMatrix s s s)) ⟨x, y, 0⟩ 1 = o.y + s * y ∧
    eyeCoordinates
        (((THE_IDENTITY_MATRIX.mul (translationMatrix o.x o.y o.z)).mul
          THE_IDENTITY_MATRIX).mul (scaleMatrix s s s)) ⟨x, y, 0⟩ 2 = o.z ∧
    eyeCoordinates
        (((THE_IDENTITY_MATRIX.mul (translationMatrix o.x o.y o.z)).mul
          THE_IDENTITY_MATRIX).mul (scaleMatrix s s s)) ⟨x, y, 0⟩ 3 = 1 := by
  refine ⟨?_, ?_, ?_, ?_⟩ <;>
    simp [eyeCoordinates, Mat4.mul, translationMatrix, scaleMatrix, Mat4.set,
      THE_IDENTITY_MATRIX] <;> ring

theorem windowCoordinates_eq_some (m p : Mat4) (vp : Viewport) (obj w : Vec3)
    (h : windowCoordinates m p vp obj = some w) :
    clipCoordinates p (eyeCoordinates m obj) 3 ≠ 0 ∧
    w.y = vp.y + vp.height *
      (clipCoordinates p (eyeCoordinates m obj) 1
        / clipCoordinates p (eyeCoordinates m obj) 3 + 1) / 2 ∧
    w.z = (clipCoordinates p (eyeCoordinates m obj) 2
        / clipCoordinates p (eyeCoordinates m obj) 3 + 1) / 2 := by
  unfold windowCoordinates at h
  by_cases h0 : clipCoordinates p (eyeCoordinates m obj) 3 = 0
  · simp [h0] at h
  · simp only [h0, if_false, Option.some.injEq] at h
    rw [← h]
    exact ⟨h0, rfl, rfl⟩

theorem windowCoordinates_of_ne (m p : Mat4) (vp : Viewport) (obj : Vec3)
    (h0 : clipCoordinates p (eyeCoordinates m obj) 3 ≠ 0) :
    ∃ w, windowCoordinates m p vp obj = some w ∧
      w.y = vp.y + vp.height *
        (clipCoordinates p (eyeCoordinates m obj) 1
          / clipCoordinates p (eyeCoordinates m obj) 3 + 1) / 2 := by
  unfold windowCoordinates
  simp only [h0, if_false]
  exact ⟨_, rfl, rfl⟩

/-- The pixel height of a glyph under an orthographic projection. -/
theorem billboard_height_orthographic (p : Mat4) (vp : Viewport) (hp : IsOrthographic p)
    (h : ℚ) (hh : h ≠ 0) (p1 p2 w0 w1 : Vec3)
    (e1 : windowCoordinates THE_IDENTITY_MATRIX p vp p1 = some w0)
    (e2 : windowCoordinates THE_IDENTITY_MATRIX p vp p2 = some w1)
    (hw : w1.y = w0.y + h) (o : Vec3) (x y g : ℚ) :
    ∃ top bot,
      windowCoordinates
        (((THE_IDENTITY_MATRIX.mul (translationMatrix o.x o.y o.z)).mul
          THE_IDENTITY_MATRIX).mul
          (scaleMatrix ((p2.y - p1.y) / h) ((p2.y - p1.y) / h) ((p2.y - p1.y) / h)))
        p vp ⟨x, y + g, 0⟩ = some top ∧
      windowCoordinates
        (((THE_IDENTITY_MATRIX.mul (translationMatrix o.x o.y o.z)).mul
          THE_IDENTITY_MATRIX).mul
          (scaleMatrix ((p2.y - p1.y) / h) ((p2.y - p1.y) / h) ((p2.y - p1.y) / h)))
        p vp ⟨x, y, 0⟩ = some bot ∧
      top.y - bot.y = g := by
  obtain ⟨h01, h21, h11, h03, h13, h23, h33⟩ := hp
  obtain ⟨-, y1, -⟩ := windowCoordinates_eq_some _ _ _ _ _ e1
  obtain ⟨-, y2, -⟩ := windowCoordinates_eq_some _ _ _ _ _ e2
  obtain ⟨a0, a1, a2, a3⟩ := eyeCoordinates_identity p1
  obtain ⟨b0, b1, b2, b3⟩ := eyeCoordinates_identity p2
  simp only [clipCoordinates, a0, a1, a2, a3, b0, b1, b2, b3, h01, h21, h03, h13, h23, h33]
    at y1 y2
  obtain ⟨t0, t1, t2, t3⟩ := eyeCoordinates_billboard o ((p2.y - p1.y) / h) x (y + g)
  obtain ⟨u0, u1, u2, u3⟩ := eyeCoordinates_billboard o ((p2.y - p1.y) / h) x y
  have ct : clipCoordinates p (eyeCoordinates
      (((THE_IDENTITY_MATRIX.mul (translationMatrix o.x o.y o.z)).mul
        THE_IDENTITY_MATRIX).mul
        (scaleMatrix ((p2.y - p1.y) / h) ((p2.y - p1.y) / h) ((p2.y - p1.y) / h)))
      ⟨x, y + g, 0⟩) 3 = 1 := by
    simp only [clipCoordinates, t0, t1, t2, t3, h03, h13, h23, h33]
    ring
  have cb : clipCoordinates p (eyeCoordinates
      (((THE_IDENTITY_MATRIX.mul (translationMatrix o.x o.y o.z)).mul
        THE_IDENTITY_MATRIX).mul
        (scaleMatrix ((p2.y - p1.y) / h) ((p2.y - p1.y) / h) ((p2.y - p1.y) / h)))
      ⟨x, y, 0⟩) 3 = 1 := by
    simp only [clipCoordinates, u0, u1, u2, u3, h03, h13, h23, h33]
    ring
  obtain ⟨top, et, yt⟩ := windowCoordinates_of_ne _ p vp _ (by rw [ct]; exact one_ne_zero)
  obtain ⟨bot, eb, yb⟩ := windowCoordinates_of_ne _ p vp _ (by rw [cb]; exact one_ne_zero)
  refine ⟨top, bot, et, eb, ?_⟩
  rw [yt, yb, ct, cb]
  simp only [clipCoordinates, t0, t1, t2, t3, u0, u1, u2, u3, h01, h21]
  have key : (vp.height : ℚ) * p 1 1 * (p2.y - p1.y) = 2 * h := by
    have := hw
    rw [y1, y2] at this
    field_simp at this
    linarith
  field_simp
  linear_combination g * key

/-- The pixel height of a glyph under a standard perspective projection. -/
theorem billboard_height_perspective (p : Mat4) (vp : Viewport) (hp : IsPerspective p)
    (h : ℚ) (hh : h ≠ 0) (p1 p2 o w0 w1 w2 : Vec3)
    (e1 : windowCoordinates THE_IDENTITY_MATRIX p vp p1 = some w0)
    (e2 : windowCoordinates THE_IDENTITY_MATRIX p vp p2 = some w1)
    (e3 : windowCoordinates THE_IDENTITY_MATRIX p vp o = some w2)
    (hw : w1.y = w0.y + h) (hz1 : w1.z = w0.z) (hz2 : w2.z = w0.z) (x y g : ℚ) :
    ∃ top bot,
      windowCoordinates
        (((THE_IDENTITY_MATRIX.mul (translationMatrix o.x o.y o.z)).mul
          THE_IDENTITY_MATRIX).mul
          (scaleMatrix ((p2.y - p1.y) / h) ((p2.y - p1.y) / h) ((p2.y - p1.y) / h)))
        p vp ⟨x, y + g, 0⟩ = some top ∧
      windowCoordinates
        (((THE_IDENTITY_MATRIX.mul (translationMatrix o.x o.y o.z)).mul
          THE_IDENTITY_MATRIX).mul
          (scaleMatrix ((p2.y - p1.y) / h) ((p2.y - p1.y) / h) ((p2.y - p1.y) / h)))
        p vp ⟨x, y, 0⟩ = some bot ∧
      top.y - bot.y = g := by
  obtain ⟨h01, h31, h11, h02, h12, h32, h03, h13, h23, h33⟩ := hp
  obtain ⟨n1, y1, z1⟩ := windowCoordinates_eq_some _ _ _ _ _ e1
  obtain ⟨n2, y2, z2⟩ := windowCoordinates_eq_some _ _ _ _ _ e2
  obtain ⟨n3, -, z3⟩ := windowCoordinates_eq_some _ _ _ _ _ e3
  obtain ⟨a0, a1, a2, a3⟩ := eyeCoordinates_identity p1
  obtain ⟨b0, b1, b2, b3⟩ := eyeCoordinates_identity p2
  obtain ⟨c0, c1, c2, c3⟩ := eyeCoordinates_identity o
  simp only [clipCoordinates, a0, a1, a2, a3, b0, b1, b2, b3, c0, c1, c2, c3, h01, h31, h02,
    h12, h03, h13, h23, h33, zero_mul, mul_zero, zero_add, add_zero, mul_one]
    at n1 n2 n3 y1 y2 z1 z2 z3
  have hp1 : p1.z ≠ 0 := fun h0 => n1 (by rw [h0]; ring)
  have hp2 : p2.z ≠ 0 := fun h0 => n2 (by rw [h0]; ring)
  have ho : o.z ≠ 0 := fun h0 => n3 (by rw [h0]; ring)
  simp only [neg_one_mul, div_neg] at y1 y2 z1 z2 z3
  -- the three points have the same depth
  have d12 : p2.z = p1.z := by
    have := hz1
    rw [z1, z2] at this
    field_simp at this
    have h' : p 3 2 * (p2.z - p1.z) = 0 := by linear_combination (1 / 2) * this
    rcases mul_eq_zero.1 h' with h0 | h0
    · exact (h32 h0).elim
    · linarith
  have d13 : o.z = p1.z := by
    have := hz2
    rw [z1, z3] at this
    field_simp at this
    have h' : p 3 2 * (o.z - p1.z) = 0 := by linear_combination (1 / 2) * this
    rcases mul_eq_zero.1 h' with h0 | h0
    · exact (h32 h0).elim
    · linarith
  obtain ⟨t0, t1, t2, t3⟩ := eyeCoordinates_billboard o ((p2.y - p1.y) / h) x (y + g)
  obtain ⟨u0, u1, u2, u3⟩ := eyeCoordinates_billboard o ((p2.y - p1.y) / h) x y
  have ct : clipCoordinates p (eyeCoordinates
      (((THE_IDENTITY_MATRIX.mul (translationMatrix o.x o.y o.z)).mul
        THE_IDENTITY_MATRIX).mul
        (scaleMatrix ((p2.y - p1.y) / h) ((p2.y - p1.y) / h) ((p2.y - p1.y) / h)))
      ⟨x, y + g, 0⟩) 3 = -o.z := by
    simp only [clipCoordinates, t0, t1, t2, t3, h03, h13, h23, h33]
    ring
  have cb : clipCoordinates p (eyeCoordinates
      (((THE_IDENTITY_MATRIX.mul (translationMatrix o.x o.y o.z)).mul
        THE_IDENTITY_MATRIX).mul
        (scaleMatrix ((p2.y - p1.y) / h) ((p2.y - p1.y) / h) ((p2.y - p1.y) / h)))
      ⟨x, y, 0⟩) 3 = -o.z := by
    simp only [clipCoordinates, u0, u1, u2, u3, h03, h13, h23, h33]
    ring
  obtain ⟨top, et, yt⟩ := windowCoordinates_of_ne _ p vp _ (by rw [ct]; exact neg_ne_zero.2 ho)
  obtain ⟨bot, eb, yb⟩ := windowCoordinates_of_ne _ p vp _ (by rw [cb]; exact neg_ne_zero.2 ho)
  refine ⟨top, bot, et, eb, ?_⟩
  rw [yt, yb, ct, cb]
  simp only [clipCoordinates, t0, t1, t2, t3, u0, u1, u2, u3, h01, h31, div_neg]
  have key : (vp.height : ℚ) * p 1 1 * (p2.y - p1.y) = -(2 * h * p1.z) := by
    have := hw
    rw [y1, y2, d12] at this
    field_simp at this
    linarith
  rw [d13]
  field_simp
  linear_combination (-g) * key

/-- What `render_measure` stores for a 3D label that is not zoomable: the projection and the
viewport of the context, and the scale factor from the two unprojections. -/
theorem render_measure_3d (env : TextEnv) (l : OpenGl_Text) (f : OpenGl_Font)
    (a : OpenGl_AspectText) (c : TextContext) (h3d : l.myIs2d = false) :
    (l.render_measure env f a c).myIs2d = false ∧
    (l.render_measure env f a c).myProjMatrix = c.gpu.matrices.projection.top ∧
    (l.render_measure env f a c).myViewport = c.gpu.matrices.viewport ∧
    (l.render_measure env f a c).myScaleHeight
      = (((env.glu.gluUnProject
            ⟨(l.render_measure env f a c).myWinX,
              (l.render_measure env f a c).myWinY + (f.PointSize : ℚ),
              (l.render_measure env f a c).myWinZ⟩
            THE_IDENTITY_MATRIX c.gpu.matrices.projection.top
            c.gpu.matrices.viewport).getD env.glu.uninit).y
          - ((env.glu.gluUnProject
            ⟨(l.render_measure env f a c).myWinX, (l.render_measure env f a c).myWinY,
              (l.render_measure env f a c).myWinZ⟩
            THE_IDENTITY_MATRIX c.gpu.matrices.projection.top
            c.gpu.matrices.viewport).getD env.glu.uninit).y) / (f.PointSize : ℚ) := by
  unfold OpenGl_Text.render_measure
  cases hz : a.IsZoomable <;> simp [h3d]

/-! ## Constant pixel height: verified properties -/

/-- C21: for a 3D label that is not zoomable, drawn with rotation angle 0 and without extra
offset, under an orthographic or a standard perspective projection and a GLU whose
`gluUnProject` is exact at the depth of the anchor, a glyph segment of height `g` in the
plane of the text, placed by the matrix that `setupMatrix` builds from the scale factor of
`render_measure`, covers exactly `g` pixels of window height, whatever the model-view matrix
of the context, that is at every camera distance. -/
theorem billboard_scale_invariance (env : TextEnv) (l : OpenGl_Text) (f : OpenGl_Font)
    (a : OpenGl_AspectText) (c : TextContext) (m : OpenGl_Context)
    (h3d : l.myIs2d = false) (hzoom : a.IsZoomable = false) (hang : a.Angle = 0)
    (hrot : env.rotationZ 0 = THE_IDENTITY_MATRIX) (hmode : m.matrixMode = .GL_MODELVIEW)
    (hproj : IsOrthographic c.gpu.matrices.projection.top ∨
      IsPerspective c.gpu.matrices.projection.top)
    (hsize : f.PointSize ≠ 0)
    (hglu : ∀ w : Vec3, w.z = (l.render_measure env f a c).myWinZ →
      env.glu.UnProjectsExactly c.gpu.matrices.projection.top c.gpu.matrices.viewport w)
    (x y g : ℚ) :
    ∃ top bot,
      windowCoordinates
        (((l.render_measure env f a c).setupMatrix env a ⟨0, 0, 0⟩ m).modelView.top)
        c.gpu.matrices.projection.top c.gpu.matrices.viewport ⟨x, y + g, 0⟩ = some top ∧
      windowCoordinates
        (((l.render_measure env f a c).setupMatrix env a ⟨0, 0, 0⟩ m).modelView.top)
        c.gpu.matrices.projection.top c.gpu.matrices.viewport ⟨x, y, 0⟩ = some bot ∧
      top.y - bot.y = g := by
  obtain ⟨r1, r2, r3, r4⟩ := render_measure_3d env l f a c h3d
  generalize l.render_measure env f a c = L at *
  have hh : (f.PointSize : ℚ) ≠ 0 := by exact_mod_cast hsize
  obtain ⟨p1, u1, e1⟩ := hglu ⟨L.myWinX, L.myWinY, L.myWinZ⟩ rfl
  obtain ⟨p2, u2, e2⟩ := hglu ⟨L.myWinX, L.myWinY + (f.PointSize : ℚ), L.myWinZ⟩ rfl
  obtain ⟨o, u3, e3⟩ := hglu ⟨(⌊L.myWinX⌋ : Int), (⌊L.myWinY⌋ : Int), L.myWinZ⟩ rfl
  have hM : (L.setupMatrix env a ⟨0, 0, 0⟩ m).modelView.top
      = ((THE_IDENTITY_MATRIX.mul (translationMatrix o.x o.y o.z)).mul
          THE_IDENTITY_MATRIX).mul
          (scaleMatrix ((p2.y - p1.y) / (f.PointSize : ℚ)) ((p2.y - p1.y) / (f.PointSize : ℚ))
            ((p2.y - p1.y) / (f.PointSize : ℚ))) := by
    rw [setupMatrix_eq]
    simp only [onCurrentStack, hmode, MatrixStack.load, OpenGl_Text.setupMatrix_result, r1,
      r2, r3, r4, hzoom, hang, hrot, add_zero, u1, u2, u3, Option.getD_some]
    simp
  rw [hM]
  rcases hproj with hp | hp
  · exact billboard_height_orthographic _ _ hp _ hh p1 p2 _ _ e1 e2 rfl o x y g
  · exact billboard_height_perspective _ _ hp _ hh p1 p2 o _ _ _ e1 e2 e3 rfl rfl rfl x y g

theorem billboard_scale_invariance_witness :
    IsOrthographic sampleTextContext.gpu.matrices.projection.top ∧
    (∀ w : Vec3,
      orthoTextEnv.glu.UnProjectsExactly sampleTextContext.gpu.matrices.projection.top
        sampleTextContext.gpu.matrices.viewport w) ∧
    ∃ top bot,
      windowCoordinates
        (((spaceLabel.render_measure orthoTextEnv fixedFont courierAspect
            sampleTextContext).setupMatrix orthoTextEnv courierAspect ⟨0, 0, 0⟩
            sampleContext).modelView.top)
        sampleTextContext.gpu.matrices.projection.top
        sampleTextContext.gpu.matrices.viewport ⟨0, 0 + 12, 0⟩ = some top ∧
      windowCoordinates
        (((spaceLabel.render_measure orthoTextEnv fixedFont courierAspect
            sampleTextContext).setupMatrix orthoTextEnv courierAspect ⟨0, 0, 0⟩
            sampleContext).modelView.top)
        sampleTextContext.gpu.matrices.projection.top
        sampleTextContext.gpu.matrices.viewport ⟨0, 0, 0⟩ = some bot ∧
      top.y - bot.y = 12 := by
  have hP : sampleTextContext.gpu.matrices.projection.top = THE_IDENTITY_MATRIX := rfl
  have hV : sampleTextContext.gpu.matrices.viewport = ⟨0, 0, 640, 480⟩ := rfl
  have hortho : IsOrthographic sampleTextContext.gpu.matrices.projection.top := by
    rw [hP]
    simp [IsOrthographic, THE_IDENTITY_MATRIX]
  have hglu : ∀ w : Vec3,
      orthoTextEnv.glu.UnProjectsExactly sampleTextContext.gpu.matrices.projection.top
        sampleTextContext.gpu.matrices.viewport w := by
    intro w
    rw [hP, hV]
    refine ⟨⟨w.x / 320 - 1, w.y / 240 - 1, 2 * w.z - 1⟩, ?_, ?_⟩
    · simp [orthoTextEnv, orthoGlu, THE_IDENTITY_MATRIX]
      refine ⟨fun i j hij _ => hij, ?_, ?_⟩ <;> ring
    · simp [windowCoordinates, clipCoordinates, eyeCoordinates, THE_IDENTITY_MATRIX]
      cases w
      simp only [Vec3.mk.injEq, and_true]
      constructor <;> ring
  exact ⟨hortho, hglu,
    billboard_scale_invariance orthoTextEnv spaceLabel fixedFont courierAspect
      sampleTextContext sampleContext rfl rfl rfl rfl rfl (Or.inl hortho) (by decide)
      (fun w _ => hglu w) 0 0 12⟩

end OCCT
